import Mathlib

/-!
Verification development for the drawio-to-Threagile conversion pipeline
(`src/components/component_detector.py`, `src/components/composite_component.py`,
`src/flows/flow_detector.py`, `src/threats/threat_detector.py`,
`src/utils/validators.py`, `src/mappers/threagile_mapper.py`,
`src/validators/threagile_validator.py`).

The Python code operates on heterogeneous dictionaries.  We use a shallow
embedding: Python values are modelled by the inductive type `Val`
(None / bool / number / string / list / dict), with dictionaries as ordered
association lists (Python dicts preserve insertion order).  Numbers are
modelled by exact rationals.  Places where the Python code can raise an
exception are modelled with `Except String`; the error string names the
Python exception.  Python `set`s are modelled as insertion-ordered duplicate
free lists; Python iterates a set in an unspecified (hash based) order, so
only order-insensitive facts (membership, cardinality) are stated about them.
`hash(...)` is process-salted in Python, so it is passed in explicitly as a
function parameter `pyhash`.  `datetime.now()` is passed in explicitly as the
`today` string parameter of the mapper.
-/

namespace XmlYaml

set_option maxRecDepth 100000

attribute [local semireducible] Rat.add Rat.mul Rat.sub Rat.inv Rat.ofScientific

/-- Model of a Python value (None, bool, int/float as exact rational, str,
list, dict as insertion-ordered association list with string keys). -/
inductive Val : Type where
  | vnone : Val
  | vbool : Bool → Val
  | vnum : ℚ → Val
  | vstr : String → Val
  | vlist : List Val → Val
  | vdict : List (String × Val) → Val
deriving Repr

open Val

mutual

/-- Decidable equality on `Val` (written by hand: `deriving` does not handle
the nested occurrences of `List`). -/
def valDecEq : (a b : Val) → Decidable (a = b)
  | vnone, vnone => isTrue rfl
  | vnone, vbool _ => isFalse (fun h => Val.noConfusion h)
  | vnone, vnum _ => isFalse (fun h => Val.noConfusion h)
  | vnone, vstr _ => isFalse (fun h => Val.noConfusion h)
  | vnone, vlist _ => isFalse (fun h => Val.noConfusion h)
  | vnone, vdict _ => isFalse (fun h => Val.noConfusion h)
  | vbool _, vnone => isFalse (fun h => Val.noConfusion h)
  | vbool a, vbool b =>
      match decEq a b with
      | isTrue h => isTrue (by rw [h])
      | isFalse h => isFalse (fun hh => h (by injection hh))
  | vbool _, vnum _ => isFalse (fun h => Val.noConfusion h)
  | vbool _, vstr _ => isFalse (fun h => Val.noConfusion h)
  | vbool _, vlist _ => isFalse (fun h => Val.noConfusion h)
  | vbool _, vdict _ => isFalse (fun h => Val.noConfusion h)
  | vnum _, vnone => isFalse (fun h => Val.noConfusion h)
  | vnum _, vbool _ => isFalse (fun h => Val.noConfusion h)
  | vnum a, vnum b =>
      match decEq a b with
      | isTrue h => isTrue (by rw [h])
      | isFalse h => isFalse (fun hh => h (by injection hh))
  | vnum _, vstr _ => isFalse (fun h => Val.noConfusion h)
  | vnum _, vlist _ => isFalse (fun h => Val.noConfusion h)
  | vnum _, vdict _ => isFalse (fun h => Val.noConfusion h)
  | vstr _, vnone => isFalse (fun h => Val.noConfusion h)
  | vstr _, vbool _ => isFalse (fun h => Val.noConfusion h)
  | vstr _, vnum _ => isFalse (fun h => Val.noConfusion h)
  | vstr a, vstr b =>
      match decEq a b with
      | isTrue h => isTrue (by rw [h])
      | isFalse h => isFalse (fun hh => h (by injection hh))
  | vstr _, vlist _ => isFalse (fun h => Val.noConfusion h)
  | vstr _, vdict _ => isFalse (fun h => Val.noConfusion h)
  | vlist _, vnone => isFalse (fun h => Val.noConfusion h)
  | vlist _, vbool _ => isFalse (fun h => Val.noConfusion h)
  | vlist _, vnum _ => isFalse (fun h => Val.noConfusion h)
  | vlist _, vstr _ => isFalse (fun h => Val.noConfusion h)
  | vlist a, vlist b =>
      match valListDecEq a b with
      | isTrue h => isTrue (by rw [h])
      | isFalse h => isFalse (fun hh => h (by injection hh))
  | vlist _, vdict _ => isFalse (fun h => Val.noConfusion h)
  | vdict _, vnone => isFalse (fun h => Val.noConfusion h)
  | vdict _, vbool _ => isFalse (fun h => Val.noConfusion h)
  | vdict _, vnum _ => isFalse (fun h => Val.noConfusion h)
  | vdict _, vstr _ => isFalse (fun h => Val.noConfusion h)
  | vdict _, vlist _ => isFalse (fun h => Val.noConfusion h)
  | vdict a, vdict b =>
      match valEntriesDecEq a b with
      | isTrue h => isTrue (by rw [h])
      | isFalse h => isFalse (fun hh => h (by injection hh))

/-- Decidable equality on lists of `Val`. -/
def valListDecEq : (a b : List Val) → Decidable (a = b)
  | [], [] => isTrue rfl
  | [], _ :: _ => isFalse (fun h => List.noConfusion h)
  | _ :: _, [] => isFalse (fun h => List.noConfusion h)
  | x :: xs, y :: ys =>
      match valDecEq x y with
      | isFalse h => isFalse (fun hh => h (by injection hh))
      | isTrue h1 =>
        match valListDecEq xs ys with
        | isTrue h2 => isTrue (by rw [h1, h2])
        | isFalse h => isFalse (fun hh => h (by injection hh))

/-- Decidable equality on dict entry lists. -/
def valEntriesDecEq : (a b : List (String × Val)) → Decidable (a = b)
  | [], [] => isTrue rfl
  | [], _ :: _ => isFalse (fun h => List.noConfusion h)
  | _ :: _, [] => isFalse (fun h => List.noConfusion h)
  | (k1, x) :: xs, (k2, y) :: ys =>
      match decEq k1 k2 with
      | isFalse h => isFalse (fun hh => by
          injection hh with h1 h2
          exact h (congrArg Prod.fst h1))
      | isTrue hk =>
        match valDecEq x y with
        | isFalse h => isFalse (fun hh => by
            injection hh with h1 h2
            exact h (congrArg Prod.snd h1))
        | isTrue hv =>
          match valEntriesDecEq xs ys with
          | isTrue h2 => isTrue (by rw [hk, hv, h2])
          | isFalse h => isFalse (fun hh => h (by injection hh))

end

instance : DecidableEq Val := valDecEq

/-- Python truthiness of a value (`bool(v)`). -/
def pyTruthy : Val → Bool
  | vnone => false
  | vbool b => b
  | vnum q => q ≠ 0
  | vstr s => s ≠ ""
  | vlist xs => ¬ xs.isEmpty
  | vdict d => ¬ d.isEmpty

/-- Lookup in an association-list dictionary (first binding wins, as in a
Python dict whose keys are unique). -/
def dlookup (d : List (String × Val)) (k : String) : Option Val :=
  match d with
  | [] => none
  | (k0, v0) :: rest => if k0 = k then some v0 else dlookup rest k

/-- Python `d[k] = v` on an association list: replace in place, else append
(Python dicts keep the original insertion position on update). -/
def dset (d : List (String × Val)) (k : String) (v : Val) : List (String × Val) :=
  match d with
  | [] => [(k, v)]
  | (k0, v0) :: rest => if k0 = k then (k0, v) :: rest else (k0, v0) :: dset rest k v

/-- Python `obj.get(k, dflt)` for a value known to be a dict; any other
receiver raises AttributeError at the call sites, which is threaded where
it matters. -/
def vget (o : Val) (k : String) (dflt : Val) : Val :=
  match o with
  | vdict d => (dlookup d k).getD dflt
  | _ => dflt

/-- Python `obj.get(k, dflt)`, raising AttributeError on a non-dict receiver. -/
def pyGetD (o : Val) (k : String) (dflt : Val) : Except String Val :=
  match o with
  | vdict d => Except.ok ((dlookup d k).getD dflt)
  | _ => Except.error "AttributeError"

/-- Characters matched by the regex class backslash-s (ASCII). -/
def isPySpace (c : Char) : Bool :=
  c = ' ' || c = '\t' || c = '\n' || c = '\x0d' || c = '\x0b' || c = '\x0c'

/-- Python `needle in hay` for strings: substring containment. -/
def strContains (hay needle : String) : Bool :=
  hay.toList.tails.any (fun t => needle.toList.isPrefixOf t)

/-- Python `str.lower()` on the character list (ASCII case mapping, which
covers every string these tables and tests use). -/
def strLower (s : String) : String :=
  String.mk (s.toList.map Char.toLower)

/-- Python `k in obj`: key membership for dicts, substring for strings,
membership for lists; TypeError otherwise. -/
def pyContainsKey (o : Val) (k : String) : Except String Bool :=
  match o with
  | vdict d => Except.ok (dlookup d k).isSome
  | vstr s => Except.ok (strContains s k)
  | vlist xs => Except.ok (decide (vstr k ∈ xs))
  | _ => Except.error "TypeError"

/-- Python `==` between two values: numbers and booleans compare by numeric
value (True == 1, False == 0); everything else structurally.  (For lists and
dicts Python compares recursively / key-wise; the call sites in this
development only ever compare scalars.) -/
def pyEq (a b : Val) : Bool :=
  match a, b with
  | vbool x, vnum q => q = (if x then 1 else 0)
  | vnum q, vbool x => q = (if x then 1 else 0)
  | vbool x, vbool y => x = y
  | _, _ => a = b

/-- Python `v in l` for a list of values, using Python equality. -/
def pyMem (v : Val) (l : List Val) : Bool :=
  l.any (pyEq v)

/-- Python `str.lower()`, raising AttributeError on a non-string. -/
def pyLower : Val → Except String String
  | vstr s => Except.ok (strLower s)
  | _ => Except.error "AttributeError"

/-- Python `len(v)` for strings, lists and dicts; TypeError otherwise. -/
def pyLen : Val → Except String ℕ
  | vstr s => Except.ok s.length
  | vlist xs => Except.ok xs.length
  | vdict d => Except.ok d.length
  | _ => Except.error "TypeError"

/-- Python iteration `for x in v`: lists yield elements, strings yield
one-character strings, dicts yield their keys; TypeError otherwise. -/
def pyIter : Val → Except String (List Val)
  | vlist xs => Except.ok xs
  | vstr s => Except.ok (s.toList.map (fun c => vstr (String.singleton c)))
  | vdict d => Except.ok (d.map (fun kv => vstr kv.fst))
  | _ => Except.error "TypeError"

/-- Values Python can hash (needed for set membership); lists and dicts are
unhashable and raise TypeError when put in a set. -/
def pyHashable : Val → Bool
  | vlist _ => false
  | vdict _ => false
  | _ => true

/-- Python `str(v)`, abridged: exact for strings (the only case that is
load-bearing in the theorems below, namely the duplicate-id error message);
schematic for containers.  Message text is never branched on by the code. -/
def pyStr : Val → String
  | vnone => "None"
  | vbool true => "True"
  | vbool false => "False"
  | vnum q => if q.den = 1 then toString q.num else toString q
  | vstr s => s
  | vlist _ => "[...]"
  | vdict _ => "dict"

/-- Insert into a Python set modelled as an insertion-ordered duplicate-free
list.  (Python iterates sets in an unspecified hash order; only membership
and cardinality of sets are used in the stated theorems.) -/
def setAdd (l : List Val) (x : Val) : List Val :=
  if x ∈ l then l else l ++ [x]

/-- Fold `setAdd` over a list (Python `set.update`). -/
def setAddAll (l : List Val) (xs : List Val) : List Val :=
  xs.foldl setAdd l

/-- String-set variant of `setAdd`. -/
def ssetAdd (l : List String) (x : String) : List String :=
  if x ∈ l then l else l ++ [x]

/-- String-set variant of `setAddAll`. -/
def ssetAddAll (l : List String) (xs : List String) : List String :=
  xs.foldl ssetAdd l

/-!
Mini regex matcher.  Every regex in the pipeline is of the shape
`(?i)(alt1|alt2|...)` where each alternative is a literal, possibly with
embedded occurrences of the whitespace wildcard (written as a chunk break
below).  Such a pattern, searched with `re.search` on an already lowercased
string, matches iff some alternative matches at some position; an
alternative `c1 c2 ... cn` (chunks separated by the whitespace wildcard)
matches at a position iff `c1` is a prefix there, then after zero or more
whitespace characters `c2` is a prefix, and so on.  Because every chunk in
the tables starts with a non-whitespace character, the greedy skip below is
exactly the regex semantics.  An alternative is a `List String` of chunks;
a pattern is a `List` of alternatives.
-/

/-- Match a chunk list at the head of `t`, skipping whitespace between
chunks. -/
def altMatchesAt : List (List Char) → List Char → Bool
  | [], _ => true
  | [c], t => c.isPrefixOf t
  | c :: rest, t =>
      c.isPrefixOf t && altMatchesAt rest ((t.drop c.length).dropWhile isPySpace)

/-- `re.search` of an alternation pattern on a string. -/
def reSearch (p : List (List String)) (value : String) : Bool :=
  value.toList.tails.any (fun t => p.any (fun alt => altMatchesAt (alt.map String.toList) t))

/-- Any of a list of alternation patterns matches (`any(re.search(p, v) ...)`). -/
def reSearchAny (ps : List (List (List String))) (value : String) : Bool :=
  ps.any (fun p => reSearch p value)

/-!  `component_types.py`: the COMPONENT_TYPES table. -/

/-- Per-type attributes from COMPONENT_TYPES. -/
structure TypeInfo where
  styles : List String
  authentication : String
  authorization : String
  data_sensitivity : String
deriving DecidableEq, Repr

/-- The COMPONENT_TYPES table of `component_types.py`, in declaration order. -/
def COMPONENT_TYPES : List (String × TypeInfo) :=
  [("web-application", ⟨["web", "browser", "client", "frontend", "ui", "interface"], "required", "required", "internal"⟩),
   ("api", ⟨["api", "rest", "graphql", "endpoint", "service"], "required", "required", "internal"⟩),
   ("database", ⟨["database", "db", "sql", "nosql", "postgres", "mysql", "mongodb", "oracle"], "required", "required", "confidential"⟩),
   ("cloud-service", ⟨["cloud", "aws", "azure", "gcp", "s3", "lambda", "function"], "required", "required", "internal"⟩),
   ("serverless", ⟨["lambda", "function", "serverless", "faas"], "required", "required", "internal"⟩),
   ("microservice", ⟨["service", "microservice", "ms", "backend"], "required", "required", "internal"⟩),
   ("load-balancer", ⟨["load-balancer", "lb", "haproxy", "nginx"], "none", "none", "public"⟩),
   ("cache", ⟨["cache", "redis", "memcached", "memory"], "required", "required", "internal"⟩),
   ("message-queue", ⟨["queue", "kafka", "rabbitmq", "mq", "message"], "required", "required", "internal"⟩),
   ("process", ⟨["process", "application", "app", "program"], "none", "none", "public"⟩),
   ("gateway", ⟨["gateway", "api-gateway", "proxy"], "required", "required", "internal"⟩),
   ("cdn", ⟨["cdn", "content-delivery", "edge"], "none", "none", "public"⟩),
   ("monitoring", ⟨["monitoring", "metrics", "logging", "prometheus", "grafana"], "required", "required", "internal"⟩)]

/-- Lookup in a `TypeInfo` table. -/
def tlookup (tbl : List (String × TypeInfo)) (k : String) : Option TypeInfo :=
  match tbl with
  | [] => none
  | (k0, v0) :: rest => if k0 = k then some v0 else tlookup rest k

/-!  `protocol_types.py`: the COMMUNICATION_PROTOCOLS table. -/

/-- Per-protocol attributes from COMMUNICATION_PROTOCOLS.  No protocol in the
table declares a `patterns` entry, so `info.get('patterns', [])` is the empty
list for every protocol; the field records the declared pattern list. -/
structure ProtoInfo where
  security : String
  encryption : Bool
  authentication : String
  authorization : String
  data_sensitivity : String
  patterns : List String
deriving DecidableEq, Repr

/-- The COMMUNICATION_PROTOCOLS table of `protocol_types.py`, in declaration
order. -/
def COMMUNICATION_PROTOCOLS : List (String × ProtoInfo) :=
  [("http", ⟨"low", false, "none", "none", "public", []⟩),
   ("https", ⟨"high", true, "required", "required", "internal", []⟩),
   ("ws", ⟨"low", false, "none", "none", "public", []⟩),
   ("wss", ⟨"high", true, "required", "required", "internal", []⟩),
   ("grpc", ⟨"medium", true, "required", "required", "internal", []⟩),
   ("tcp", ⟨"low", false, "none", "none", "public", []⟩),
   ("udp", ⟨"low", false, "none", "none", "public", []⟩),
   ("mqtt", ⟨"medium", true, "required", "required", "internal", []⟩),
   ("amqp", ⟨"high", true, "required", "required", "internal", []⟩),
   ("kafka", ⟨"high", true, "required", "required", "internal", []⟩)]

/-- Lookup in a `ProtoInfo` table. -/
def plookup (tbl : List (String × ProtoInfo)) (k : String) : Option ProtoInfo :=
  match tbl with
  | [] => none
  | (k0, v0) :: rest => if k0 = k then some v0 else plookup rest k

/-!
`utils/validators.py`: the validate-and-correct layer.

Every function below mirrors the Python line by line.  `hash(str(...))` is
process-salted, so it is abstracted as the `pyhash` parameter.  The dict
parameters (`component_types` aside, which is the typed table above) are
string-keyed maps, matching their `Dict[str, ...]` annotations.  Paths on
which Python raises (a non-dict entity, a non-string `value` reaching
`str.lower`, `next(iter(...))` on an empty dict) return `Except.error` with
the Python exception name.
-/

/-- Result record of `utils/validators.py` (`ValidationResult`). -/
structure VcResult where
  is_valid : Bool
  warnings : List String
  corrected_data : Val
deriving DecidableEq, Repr

/-- `_detect_component_type(value, component_types)`: first type one of whose
style keywords occurs in the lowercased value; default `process`. -/
def detect_component_type (value : String) (component_types : List (String × TypeInfo)) : String :=
  let v := strLower value
  match component_types.find? (fun ti => ti.2.styles.any (fun kw => strContains v kw)) with
  | some (k, _) => k
  | none => "process"

/-- Dict field access with Python `.get` default `None`. -/
def gfld (d : List (String × Val)) (k : String) : Val :=
  (dlookup d k).getD vnone

/-- The condition `corrected.get('type') and corrected['type'] in
component_types` specialised to the typed table: only a non-empty string
that is a table key passes. -/
def typeFieldOk (tv : Val) (component_types : List (String × TypeInfo)) : Option String :=
  match tv with
  | vstr s => if s ≠ "" && (tlookup component_types s).isSome then some s else none
  | _ => none

/-- First if-block of `validate_and_correct_component`: missing id. -/
def vcc_id_step (pyhash : Val → Int) (component : Val) (d : List (String × Val)) :
    List String × List (String × Val) :=
  if pyTruthy (gfld d "id") then ([], d) else
    (["ID manquant, génération d\x27un ID temporaire"],
     dset d "id" (vstr ("temp_" ++ toString (pyhash component))))

/-- Second if-block: missing name. -/
def vcc_name_step (d : List (String × Val)) : List String × List (String × Val) :=
  if pyTruthy (gfld d "name") then ([], d) else
    (["Nom manquant, utilisation de la valeur par défaut"],
     dset d "name" (vstr "Unnamed Component"))

/-- Third if-block: invalid or missing type, with automatic detection (the
only step that can raise: `corrected.get('value', '').lower()` on a
non-string value). -/
def vcc_type_step (d : List (String × Val)) (component_types : List (String × TypeInfo)) :
    Except String (List String × List (String × Val) × String) := do
  let tv := gfld d "type"
  match typeFieldOk tv component_types with
  | some s => Except.ok (([] : List String), d, s)
  | none =>
    let vv := (dlookup d "value").getD (vstr "")
    match vv with
    | vstr sv =>
      let ty := detect_component_type sv component_types
      Except.ok (["Type invalide ou manquant: " ++ pyStr tv ++ ", détection automatique"],
                 dset d "type" (vstr ty), ty)
    | _ => Except.error "AttributeError"

/-- Security-attribute if-block shared by the component and flow
correctors: a field is rewritten to `dflt` unless its current value is in
the allowed list. -/
def vc_field_step (d : List (String × Val)) (key : String) (allowed : List Val)
    (dflt : Val) (msg : String) : List String × List (String × Val) :=
  if pyMem (gfld d key) allowed then ([], d) else ([msg], dset d key dflt)

/-- `validate_and_correct_component(component, component_types)`. -/
def validate_and_correct_component (pyhash : Val → Int) (component : Val)
    (component_types : List (String × TypeInfo)) : Except String VcResult := do
  match component with
  | vdict d0 =>
    let (w1, d1) := vcc_id_step pyhash component d0
    let (w2, d2) := vcc_name_step d1
    let (w3, d3, tyStr) ← vcc_type_step d2 component_types
    match tlookup component_types tyStr with
    | none => Except.ok ⟨true, w1 ++ w2 ++ w3, vdict d3⟩
    | some info =>
      let (w4, d4) := vc_field_step d3 "authentication" [vstr "required", vstr "none"]
        (vstr info.authentication)
        ("Authentication invalide, utilisation de la valeur par défaut: " ++ info.authentication)
      let (w5, d5) := vc_field_step d4 "authorization" [vstr "required", vstr "none"]
        (vstr info.authorization)
        ("Authorization invalide, utilisation de la valeur par défaut: " ++ info.authorization)
      let (w6, d6) := vc_field_step d5 "data_sensitivity"
        [vstr "public", vstr "internal", vstr "confidential", vstr "restricted"]
        (vstr info.data_sensitivity)
        ("Sensibilité des données invalide, utilisation de la valeur par défaut: " ++ info.data_sensitivity)
      Except.ok ⟨true, w1 ++ w2 ++ w3 ++ w4 ++ w5 ++ w6, vdict d6⟩
  | _ => Except.error "AttributeError"

/-- Assoc-list lookup keyed by arbitrary values, declared early for the
validators (Python dict keyed by `comp.get('id')`, which need not be a
string; Python compares keys with hash/==, modelled structurally). -/
def vlookupE {α : Type} (tbl : List (Val × α)) (k : Val) : Option α :=
  match tbl with
  | [] => none
  | (k0, v0) :: rest => if k0 = k then some v0 else vlookupE rest k

/-- The condition `corrected.get('source') and corrected['source'] in
components` for a map keyed by arbitrary values. -/
def vkeyFieldOk (v : Val) (m : List (Val × Val)) : Bool :=
  pyTruthy v && (vlookupE m v).isSome

/-- The condition for the `protocol` field. -/
def protoFieldOk (v : Val) (protocols : List (String × ProtoInfo)) : Option String :=
  match v with
  | vstr s => if s ≠ "" && (plookup protocols s).isSome then some s else none
  | _ => none

/-- `_detect_protocol(source, target, protocols)` of `utils/validators.py`
(the `protocols` argument is unused by the Python body). -/
def validators_detect_protocol (source target : Val)
    (_protocols : List (String × ProtoInfo)) : Except String String := do
  let source_type ← pyLower (← pyGetD source "type" (vstr ""))
  let target_type ← pyLower (← pyGetD target "type" (vstr ""))
  if strContains source_type "database" || strContains target_type "database" then
    Except.ok "tcp"
  else if strContains source_type "api" || strContains target_type "api" then
    Except.ok "https"
  else if strContains source_type "message-queue" || strContains target_type "message-queue" then
    Except.ok "amqp"
  else if strContains source_type "cache" || strContains target_type "cache" then
    Except.ok "tcp"
  else
    Except.ok "https"

/-- Endpoint if-block of `validate_and_correct_flow`: an unresolvable
`source`/`target` field is replaced by the first key of the components map,
raising StopIteration when the map is empty. -/
def vcf_endpoint_step (d : List (String × Val)) (key : String)
    (components : List (Val × Val)) (msgPfx msgSfx : String) :
    Except String (List String × List (String × Val) × Val) := do
  let sv := gfld d key
  if vkeyFieldOk sv components then Except.ok (([] : List String), d, sv)
  else
    match components with
    | [] => Except.error "StopIteration"
    | (k, _) :: _ =>
      Except.ok ([msgPfx ++ pyStr sv ++ msgSfx], dset d key k, k)

/-- Protocol if-block of `validate_and_correct_flow`. -/
def vcf_protocol_step (d : List (String × Val)) (srcKey tgtKey : Val)
    (components : List (Val × Val)) (protocols : List (String × ProtoInfo)) :
    Except String (List String × List (String × Val) × String) := do
  let pv := gfld d "protocol"
  match protoFieldOk pv protocols with
  | some s => Except.ok (([] : List String), d, s)
  | none =>
    let src := (vlookupE components srcKey).getD vnone
    let tgt := (vlookupE components tgtKey).getD vnone
    let p ← validators_detect_protocol src tgt protocols
    Except.ok (["Protocole invalide: " ++ pyStr pv ++ ", détection automatique"],
               dset d "protocol" (vstr p), p)

/-- `validate_and_correct_flow(flow, components, protocols)`.  The
`components` map is keyed by whatever `comp.get('id')` produced (the
pipeline passes `components_by_id`). -/
def validate_and_correct_flow (flow : Val) (components : List (Val × Val))
    (protocols : List (String × ProtoInfo)) : Except String VcResult := do
  match flow with
  | vdict d0 =>
    let (w1, d1, srcKey) ← vcf_endpoint_step d0 "source" components
      "Source invalide: " ", utilisation de la première source valide"
    let (w2, d2, tgtKey) ← vcf_endpoint_step d1 "target" components
      "Cible invalide: " ", utilisation de la première cible valide"
    let (w3, d3, protoStr) ← vcf_protocol_step d2 srcKey tgtKey components protocols
    match plookup protocols protoStr with
    | none => Except.ok ⟨true, w1 ++ w2 ++ w3, vdict d3⟩
    | some info =>
      let (w4, d4) := vc_field_step d3 "authentication" [vstr "required", vstr "none"]
        (vstr info.authentication)
        ("Authentication invalide, utilisation de la valeur par défaut: " ++ info.authentication)
      let (w5, d5) := vc_field_step d4 "authorization" [vstr "required", vstr "none"]
        (vstr info.authorization)
        ("Authorization invalide, utilisation de la valeur par défaut: " ++ info.authorization)
      let (w6, d6) := vc_field_step d5 "encryption" [vbool true, vbool false]
        (vbool info.encryption)
        ("Encryption invalide, utilisation de la valeur par défaut: " ++ (if info.encryption then "True" else "False"))
      Except.ok ⟨true, w1 ++ w2 ++ w3 ++ w4 ++ w5 ++ w6, vdict d6⟩
  | _ => Except.error "AttributeError"

/-- Python `isinstance(v, (int, float))` together with the numeric value
(`bool` is a subclass of `int`, so `True`/`False` count as 1/0). -/
def asNumLike : Val → Option ℚ
  | vnum q => some q
  | vbool b => some (if b then 1 else 0)
  | _ => none

/-- Id if-block of `validate_and_correct_threat`. -/
def vct_id_step (pyhash : Val → Int) (threat : Val) (d : List (String × Val))
    (known_threats : List (Val × Val)) : List String × List (String × Val) :=
  let iv := gfld d "id"
  if vkeyFieldOk iv known_threats then (([] : List String), d)
  else
    (["ID de menace invalide: " ++ pyStr iv ++ ", génération d\x27un ID temporaire"],
     dset d "id" (vstr ("temp_threat_" ++ toString (pyhash threat))))

/-- Risk-level if-block of `validate_and_correct_threat`. -/
def vct_risk_step (d : List (String × Val)) (risk_levels : List (Val × Val)) :
    List String × List (String × Val) :=
  let rv := gfld d "risk"
  if vkeyFieldOk rv risk_levels then (([] : List String), d)
  else
    (["Niveau de risque invalide: " ++ pyStr rv ++ ", utilisation de \x27low\x27"],
     dset d "risk" (vstr "low"))

/-- Risk-score if-block of `validate_and_correct_threat`. -/
def vct_score_step (d : List (String × Val)) : List String × List (String × Val) :=
  let rs := (dlookup d "risk_score").getD (vnum 0)
  match asNumLike rs with
  | some q =>
    if 0 ≤ q ∧ q ≤ 1 then (([] : List String), d) else
      (["Score de risque invalide: " ++ pyStr rs ++ ", normalisation à 0.5"],
       dset d "risk_score" (vnum (1 / 2)))
  | none =>
    (["Score de risque invalide: " ++ pyStr rs ++ ", normalisation à 0.5"],
     dset d "risk_score" (vnum (1 / 2)))

/-- `validate_and_correct_threat(threat, known_threats, risk_levels)`.  The
two maps are keyed by arbitrary values (the pipeline passes
`components_by_id` and `flows_by_id`). -/
def validate_and_correct_threat (pyhash : Val → Int) (threat : Val)
    (known_threats risk_levels : List (Val × Val)) : Except String VcResult := do
  match threat with
  | vdict d0 =>
    let (w1, d1) := vct_id_step pyhash threat d0 known_threats
    let (w2, d2) := vct_risk_step d1 risk_levels
    let (w3, d3) := vct_score_step d2
    Except.ok ⟨true, w1 ++ w2 ++ w3, vdict d3⟩
  | _ => Except.error "AttributeError"

/-!
`components/component_detector.py` and `components/composite_component.py`.
-/

/-- Generic assoc-list lookup with string keys. -/
def klookup {α : Type} (tbl : List (String × α)) (k : String) : Option α :=
  match tbl with
  | [] => none
  | (k0, v0) :: rest => if k0 = k then some v0 else klookup rest k

/-- Assoc-list lookup keyed by arbitrary values (Python dict with value
keys; Python compares keys with hash/==, modelled structurally). -/
def vklookup {α : Type} (tbl : List (Val × α)) (k : Val) : Option α :=
  match tbl with
  | [] => none
  | (k0, v0) :: rest => if k0 = k then some v0 else vklookup rest k

/-- Assoc-list update keyed by arbitrary values. -/
def vkset {α : Type} (tbl : List (Val × α)) (k : Val) (v : α) : List (Val × α) :=
  match tbl with
  | [] => [(k, v)]
  | (k0, v0) :: rest => if k0 = k then (k0, v) :: rest else (k0, v0) :: vkset rest k v

/-- `defaultdict(list)` append: `d[k].append(x)`. -/
def dictListAppend (tbl : List (Val × List Val)) (k : Val) (x : Val) : List (Val × List Val) :=
  match vklookup tbl k with
  | some xs => vkset tbl k (xs ++ [x])
  | none => tbl ++ [(k, [x])]

/-- The detection context of `component_detector.py` (`DetectionContext`). -/
structure DetectionContext where
  connected_components : List String
  parent_component : Val
  component_hierarchy : List (Val × List Val)
  security_context : List (Val × Val)

/-- One entry of the `advanced_patterns` table: regex pattern group plus
context rules (predicates over the detection context). -/
structure AdvEntry where
  patterns : List (List (List String))
  context_rules : List (DetectionContext → Bool)

/-- The `advanced_patterns` table built in `ComponentDetector.__init__`, in
declaration order.  Each regex is transcribed as its alternation structure
(chunks separated by the whitespace wildcard). -/
def advanced_patterns : List (String × AdvEntry) :=
  [("database",
    ⟨[[["db"], ["database"], ["sql"], ["nosql"], ["postgres"], ["mysql"], ["mongodb"], ["oracle"]],
      [["data", "store"], ["data", "warehouse"], ["data", "lake"]],
      [["rdbms"], ["document", "store"], ["key", "value"]]],
     [fun ctx => "api" ∈ ctx.connected_components,
      fun ctx => "web-application" ∈ ctx.connected_components]⟩),
   ("api",
    ⟨[[["api"], ["rest"], ["graphql"], ["endpoint"], ["service"]],
      [["resource"], ["controller"], ["handler"]],
      [["gateway"], ["proxy"], ["router"]]],
     [fun ctx => "web-application" ∈ ctx.connected_components,
      fun ctx => "database" ∈ ctx.connected_components]⟩),
   ("web-application",
    ⟨[[["web"], ["browser"], ["client"], ["frontend"], ["ui"], ["interface"]],
      [["spa"], ["mpa"], ["application"]],
      [["portal"], ["dashboard"], ["console"]]],
     [fun ctx => "api" ∈ ctx.connected_components,
      fun ctx => "cdn" ∈ ctx.connected_components]⟩),
   ("cloud-service",
    ⟨[[["cloud"], ["aws"], ["azure"], ["gcp"], ["s3"], ["lambda"], ["function"]],
      [["managed", "service"], ["platform", "service"]],
      [["infrastructure", "as", "code"], ["iac"]]],
     [fun ctx => ["api", "database", "serverless"].any (fun s => s ∈ ctx.connected_components),
      fun ctx => "monitoring" ∈ ctx.connected_components]⟩),
   ("serverless",
    ⟨[[["lambda"], ["function"], ["serverless"], ["faas"]],
      [["event", "driven"], ["trigger"]],
      [["stateless"], ["ephemeral"]]],
     [fun ctx => "cloud-service" ∈ ctx.connected_components,
      fun ctx => "api" ∈ ctx.connected_components]⟩),
   ("microservice",
    ⟨[[["service"], ["microservice"], ["ms"], ["backend"]],
      [["bounded", "context"], ["domain"]],
      [["service", "mesh"], ["sidecar"]]],
     [fun ctx => "api" ∈ ctx.connected_components,
      fun ctx => "message-queue" ∈ ctx.connected_components]⟩),
   ("load-balancer",
    ⟨[[["load-balancer"], ["lb"], ["haproxy"], ["nginx"]],
      [["traffic", "manager"], ["ingress"]],
      [["reverse", "proxy"], ["forward", "proxy"]]],
     [fun ctx => ctx.connected_components.length > 2,
      fun ctx => "web-application" ∈ ctx.connected_components]⟩),
   ("cache",
    ⟨[[["cache"], ["redis"], ["memcached"], ["memory"]],
      [["distributed", "cache"], ["session", "store"]],
      [["in-memory"], ["temporary", "storage"]]],
     [fun ctx => "database" ∈ ctx.connected_components,
      fun ctx => "api" ∈ ctx.connected_components]⟩),
   ("message-queue",
    ⟨[[["queue"], ["kafka"], ["rabbitmq"], ["mq"], ["message"]],
      [["event", "bus"], ["pub", "sub"]],
      [["stream"], ["pipeline"]]],
     [fun ctx => "microservice" ∈ ctx.connected_components,
      fun ctx => "serverless" ∈ ctx.connected_components]⟩),
   ("process",
    ⟨[[["process"], ["application"], ["app"], ["program"]],
      [["worker"], ["job"], ["task"]],
      [["batch"], ["scheduled"]]],
     [fun ctx => "database" ∈ ctx.connected_components,
      fun ctx => "message-queue" ∈ ctx.connected_components]⟩),
   ("gateway",
    ⟨[[["gateway"], ["api-gateway"], ["proxy"]],
      [["bff"], ["backend", "for", "frontend"]],
      [["edge", "service"], ["entry", "point"]]],
     [fun ctx => "api" ∈ ctx.connected_components,
      fun ctx => "web-application" ∈ ctx.connected_components]⟩),
   ("cdn",
    ⟨[[["cdn"], ["content-delivery"], ["edge"]],
      [["static", "content"], ["media", "delivery"]],
      [["cache", "network"], ["distributed", "network"]]],
     [fun ctx => "web-application" ∈ ctx.connected_components,
      fun ctx => "cloud-service" ∈ ctx.connected_components]⟩),
   ("monitoring",
    ⟨[[["monitoring"], ["metrics"], ["logging"], ["prometheus"], ["grafana"]],
      [["observability"], ["telemetry"]],
      [["alert"], ["dashboard"], ["visualization"]]],
     [fun ctx => ctx.connected_components.length > 1,
      fun ctx => "cloud-service" ∈ ctx.connected_components]⟩)]

/-- `_is_component_cell(cell)`: a non-edge cell with a `value` key whose id
is not one of the structural ids `0`, `1`. -/
def is_component_cell (cell : Val) : Except String Bool := do
  let e ← pyGetD cell "edge" (vstr "0")
  let hv ← pyContainsKey cell "value"
  let idv ← pyGetD cell "id" vnone
  Except.ok (pyEq e (vstr "0") && hv && ¬ pyMem idv [vstr "0", vstr "1"])

/-- `_check_attributes_consistency(cell, type_info)`. -/
def check_attributes_consistency (cell : Val) (info : TypeInfo) : Except String Bool := do
  let style ← pyLower (← pyGetD cell "style" (vstr ""))
  let has_auth := strContains style "auth" || strContains style "login"
  let has_authz := strContains style "role" || strContains style "permission"
  if info.authentication = "required" && ¬ has_auth then Except.ok false
  else if info.authorization = "required" && ¬ has_authz then Except.ok false
  else Except.ok true

/-- `_calculate_component_scores(cell)`: the weighted per-type score map, as
an ordered list following COMPONENT_TYPES declaration order (Python dicts
preserve insertion order, which is what `max` later iterates). -/
def calculate_component_scores (cell : Val) : Except String (List (String × ℚ)) := do
  let value ← pyLower (← pyGetD cell "value" (vstr ""))
  let style ← pyLower (← pyGetD cell "style" (vstr ""))
  COMPONENT_TYPES.mapM (fun ti => do
    let info := ti.2
    let style_matches : ℕ := (info.styles.filter (fun sp => strContains style sp)).length
    let s1 : ℚ := if style_matches > 0 then (4 / 10) * (style_matches / (info.styles.length : ℚ)) else 0
    let keyword_matches : ℕ := (info.styles.filter (fun kw => strContains value kw)).length
    let s2 : ℚ := if keyword_matches > 0 then (3 / 10) * (keyword_matches / (info.styles.length : ℚ)) else 0
    let cons ← check_attributes_consistency cell info
    let s3 : ℚ := if cons then 2 / 10 else 0
    let s4 : ℚ :=
      match klookup advanced_patterns ti.1 with
      | some entry => if reSearchAny entry.patterns value then 1 / 10 else 0
      | none => 0
    Except.ok (ti.1, s1 + s2 + s3 + s4))

/-- `_select_best_type(scores)`: Python `max` over the score items keeps the
first item with the maximal score; empty map falls back to `('process', 0.0)`
(dead for the fixed non-empty COMPONENT_TYPES table). -/
def select_best_type (scores : List (String × ℚ)) : String × ℚ :=
  match scores with
  | [] => ("process", 0)
  | s :: rest => rest.foldl (fun best x => if x.2 > best.2 then x else best) s

/-- `_create_component(cell)`. -/
def create_component (cell : Val) : Except String Val := do
  let scores ← calculate_component_scores cell
  let (best_type, best_score) := select_best_type scores
  match tlookup COMPONENT_TYPES best_type with
  | none => Except.error "KeyError"
  | some info =>
    Except.ok (vdict
      [("id", ← pyGetD cell "id" (vstr "")),
       ("name", ← pyGetD cell "value" (vstr "")),
       ("type", vstr best_type),
       ("confidence_score", vnum best_score),
       ("authentication", vstr info.authentication),
       ("authorization", vstr info.authorization),
       ("data_sensitivity", vstr info.data_sensitivity),
       ("style", ← pyGetD cell "style" (vstr "")),
       ("value", ← pyGetD cell "value" (vstr ""))])

/-- `_update_detection_context(components)`: rebuild the context from the
first-pass components. -/
def update_detection_context (components : List Val) : Except String DetectionContext :=
  components.foldlM (fun (ctx : DetectionContext) comp => do
    let comp_id ← pyGetD comp "id" (vstr "")
    let sc := vdict
      [("authentication", ← pyGetD comp "authentication" (vstr "none")),
       ("authorization", ← pyGetD comp "authorization" (vstr "none")),
       ("data_sensitivity", ← pyGetD comp "data_sensitivity" (vstr "public"))]
    let ctx := { ctx with security_context := vkset ctx.security_context comp_id sc }
    let hasParent ← pyContainsKey comp "parent"
    if hasParent then do
      let p ← pyGetD comp "parent" vnone
      Except.ok { ctx with
        component_hierarchy := dictListAppend ctx.component_hierarchy p comp_id,
        parent_component := p }
    else
      Except.ok ctx)
    ⟨[], vnone, [], []⟩

/-- `_improve_component_detection(component)`: updates the context's
`connected_components` and nudges the confidence score.  The Python
comprehension iterates `self.component_types.values()` (the TypeInfo dicts,
which have neither an `id` nor a `type` key), so `comp.get('id', '')` and
`comp.get('type', '')` are both the empty string: the connected set is
`[""]` when `""` occurs among the hierarchy children of this component and
empty otherwise. -/
def improve_component_detection (ctx : DetectionContext) (component : Val) :
    Except String (DetectionContext × Val) := do
  let comp_type ← pyGetD component "type" (vstr "")
  let comp_id ← pyGetD component "id" (vstr "")
  let children := (vklookup ctx.component_hierarchy comp_id).getD []
  let connected : List String := if (vstr "") ∈ children then [""] else []
  let ctx := { ctx with connected_components := connected }
  match comp_type with
  | vstr ts =>
    (match klookup advanced_patterns ts with
     | some entry => do
        let value ← pyLower (← pyGetD component "value" (vstr ""))
        let pattern_matches := reSearchAny entry.patterns value
        let context_matches := entry.context_rules.any (fun r => r ctx)
        let csv ← pyGetD component "confidence_score" (vnum 0)
        match asNumLike csv with
        | none => Except.error "TypeError"
        | some q =>
          (match component with
           | vdict d =>
             if pattern_matches && context_matches then
               Except.ok (ctx, vdict (dset d "confidence_score" (vnum (min 1 (q + 2 / 10)))))
             else
               Except.ok (ctx, vdict (dset d "confidence_score" (vnum (max 0 (q - 1 / 10)))))
           | _ => Except.error "TypeError")
     | none => Except.ok (ctx, component))
  | _ => Except.ok (ctx, component)

/-- The `CompositeComponent` dataclass of `composite_component.py`. -/
structure CompositeComponent where
  id : Val
  name : Val
  type : String
  subcomponents : List Val
  parent : Val
  security_context : Val
deriving DecidableEq, Repr

/-- One entry of the `composite_patterns` table (required/optional type sets
and label naming patterns). -/
structure CompositePattern where
  required_components : List String
  optional_components : List String
  naming_patterns : List (List (List String))
deriving DecidableEq, Repr

/-- The `composite_patterns` table of `CompositeComponentManager.__init__`.
The Python required/optional sets are modelled as lists; only membership and
subset questions are asked of them. -/
def composite_patterns : List (String × CompositePattern) :=
  [("microservice",
    ⟨["api", "database"], ["cache", "message-queue"],
     [[["service"], ["microservice"], ["backend"]],
      [["bounded", "context"], ["domain"]]]⟩),
   ("web-application",
    ⟨["frontend", "api"], ["cdn", "cache"],
     [[["web"], ["application"], ["portal"]],
      [["spa"], ["mpa"], ["frontend"]]]⟩),
   ("cloud-service",
    ⟨["api", "database"], ["serverless", "monitoring"],
     [[["cloud"], ["aws"], ["azure"], ["gcp"]],
      [["managed", "service"], ["platform"]]]⟩)]

/-- `_build_component_hierarchy(components)`. -/
def build_component_hierarchy (components : List Val) : Except String (List (Val × List Val)) :=
  components.foldlM (fun h comp => do
    let comp_id ← pyGetD comp "id" (vstr "")
    let parent_id ← pyGetD comp "parent" vnone
    if pyTruthy parent_id then
      Except.ok (dictListAppend h parent_id comp_id)
    else
      Except.ok h) []

/-- `_is_potential_composite(component, comp_type, pattern_info)`.
`composite_component.py` never imports `re`; the function first evaluates
`component.get('value', '').lower()` and then raises
`NameError: name 're' is not defined` on the first generator element of the
`any(...)` call (the naming-pattern lists are never empty). -/
def is_potential_composite (component : Val) (_comp_type : String)
    (_pattern_info : CompositePattern) : Except String Bool := do
  let _value ← pyLower (← pyGetD component "value" (vstr ""))
  Except.error "NameError: name \x27re\x27 is not defined"

/-- `_find_subcomponents(parent, components_by_id, pattern_info)`. -/
def find_subcomponents (hierarchy : List (Val × List Val)) (parent : Val)
    (components_by_id : List (Val × Val)) : Except String (List Val) := do
  let parent_id ← pyGetD parent "id" (vstr "")
  let children := (vklookup hierarchy parent_id).getD []
  Except.ok (children.foldl (fun acc child_id =>
    match vklookup components_by_id child_id with
    | some child => acc ++ [child]
    | none => acc) [])

/-- `_validate_composite_structure(subcomponents, pattern_info)`: all
required types present among the children, and at least one optional type
present. -/
def validate_composite_structure (subcomponents : List Val)
    (pattern_info : CompositePattern) : Except String Bool := do
  let types ← subcomponents.mapM (fun comp => pyGetD comp "type" (vstr ""))
  let found_required := pattern_info.required_components.filter
    (fun t => (vstr t) ∈ types)
  if ¬ pattern_info.required_components.all (fun t => t ∈ found_required) then
    Except.ok false
  else
    Except.ok (¬ (pattern_info.optional_components.filter (fun t => (vstr t) ∈ types)).isEmpty)

/-- One iteration of the `_determine_security_context` loop over a
subcomponent. -/
def dsc_step (st : String × String × String) (comp : Val) :
    Except String (String × String × String) := do
  let (a, z, s) := st
  let a := if pyEq (← pyGetD comp "authentication" vnone) (vstr "required") then "required" else a
  let z := if pyEq (← pyGetD comp "authorization" vnone) (vstr "required") then "required" else z
  let cs ← pyGetD comp "data_sensitivity" (vstr "public")
  let s :=
    if pyEq cs (vstr "restricted") then "restricted"
    else if pyEq cs (vstr "confidential") && s = "public" then "confidential"
    else s
  Except.ok (a, z, s)

/-- `_determine_security_context(subcomponents)`: fold the aggregation rule
over the subcomponents. -/
def determine_security_context (subcomponents : List Val) : Except String Val := do
  let (a, z, s) ← subcomponents.foldlM dsc_step ("none", "none", "public")
  Except.ok (vdict
    [("authentication", vstr a), ("authorization", vstr z), ("data_sensitivity", vstr s)])

/-- `_create_composite_component(parent, subcomponents, comp_type)`. -/
def create_composite_component (parent : Val) (subcomponents : List Val)
    (comp_type : String) : Except String CompositeComponent := do
  let sc ← determine_security_context subcomponents
  Except.ok
    ⟨← pyGetD parent "id" (vstr ""), ← pyGetD parent "value" (vstr ""), comp_type,
     subcomponents, ← pyGetD parent "parent" vnone, sc⟩

/-- `_detect_composite_type(components, comp_type, pattern_info)`. -/
def detect_composite_type (hierarchy : List (Val × List Val)) (components : List Val)
    (comp_type : String) (pattern_info : CompositePattern) :
    Except String (List CompositeComponent) := do
  let components_by_id ← components.foldlM
    (fun (m : List (Val × Val)) comp => do
      let k ← pyGetD comp "id" vnone
      Except.ok (vkset m k comp)) []
  components.foldlM (fun acc component => do
    let b ← is_potential_composite component comp_type pattern_info
    if b then do
      let subs ← find_subcomponents hierarchy component components_by_id
      let ok ← validate_composite_structure subs pattern_info
      if ok then do
        let comp ← create_composite_component component subs comp_type
        Except.ok (acc ++ [comp])
      else
        Except.ok acc
    else
      Except.ok acc) []

/-- `detect_composite_components(components)`. -/
def detect_composite_components (components : List Val) :
    Except String (List CompositeComponent) := do
  let hierarchy ← build_component_hierarchy components
  composite_patterns.foldlM (fun acc p => do
    let found ← detect_composite_type hierarchy components p.1 p.2
    Except.ok (acc ++ found)) []

/-- Per-composite step of the `used_component_ids` accumulation of
`_merge_components`. -/
def merge_used_step (used : List Val) (comp : CompositeComponent) : Except String (List Val) := do
  let ids ← comp.subcomponents.mapM (fun sub => pyGetD sub "id" (vstr ""))
  Except.ok (setAddAll used ids)

/-- Per-simple-component step of `_merge_components`: kept unless its id is
consumed by a composite. -/
def merge_keep_step (used : List Val) (acc : List Val) (component : Val) :
    Except String (List Val) := do
  let idv ← pyGetD component "id" (vstr "")
  if idv ∈ used then Except.ok acc else Except.ok (acc ++ [component])

/-- The flattened dict `_merge_components` appends for one composite. -/
def composite_entry (comp : CompositeComponent) : Except String Val := do
  let auth ← (match comp.security_context with
    | vdict sc => (dlookup sc "authentication").elim (Except.error "KeyError") Except.ok
    | _ => Except.error "TypeError")
  let authz ← (match comp.security_context with
    | vdict sc => (dlookup sc "authorization").elim (Except.error "KeyError") Except.ok
    | _ => Except.error "TypeError")
  let sens ← (match comp.security_context with
    | vdict sc => (dlookup sc "data_sensitivity").elim (Except.error "KeyError") Except.ok
    | _ => Except.error "TypeError")
  Except.ok (vdict
    [("id", comp.id), ("name", comp.name), ("type", vstr comp.type),
     ("is_composite", vbool true), ("subcomponents", vlist comp.subcomponents),
     ("parent", comp.parent), ("authentication", auth),
     ("authorization", authz), ("data_sensitivity", sens)])

/-- `_merge_components(simple_components, composite_components)`: keep the
simple components whose id is consumed by no composite, then append the
flattened composite entries. -/
def merge_components (simple_components : List Val)
    (composite_components : List CompositeComponent) : Except String (List Val) := do
  let used ← composite_components.foldlM merge_used_step []
  let keep ← simple_components.foldlM (merge_keep_step used) []
  let entries ← composite_components.mapM composite_entry
  Except.ok (keep ++ entries)

/-- The first half of `ComponentDetector.detect_components(cells)`: the
basic pass, the context rebuild and the improve-and-correct pass, producing
the `improved_components` list of the Python body (the input later handed to
composite detection and merging). -/
def improved_components (pyhash : Val → Int) (cells : List Val) : Except String (List Val) := do
  let components ← cells.foldlM (fun acc cell => do
    let b ← is_component_cell cell
    if b then do
      let component ← create_component cell
      if pyTruthy component then Except.ok (acc ++ [component]) else Except.ok acc
    else Except.ok acc) []
  let ctx ← update_detection_context components
  let (_, improved) ← components.foldlM
    (fun (st : DetectionContext × List Val) component => do
      let (ctx, acc) := st
      let (ctx, improved) ← improve_component_detection ctx component
      if pyTruthy improved then do
        let vr ← validate_and_correct_component pyhash improved COMPONENT_TYPES
        Except.ok (ctx, acc ++ [vr.corrected_data])
      else
        Except.ok (ctx, acc)) (ctx, [])
  Except.ok improved

/-- `ComponentDetector.detect_components(cells)`: improve-and-correct pass,
composite detection, merge. -/
def detect_components (pyhash : Val → Int) (cells : List Val) : Except String (List Val) := do
  let improved ← improved_components pyhash cells
  let composites ← detect_composite_components improved
  merge_components improved composites

/-!
`flows/flow_detector.py`.
-/

/-- The `conditional_patterns` table of `FlowDetector.__init__`, in
declaration order (category name, alternation pattern). -/
def conditional_patterns : List (String × List (List String)) :=
  [("if", [["if"], ["when"], ["condition"], ["check"]]),
   ("error", [["error"], ["exception"], ["fail"], ["invalid"]]),
   ("timeout", [["timeout"], ["expire"], ["deadline"]]),
   ("retry", [["retry"], ["attempt"], ["repeat"]]),
   ("fallback", [["fallback"], ["alternative"], ["backup"]])]

/-- The `bidirectional_patterns` table of `FlowDetector.__init__`. -/
def bidirectional_patterns : List (String × List (List String)) :=
  [("sync", [["sync"], ["synchronous"], ["request-response"]]),
   ("async", [["async"], ["asynchronous"], ["event"]]),
   ("stream", [["stream"], ["continuous"], ["realtime"]]),
   ("websocket", [["websocket"], ["ws"], ["wss"]]),
   ("grpc", [["grpc"], ["rpc"], ["remote"]])]

/-- `_is_flow_cell(cell)`: an edge cell carrying both endpoint keys. -/
def is_flow_cell (cell : Val) : Except String Bool := do
  let e ← pyGetD cell "edge" (vstr "0")
  let hs ← pyContainsKey cell "source"
  let ht ← pyContainsKey cell "target"
  Except.ok (pyEq e (vstr "1") && hs && ht)

/-- `FlowDetector._detect_protocol(source, target, cell)`: label pattern
tokens first (no protocol declares any, so this loop never fires on the
fixed table), then the component-type heuristics, then the line style, then
the default `tcp`. -/
def flow_detect_protocol (source target cell : Val)
    (protocols : List (String × ProtoInfo)) : Except String String := do
  let value ← pyLower (← pyGetD cell "value" (vstr ""))
  let source_type ← pyLower (← pyGetD source "type" (vstr ""))
  let target_type ← pyLower (← pyGetD target "type" (vstr ""))
  match protocols.find? (fun pi => pi.2.patterns.any (fun pat => strContains value pat)) with
  | some (p, _) => Except.ok p
  | none =>
    if strContains source_type "database" || strContains target_type "database" then
      Except.ok "tcp"
    else if strContains source_type "api" || strContains target_type "api" then
      Except.ok "https"
    else if strContains source_type "message-queue" || strContains target_type "message-queue" then
      Except.ok "amqp"
    else if strContains source_type "cache" || strContains target_type "cache" then
      Except.ok "tcp"
    else if strContains source_type "web-application" || strContains target_type "web-application" then
      Except.ok "https"
    else do
      let style ← pyLower (← pyGetD cell "style" (vstr ""))
      if strContains style "dashed" then Except.ok "udp"
      else if strContains style "dotted" then Except.ok "ws"
      else Except.ok "tcp"

/-- Scanner for the explicit-condition regex of `_extract_conditions`
(the pattern: `if`, one or more whitespace characters, then a captured
maximal non-empty run of non-period characters; matches are found left to
right and scanning resumes after each match, as `re.finditer` does).  When
the captured run would be empty the regex engine backtracks one whitespace
character into the capture; that succeeds only when at least two whitespace
characters followed the `if`, and the stripped capture is then empty. -/
def ifScanAux : ℕ → List Char → List String
  | 0, _ => []
  | _, [] => []
  | fuel + 1, c :: t =>
    if c = 'i' then
      match t with
      | 'f' :: r1 :: rest1 =>
        if isPySpace r1 then
          let sp := (r1 :: rest1).takeWhile isPySpace
          let after := (r1 :: rest1).dropWhile isPySpace
          let clause := after.takeWhile (fun ch => ch ≠ '.')
          if ¬ clause.isEmpty then
            (String.mk clause).trim :: ifScanAux fuel (after.drop clause.length)
          else if sp.length ≥ 2 then
            "" :: ifScanAux fuel after
          else
            ifScanAux fuel t
        else
          ifScanAux fuel t
      | _ => ifScanAux fuel t
    else
      ifScanAux fuel t

/-- `_extract_conditions(value)` (the argument is already lowercased by the
caller): matched category names, then explicit `if` clauses. -/
def extract_conditions (value : String) : List String :=
  let cats := (conditional_patterns.filter (fun cp => reSearch cp.2 value)).map (fun cp => cp.1)
  if strContains (strLower value) "if" then
    cats ++ ifScanAux (value.length + 1) value.toList
  else
    cats

/-- `_update_security_context()`: protocol defaults, escalated by endpoint
requirements.  When the protocol is not in the table, `.get` yields the
string defaults `'none'`; otherwise the declared values (the encryption
default is a bool in the table but the string `'none'` when absent, exactly
as in the Python). -/
def flow_update_security_context (protocol : String) (protocols : List (String × ProtoInfo))
    (source target : Val) : Except String Val := do
  let (e, a, z) :=
    match plookup protocols protocol with
    | some info => (vbool info.encryption, vstr info.authentication, vstr info.authorization)
    | none => (vstr "none", vstr "none", vstr "none")
  if pyTruthy source && pyTruthy target then do
    let sa ← pyGetD source "authentication" vnone
    let ta ← pyGetD target "authentication" vnone
    let a := if pyEq sa (vstr "required") || pyEq ta (vstr "required") then vstr "required" else a
    let sz ← pyGetD source "authorization" vnone
    let tz ← pyGetD target "authorization" vnone
    let z := if pyEq sz (vstr "required") || pyEq tz (vstr "required") then vstr "required" else z
    Except.ok (vdict [("encryption", e), ("authentication", a), ("authorization", z)])
  else
    Except.ok (vdict [("encryption", e), ("authentication", a), ("authorization", z)])

/-- `_detect_flow_characteristics(cell)`: bidirectional flag, conditional
flag, extracted conditions. -/
def detect_flow_characteristics (cell : Val) : Except String (Bool × Bool × List String) := do
  let value ← pyLower (← pyGetD cell "value" (vstr ""))
  let style ← pyLower (← pyGetD cell "style" (vstr ""))
  let bidirectional :=
    bidirectional_patterns.any (fun bp => reSearch bp.2 value) || strContains style "double"
  let conditional := conditional_patterns.any (fun cp => reSearch cp.2 value)
  let conditions := if conditional then extract_conditions value else []
  Except.ok (bidirectional, conditional, conditions)

/-- `_create_flow(cell, components_by_id)`: `None` when either endpoint does
not resolve to a truthy component. -/
def create_flow (cell : Val) (components_by_id : List (Val × Val))
    (protocols : List (String × ProtoInfo)) : Except String (Option Val) := do
  let source_id ← pyGetD cell "source" (vstr "")
  let target_id ← pyGetD cell "target" (vstr "")
  let source := (vlookupE components_by_id source_id).getD vnone
  let target := (vlookupE components_by_id target_id).getD vnone
  if ¬ pyTruthy source || ¬ pyTruthy target then
    Except.ok none
  else do
    let protocol ← flow_detect_protocol source target cell protocols
    let (bidirectional, conditional, conditions) ← detect_flow_characteristics cell
    let security ← flow_update_security_context protocol protocols source target
    Except.ok (some (vdict
      [("id", ← pyGetD cell "id" (vstr "")),
       ("source", source_id),
       ("target", target_id),
       ("protocol", vstr protocol),
       ("bidirectional", vbool bidirectional),
       ("conditional", vbool conditional),
       ("conditions", vlist (conditions.map vstr)),
       ("security", security),
       ("value", ← pyGetD cell "value" (vstr ""))]))

/-- `_is_protocol_compatible(protocol, source_type, target_type)`: no
protocol in the table declares a `compatible_types` set, so
`info.get('compatible_types', set())` is always empty and the check is
vacuously true. -/
def is_protocol_compatible (_protocol source_type target_type : String) : Bool :=
  let compatible_types : List String := []
  source_type ∈ compatible_types || target_type ∈ compatible_types || compatible_types.isEmpty

/-- `_correct_protocol(source_type, target_type)`. -/
def correct_protocol (source_type target_type : String) : Option String :=
  if strContains source_type "database" || strContains target_type "database" then some "tcp"
  else if strContains source_type "api" || strContains target_type "api" then some "https"
  else if strContains source_type "message-queue" || strContains target_type "message-queue" then some "amqp"
  else if strContains source_type "cache" || strContains target_type "cache" then some "tcp"
  else if strContains source_type "web-application" || strContains target_type "web-application" then some "https"
  else none

/-- `_improve_flow_detection(flow, components_by_id)`. -/
def improve_flow_detection (flow : Val) (components_by_id : List (Val × Val))
    (protocols : List (String × ProtoInfo)) : Except String (Option Val) := do
  let source := (vlookupE components_by_id (← pyGetD flow "source" (vstr ""))).getD vnone
  let target := (vlookupE components_by_id (← pyGetD flow "target" (vstr ""))).getD vnone
  if ¬ pyTruthy source || ¬ pyTruthy target then
    Except.ok none
  else do
    let pv ← pyGetD flow "protocol" (vstr "")
    match pv with
    | vstr p =>
      if (plookup protocols p).isSome then do
        let source_type ← pyLower (← pyGetD source "type" (vstr ""))
        let target_type ← pyLower (← pyGetD target "type" (vstr ""))
        if ¬ is_protocol_compatible p source_type target_type then
          match correct_protocol source_type target_type with
          | some corrected =>
            (match flow with
             | vdict d => Except.ok (some (vdict (dset d "protocol" (vstr corrected))))
             | _ => Except.error "TypeError")
          | none => Except.ok (some flow)
        else
          Except.ok (some flow)
      else
        Except.ok (some flow)
    | _ => Except.ok (some flow)

/-- `FlowDetector.detect_flows(cells, components)`. -/
def detect_flows (cells : List Val) (components : List Val) : Except String (List Val) := do
  let components_by_id ← components.foldlM
    (fun (m : List (Val × Val)) comp => do
      let k ← pyGetD comp "id" vnone
      Except.ok (vkset m k comp)) []
  let flows ← cells.foldlM (fun acc cell => do
    let b ← is_flow_cell cell
    if b then do
      let f ← create_flow cell components_by_id COMMUNICATION_PROTOCOLS
      match f with
      | some flow => if pyTruthy flow then Except.ok (acc ++ [flow]) else Except.ok acc
      | none => Except.ok acc
    else Except.ok acc) []
  flows.foldlM (fun acc flow => do
    let g ← improve_flow_detection flow components_by_id COMMUNICATION_PROTOCOLS
    match g with
    | some improved =>
      if pyTruthy improved then do
        let vr ← validate_and_correct_flow improved components_by_id COMMUNICATION_PROTOCOLS
        Except.ok (acc ++ [vr.corrected_data])
      else Except.ok acc
    | none => Except.ok acc) []

/-!
`threats/threat_detector.py`.
-/

/-- One entry of the `threat_patterns` table: regex pattern group and
weighted risk factors. -/
structure ThreatPattern where
  patterns : List (List (List String))
  risk_factors : List (String × ℚ)
deriving DecidableEq, Repr

/-- The `threat_patterns` table of `ThreatDetector.__init__`, in declaration
order. -/
def threat_patterns : List (String × ThreatPattern) :=
  [("authentication",
    ⟨[[["auth"], ["login"], ["password"], ["credential"]],
      [["token"], ["session"], ["cookie"]],
      [["identity"], ["user"], ["account"]]],
     [("authentication", 8 / 10), ("authorization", 6 / 10), ("data_sensitivity", 4 / 10)]⟩),
   ("authorization",
    ⟨[[["authz"], ["permission"], ["role"], ["access"]],
      [["privilege"], ["right"], ["policy"]],
      [["control"], ["restrict"], ["limit"]]],
     [("authorization", 8 / 10), ("data_sensitivity", 6 / 10), ("authentication", 4 / 10)]⟩),
   ("data_exposure",
    ⟨[[["data"], ["information"], ["sensitive"]],
      [["exposure"], ["leak"], ["breach"]],
      [["pii"], ["personal"], ["confidential"]]],
     [("data_sensitivity", 8 / 10), ("encryption", 6 / 10), ("authentication", 4 / 10)]⟩),
   ("injection",
    ⟨[[["injection"], ["sql"], ["nosql"]],
      [["xss"], ["script"], ["code"]],
      [["command"], ["shell"], ["exec"]]],
     [("input_validation", 8 / 10), ("authentication", 6 / 10), ("authorization", 4 / 10)]⟩),
   ("dos",
    ⟨[[["dos"], ["ddos"], ["flood"]],
      [["overload"], ["exhaust"], ["resource"]],
      [["bottleneck"], ["throttle"], ["limit"]]],
     [("availability", 8 / 10), ("resource_limits", 6 / 10), ("monitoring", 4 / 10)]⟩)]

/-- One entry of the `composite_threat_patterns` table. -/
structure CompThreatPattern where
  required_threats : List String
  optional_threats : List String
  risk_multiplier : ℚ
deriving DecidableEq, Repr

/-- The `composite_threat_patterns` table (required/optional sets modelled
as lists; only membership is asked of them). -/
def composite_threat_patterns : List (String × CompThreatPattern) :=
  [("authentication_bypass", ⟨["authentication", "authorization"], ["injection", "data_exposure"], 15 / 10⟩),
   ("data_breach", ⟨["data_exposure", "authorization"], ["authentication", "injection"], 18 / 10⟩),
   ("service_compromise", ⟨["injection", "dos"], ["authentication", "authorization"], 16 / 10⟩)]

/-- The `priority_levels` table. -/
def priority_levels : List (String × ℚ) :=
  [("critical", 1), ("high", 2), ("medium", 3), ("low", 4)]

/-- The threat context of `threat_detector.py` (`ThreatContext`), restricted
to the two fields the code reads (`affected_components`, `affected_flows`;
sets modelled as insertion-ordered duplicate-free lists). -/
structure ThreatContext where
  affected_components : List Val
  affected_flows : List Val
deriving DecidableEq, Repr

/-- `_is_threat_cell(cell)`: non-edge, labelled, non-structural, and the
label matches at least one pattern of some threat group (the label is only
lowercased once the three cheap conjuncts hold, as Python short-circuits). -/
def is_threat_cell (cell : Val) : Except String Bool := do
  let e ← pyGetD cell "edge" (vstr "0")
  let hv ← pyContainsKey cell "value"
  let idv ← pyGetD cell "id" vnone
  if ¬ (pyEq e (vstr "0") && hv && ¬ pyMem idv [vstr "0", vstr "1"]) then
    Except.ok false
  else do
    let value ← pyLower (← pyGetD cell "value" (vstr ""))
    Except.ok (threat_patterns.any (fun tp => reSearchAny tp.2.patterns value))

/-- `_detect_threat_type(cell)`: first matching threat group in table
order. -/
def detect_threat_type (cell : Val) : Except String (Option String) := do
  let value ← pyLower (← pyGetD cell "value" (vstr ""))
  Except.ok ((threat_patterns.find? (fun tp => reSearchAny tp.2.patterns value)).map (fun tp => tp.1))

/-- `_detect_affected_components(cell, components_by_id)`: literal
containment of the component label or id in the threat label, or an
inherently sensitive component type. -/
def detect_affected_components (cell : Val) (components_by_id : List (Val × Val)) :
    Except String (List Val) := do
  let value ← pyLower (← pyGetD cell "value" (vstr ""))
  components_by_id.foldlM (fun (affected : List Val) entry => do
    let (comp_id, component) := entry
    let comp_value ← pyLower (← pyGetD component "value" (vstr ""))
    let comp_type ← pyLower (← pyGetD component "type" (vstr ""))
    let idHit ← (
      if strContains value comp_value then Except.ok true
      else match comp_id with
        | vstr s => Except.ok (strContains value s)
        | _ => Except.error "TypeError")
    if idHit then
      Except.ok (setAdd affected comp_id)
    else if comp_type ∈ ["database", "api", "web-application"] then
      Except.ok (setAdd affected comp_id)
    else
      Except.ok affected) []

/-- `_detect_affected_flows(cell, flows_by_id)`: literal containment or an
inherently weak protocol. -/
def detect_affected_flows (cell : Val) (flows_by_id : List (Val × Val)) :
    Except String (List Val) := do
  let value ← pyLower (← pyGetD cell "value" (vstr ""))
  flows_by_id.foldlM (fun (affected : List Val) entry => do
    let (flow_id, flow) := entry
    let flow_value ← pyLower (← pyGetD flow "value" (vstr ""))
    let flow_protocol ← pyLower (← pyGetD flow "protocol" (vstr ""))
    let idHit ← (
      if strContains value flow_value then Except.ok true
      else match flow_id with
        | vstr s => Except.ok (strContains value s)
        | _ => Except.error "TypeError")
    if idHit then
      Except.ok (setAdd affected flow_id)
    else if flow_protocol ∈ ["http", "ws", "tcp"] then
      Except.ok (setAdd affected flow_id)
    else
      Except.ok affected) []

/-- `_calculate_initial_risk_score(threat_type, affected_components,
affected_flows)`. -/
def calculate_initial_risk_score (threat_type : String)
    (affected_components affected_flows : List Val) : ℚ :=
  let factors :=
    match klookup threat_patterns threat_type with
    | some info => info.risk_factors
    | none => []
  let base := factors.foldl (fun acc f => acc + f.2) 0
  let component_factor := min ((affected_components.length : ℚ) / 5) 1
  let base := base * (1 + component_factor)
  let flow_factor := min ((affected_flows.length : ℚ) / 3) 1
  let base := base * (1 + flow_factor)
  min base 1

/-- `_determine_priority(risk_score)`: the fixed threshold mapping. -/
def determine_priority (risk_score : ℚ) : String :=
  if risk_score ≥ 8 / 10 then "critical"
  else if risk_score ≥ 6 / 10 then "high"
  else if risk_score ≥ 4 / 10 then "medium"
  else "low"

/-- `_create_threat(cell, components_by_id, flows_by_id)`. -/
def create_threat (cell : Val) (components_by_id flows_by_id : List (Val × Val)) :
    Except String (Option Val) := do
  let tt ← detect_threat_type cell
  match tt with
  | none => Except.ok none
  | some threat_type => do
    let affected_components ← detect_affected_components cell components_by_id
    let affected_flows ← detect_affected_flows cell flows_by_id
    let risk_score := calculate_initial_risk_score threat_type affected_components affected_flows
    Except.ok (some (vdict
      [("id", ← pyGetD cell "id" (vstr "")),
       ("type", vstr threat_type),
       ("name", ← pyGetD cell "value" (vstr "")),
       ("affected_components", vlist affected_components),
       ("affected_flows", vlist affected_flows),
       ("risk_score", vnum risk_score),
       ("priority", vstr (determine_priority risk_score)),
       ("value", ← pyGetD cell "value" (vstr ""))]))

/-- `_improve_threat_detection(threat, components_by_id, flows_by_id)`:
accumulates the global threat context and filters the affected lists down to
resolvable ids. -/
def improve_threat_detection (tctx : ThreatContext) (threat : Val)
    (components_by_id flows_by_id : List (Val × Val)) :
    Except String (ThreatContext × Option Val) := do
  let tt ← pyGetD threat "type" (vstr "")
  if ¬ pyTruthy tt then
    Except.ok (tctx, none)
  else do
    let acRaw ← pyIter (← pyGetD threat "affected_components" (vlist []))
    let afRaw ← pyIter (← pyGetD threat "affected_flows" (vlist []))
    let tctx := { tctx with
      affected_components := setAddAll tctx.affected_components acRaw,
      affected_flows := setAddAll tctx.affected_flows afRaw }
    let validC ← acRaw.foldlM (fun (acc : List Val) cid =>
      if ¬ pyHashable cid then Except.error "TypeError"
      else if (vklookup components_by_id cid).isSome then Except.ok (acc ++ [cid])
      else Except.ok acc) []
    let validF ← afRaw.foldlM (fun (acc : List Val) fid =>
      if ¬ pyHashable fid then Except.error "TypeError"
      else if (vklookup flows_by_id fid).isSome then Except.ok (acc ++ [fid])
      else Except.ok acc) []
    match threat with
    | vdict d =>
      Except.ok (tctx, some (vdict
        (dset (dset d "affected_components" (vlist validC)) "affected_flows" (vlist validF))))
    | _ => Except.error "TypeError"

/-- `_create_composite_threat(comp_type, required_threats, optional_threats,
threats_by_type, risk_multiplier)`. -/
def create_composite_threat (comp_type : String) (pinfo : CompThreatPattern)
    (threats_by_type : List (Val × List Val)) : Except String Val := do
  let step := fun (st : List Val × List Val × ℚ) (threat : Val) => do
    let (ac, af, base) := st
    let acs ← pyIter (← pyGetD threat "affected_components" (vlist []))
    let afs ← pyIter (← pyGetD threat "affected_flows" (vlist []))
    let rs ← pyGetD threat "risk_score" (vnum 0)
    match asNumLike rs with
    | none => Except.error "TypeError"
    | some q => Except.ok (setAddAll ac acs, setAddAll af afs, max base q)
  let st ← pinfo.required_threats.foldlM
    (fun st t => ((vklookup threats_by_type (vstr t)).getD []).foldlM step st)
    (([], [], 0) : List Val × List Val × ℚ)
  let (ac, af, base) ← pinfo.optional_threats.foldlM
    (fun st t =>
      match vklookup threats_by_type (vstr t) with
      | some ts => ts.foldlM step st
      | none => Except.ok st) st
  let risk_score := min (base * pinfo.risk_multiplier) 1
  let base_threats := pinfo.required_threats ++
    pinfo.optional_threats.filter (fun t => t ∉ pinfo.required_threats)
  Except.ok (vdict
    [("id", vstr ("composite_" ++ comp_type)),
     ("type", vstr comp_type),
     ("name", vstr ("Composite Threat: " ++ comp_type)),
     ("affected_components", vlist ac),
     ("affected_flows", vlist af),
     ("risk_score", vnum risk_score),
     ("priority", vstr (determine_priority risk_score)),
     ("is_composite", vbool true),
     ("base_threats", vlist (base_threats.map vstr))])

/-- `_detect_composite_threats(threats)`. -/
def detect_composite_threats (threats : List Val) : Except String (List Val) := do
  let threats_by_type ← threats.foldlM
    (fun (m : List (Val × List Val)) threat => do
      let k ← pyGetD threat "type" (vstr "")
      Except.ok (dictListAppend m k threat)) []
  composite_threat_patterns.foldlM (fun acc p => do
    if ¬ p.2.required_threats.all (fun t => (vklookup threats_by_type (vstr t)).isSome) then
      Except.ok acc
    else do
      let ct ← create_composite_threat p.1 p.2 threats_by_type
      if pyTruthy ct then Except.ok (acc ++ [ct]) else Except.ok acc) []

/-- `_calculate_context_factor(threat)`. -/
def calculate_context_factor (tctx : ThreatContext) (threat : Val) : Except String ℚ := do
  let factor : ℚ := 1
  let total_components := tctx.affected_components.length
  let factor ← (if total_components > 0 then do
      let n ← pyLen (← pyGetD threat "affected_components" (vlist []))
      Except.ok (factor * (1 + (n : ℚ) / (total_components : ℚ)))
    else Except.ok factor)
  let total_flows := tctx.affected_flows.length
  if total_flows > 0 then do
    let n ← pyLen (← pyGetD threat "affected_flows" (vlist []))
    Except.ok (factor * (1 + (n : ℚ) / (total_flows : ℚ)))
  else
    Except.ok factor

/-- Sort key of `_calculate_risk_scores`: priority level ascending, then
risk score descending (after the update loop every threat carries a numeric
`risk_score`, so the numeric read below matches the Python). -/
def threat_sort_key (t : Val) : ℚ × ℚ :=
  let p := match vget t "priority" (vstr "low") with
    | vstr s => (klookup priority_levels s).getD 4
    | _ => 4
  (p, -((asNumLike (vget t "risk_score" (vnum 0))).getD 0))

/-- The boolean `≤` used for the stable sort of `_calculate_risk_scores`. -/
def threat_sort_le (a b : Val) : Bool :=
  let ka := threat_sort_key a
  let kb := threat_sort_key b
  ka.1 < kb.1 || (ka.1 = kb.1 && ka.2 ≤ kb.2)

/-- Insert an element after every already-placed element that compares
`le`-before it (the insertion step of a stable sort). -/
def insertSorted (le : Val → Val → Bool) (x : Val) : List Val → List Val
  | [] => [x]
  | y :: ys => if le y x then y :: insertSorted le x ys else x :: y :: ys

/-- Stable insertion sort: equal keys keep their input order, exactly as
Python `sorted`. -/
def stableSort (le : Val → Val → Bool) (l : List Val) : List Val :=
  l.foldl (fun acc x => insertSorted le x acc) []

/-- The per-threat body of the `_calculate_risk_scores` update loop:
rescale the score by the context factor (capped at 1.0) and recompute the
priority. -/
def crs_update (tctx : ThreatContext) (threat : Val) : Except String Val := do
  let cf ← calculate_context_factor tctx threat
  let rs ← pyGetD threat "risk_score" (vnum 0)
  match asNumLike rs with
  | none => Except.error "TypeError"
  | some q =>
    match threat with
    | vdict d =>
      let rs := min (q * cf) 1
      Except.ok (vdict (dset (dset d "risk_score" (vnum rs)) "priority"
        (vstr (determine_priority rs))))
    | _ => Except.error "TypeError"

/-- `_calculate_risk_scores(threats)`: rescale every score by the context
factor, recompute the priority, then stable-sort by (priority level,
descending risk score). -/
def calculate_risk_scores (tctx : ThreatContext) (threats : List Val) :
    Except String (List Val) := do
  let updated ← threats.mapM (crs_update tctx)
  Except.ok (stableSort threat_sort_le updated)

/-- `ThreatDetector.detect_threats(cells, components, flows)`. -/
def detect_threats (pyhash : Val → Int) (cells components flows : List Val) :
    Except String (List Val) := do
  let components_by_id ← components.foldlM
    (fun (m : List (Val × Val)) comp => do
      let k ← pyGetD comp "id" vnone
      Except.ok (vkset m k comp)) []
  let flows_by_id ← flows.foldlM
    (fun (m : List (Val × Val)) flow => do
      let k ← pyGetD flow "id" vnone
      Except.ok (vkset m k flow)) []
  let threats ← cells.foldlM (fun acc cell => do
    let b ← is_threat_cell cell
    if b then do
      let t ← create_threat cell components_by_id flows_by_id
      match t with
      | some threat => if pyTruthy threat then Except.ok (acc ++ [threat]) else Except.ok acc
      | none => Except.ok acc
    else Except.ok acc) []
  let (tctx, improved) ← threats.foldlM
    (fun (st : ThreatContext × List Val) threat => do
      let (tctx, acc) := st
      let (tctx, t) ← improve_threat_detection tctx threat components_by_id flows_by_id
      match t with
      | some improved =>
        if pyTruthy improved then do
          let vr ← validate_and_correct_threat pyhash improved components_by_id flows_by_id
          Except.ok (tctx, acc ++ [vr.corrected_data])
        else Except.ok (tctx, acc)
      | none => Except.ok (tctx, acc)) (⟨[], []⟩, [])
  let composites ← detect_composite_threats improved
  calculate_risk_scores tctx (improved ++ composites)

/-!
`mappers/threagile_mapper.py`.  The mapper is configured with the built-in
default tables (no config file).  All four default mapping dicts map every
key to itself, so each is modelled as its key list together with
`idMapGet`; Python drops the duplicate literal keys
(`change-management`, `release-management`, `deployment-management`,
`configuration-management`, `asset-management`, ..., which appear twice with
identical values), so the key lists below are deduplicated in first
occurrence order.  `datetime.now().strftime('%Y-%m-%d')` is the explicit
`today` parameter.  Exceptions inside the per-item loops are caught per
item, as in the Python `try`/`except` blocks; exceptions anywhere else are
caught by the outer handler of `map_to_threagile`.
-/

/-- Lookup in an identity mapping table: the key itself when present, the
default otherwise. -/
def idMapGet (keys : List String) (k : String) (dflt : String) : String :=
  if k ∈ keys then k else dflt

/-- Key list of the default `component_type_mapping`. -/
def component_type_mapping_keys : List String :=
  ["web-application", "mobile-app", "desktop-app", "service", "database",
   "file-storage", "message-queue", "load-balancer", "reverse-proxy", "waf",
   "ids", "ips", "vpn", "firewall", "gateway", "api-gateway", "service-mesh",
   "monitoring", "logging", "authentication", "authorization",
   "key-management", "certificate-management", "secret-management",
   "identity-management", "access-management", "audit-logging", "backup",
   "disaster-recovery", "business-continuity", "incident-response",
   "vulnerability-management", "patch-management", "configuration-management",
   "change-management", "release-management", "deployment",
   "container-orchestration", "service-discovery", "api-management",
   "content-delivery", "dns", "dhcp", "ntp", "syslog", "monitoring-agent",
   "logging-agent", "security-agent", "endpoint-protection",
   "mobile-device-management", "unified-endpoint-management", "email", "chat",
   "collaboration", "document-management", "knowledge-management",
   "project-management", "issue-tracking", "version-control",
   "build-automation", "test-automation", "deployment-automation",
   "infrastructure-as-code", "configuration-as-code", "policy-as-code",
   "security-as-code", "compliance-as-code", "governance-as-code",
   "risk-management", "compliance-management", "audit-management",
   "incident-management", "problem-management", "deployment-management",
   "asset-management", "license-management", "vendor-management",
   "contract-management", "service-level-management",
   "availability-management", "capacity-management", "continuity-management"]

/-- Key list of the default `protocol_mapping`. -/
def protocol_mapping_keys : List String :=
  ["http", "https", "tcp", "udp", "ssh", "ftp", "smtp", "pop3", "imap",
   "dns", "dhcp", "ntp", "snmp", "ldap", "kerberos", "radius", "tacacs+",
   "syslog", "syslog-tls", "syslog-udp", "syslog-tcp", "syslog-tls-tcp",
   "syslog-tls-udp", "syslog-tls-tcp-udp", "syslog-tls-tcp-tls",
   "syslog-tls-udp-tls", "syslog-tls-tcp-udp-tls", "syslog-tls-tcp-tls-udp",
   "syslog-tls-udp-tls-tcp", "syslog-tls-tcp-udp-tls-tcp",
   "syslog-tls-tcp-tls-udp-tcp", "syslog-tls-udp-tls-tcp-udp",
   "syslog-tls-tcp-udp-tls-tcp-udp"]

/-- Key list of the default `security_level_mapping`. -/
def security_level_mapping_keys : List String :=
  ["public", "internal", "restricted", "confidential",
   "strictly-confidential", "operational", "important", "critical",
   "mission-critical"]

/-- Key list of the default `relation_type_mapping`. -/
def relation_type_mapping_keys : List String :=
  ["data-flow", "trust-boundary", "communication", "dependency",
   "inheritance", "composition", "aggregation", "association"]

/-- The `MappingResult` dataclass. -/
structure MappingResult where
  success : Bool
  mapped_data : Val
  errors : List String
  warnings : List String
  details : Val
deriving DecidableEq, Repr

/-- One iteration of `_map_components` (the body of its `try`). -/
def map_component_item (i : ℕ) (component : Val) : Except String (Val × List String) := do
  let idv ← pyGetD component "id" (vstr ("component-" ++ toString i))
  let name ← pyGetD component "name" (vstr ("Component " ++ toString i))
  let ty := idMapGet component_type_mapping_keys
    (← pyLower (← pyGetD component "type" (vstr ""))) "service"
  let mapped := vdict
    [("id", idv), ("name", name), ("type", vstr ty),
     ("description", ← pyGetD component "description" (vstr "")),
     ("tags", ← pyGetD component "tags" (vlist [])),
     ("technical_assets", ← pyGetD component "technical_assets" (vlist [])),
     ("data_assets", ← pyGetD component "data_assets" (vlist [])),
     ("trust_boundaries", ← pyGetD component "trust_boundaries" (vlist []))]
  let errs :=
    (if ¬ pyTruthy name then ["Composant " ++ toString i ++ ": nom manquant"] else []) ++
    (if ty = "" then ["Composant " ++ toString i ++ ": type manquant"] else [])
  Except.ok (mapped, errs)

/-- `_map_components(components)`: per-item exceptions become per-item
errors. -/
def map_components (components : List Val) : List Val × List String :=
  (components.enum).foldl (fun (st : List Val × List String) p =>
    let (acc, errors) := st
    match map_component_item p.1 p.2 with
    | Except.ok (mapped, errs) => (acc ++ [mapped], errors ++ errs)
    | Except.error e =>
      (acc, errors ++ ["Erreur lors du mapping du composant " ++ toString p.1 ++ ": " ++ e]))
    ([], [])

/-- One iteration of `_map_technical_assets`. -/
def map_technical_asset_item (i : ℕ) (asset : Val) : Except String (Val × List String) := do
  let idv ← pyGetD asset "id" (vstr ("asset-" ++ toString i))
  let name ← pyGetD asset "name" (vstr ("Asset " ++ toString i))
  let ty := idMapGet component_type_mapping_keys
    (← pyLower (← pyGetD asset "type" (vstr ""))) "service"
  let mapped := vdict
    [("id", idv), ("name", name), ("type", vstr ty),
     ("description", ← pyGetD asset "description" (vstr "")),
     ("usage", ← pyGetD asset "usage" (vstr "business")),
     ("owner", ← pyGetD asset "owner" (vstr "Unknown")),
     ("confidentiality", vstr (idMapGet security_level_mapping_keys
        (← pyLower (← pyGetD asset "confidentiality" (vstr ""))) "internal")),
     ("integrity", vstr (idMapGet security_level_mapping_keys
        (← pyLower (← pyGetD asset "integrity" (vstr ""))) "operational")),
     ("availability", vstr (idMapGet security_level_mapping_keys
        (← pyLower (← pyGetD asset "availability" (vstr ""))) "operational")),
     ("justification_cia_rating", ← pyGetD asset "justification_cia_rating" (vstr "")),
     ("multi_tenant", ← pyGetD asset "multi_tenant" (vbool false)),
     ("redundant", ← pyGetD asset "redundant" (vbool false)),
     ("custom_developed_parts", ← pyGetD asset "custom_developed_parts" (vbool false)),
     ("encryption", ← pyGetD asset "encryption" (vstr "none")),
     ("authentication", ← pyGetD asset "authentication" (vstr "none")),
     ("authorization", ← pyGetD asset "authorization" (vstr "none")),
     ("justification_authentication", ← pyGetD asset "justification_authentication" (vstr "")),
     ("justification_authorization", ← pyGetD asset "justification_authorization" (vstr ""))]
  let errs :=
    (if ¬ pyTruthy name then ["Asset " ++ toString i ++ ": nom manquant"] else []) ++
    (if ty = "" then ["Asset " ++ toString i ++ ": type manquant"] else [])
  Except.ok (mapped, errs)

/-- `_map_technical_assets(assets)`. -/
def map_technical_assets (assets : List Val) : List Val × List String :=
  (assets.enum).foldl (fun (st : List Val × List String) p =>
    let (acc, errors) := st
    match map_technical_asset_item p.1 p.2 with
    | Except.ok (mapped, errs) => (acc ++ [mapped], errors ++ errs)
    | Except.error e =>
      (acc, errors ++ ["Erreur lors du mapping de l\x27asset " ++ toString p.1 ++ ": " ++ e]))
    ([], [])

/-- One iteration of `_map_trust_boundaries`. -/
def map_trust_boundary_item (i : ℕ) (boundary : Val) : Except String (Val × List String) := do
  let name ← pyGetD boundary "name" (vstr ("Trust Boundary " ++ toString i))
  let ty ← pyGetD boundary "type" (vstr "network")
  let mapped := vdict
    [("id", ← pyGetD boundary "id" (vstr ("boundary-" ++ toString i))),
     ("name", name), ("description", ← pyGetD boundary "description" (vstr "")),
     ("type", ty),
     ("components", ← pyGetD boundary "components" (vlist [])),
     ("technical_assets", ← pyGetD boundary "technical_assets" (vlist [])),
     ("data_assets", ← pyGetD boundary "data_assets" (vlist []))]
  let errs :=
    (if ¬ pyTruthy name then ["Limite de confiance " ++ toString i ++ ": nom manquant"] else []) ++
    (if ¬ pyTruthy ty then ["Limite de confiance " ++ toString i ++ ": type manquant"] else [])
  Except.ok (mapped, errs)

/-- `_map_trust_boundaries(boundaries)`. -/
def map_trust_boundaries (boundaries : List Val) : List Val × List String :=
  (boundaries.enum).foldl (fun (st : List Val × List String) p =>
    let (acc, errors) := st
    match map_trust_boundary_item p.1 p.2 with
    | Except.ok (mapped, errs) => (acc ++ [mapped], errors ++ errs)
    | Except.error e =>
      (acc, errors ++ ["Erreur lors du mapping de la limite de confiance " ++ toString p.1 ++ ": " ++ e]))
    ([], [])

/-- One iteration of `_map_data_assets`. -/
def map_data_asset_item (i : ℕ) (data_asset : Val) : Except String (Val × List String) := do
  let name ← pyGetD data_asset "name" (vstr ("Data Asset " ++ toString i))
  let mapped := vdict
    [("id", ← pyGetD data_asset "id" (vstr ("data-" ++ toString i))),
     ("name", name),
     ("description", ← pyGetD data_asset "description" (vstr "")),
     ("usage", ← pyGetD data_asset "usage" (vstr "business")),
     ("owner", ← pyGetD data_asset "owner" (vstr "Unknown")),
     ("confidentiality", vstr (idMapGet security_level_mapping_keys
        (← pyLower (← pyGetD data_asset "confidentiality" (vstr ""))) "internal")),
     ("integrity", vstr (idMapGet security_level_mapping_keys
        (← pyLower (← pyGetD data_asset "integrity" (vstr ""))) "operational")),
     ("availability", vstr (idMapGet security_level_mapping_keys
        (← pyLower (← pyGetD data_asset "availability" (vstr ""))) "operational")),
     ("justification_cia_rating", ← pyGetD data_asset "justification_cia_rating" (vstr "")),
     ("storage", ← pyGetD data_asset "storage" (vstr "")),
     ("format", ← pyGetD data_asset "format" (vstr "")),
     ("origin", ← pyGetD data_asset "origin" (vstr "")),
     ("quantity", ← pyGetD data_asset "quantity" (vstr "")),
     ("tags", ← pyGetD data_asset "tags" (vlist []))]
  let errs :=
    if ¬ pyTruthy name then ["Asset de données " ++ toString i ++ ": nom manquant"] else []
  Except.ok (mapped, errs)

/-- `_map_data_assets(data_assets)`. -/
def map_data_assets (data_assets : List Val) : List Val × List String :=
  (data_assets.enum).foldl (fun (st : List Val × List String) p =>
    let (acc, errors) := st
    match map_data_asset_item p.1 p.2 with
    | Except.ok (mapped, errs) => (acc ++ [mapped], errors ++ errs)
    | Except.error e =>
      (acc, errors ++ ["Erreur lors du mapping de l\x27asset de données " ++ toString p.1 ++ ": " ++ e]))
    ([], [])

/-- Membership of a value in a reference cache (a Python set); unhashable
values raise TypeError, caught by the per-item handler. -/
def cacheMem (v : Val) (cache : List Val) : Except String Bool :=
  if ¬ pyHashable v then Except.error "TypeError" else Except.ok (decide (v ∈ cache))

/-- One iteration of `_map_relations`, against the component and
technical-asset reference caches. -/
def map_relation_item (i : ℕ) (relation : Val) (cacheC cacheT : List Val) :
    Except String (Val × List String) := do
  let source ← pyGetD relation "source" (vstr "")
  let target ← pyGetD relation "target" (vstr "")
  let mapped := vdict
    [("id", ← pyGetD relation "id" (vstr ("relation-" ++ toString i))),
     ("name", ← pyGetD relation "name" (vstr ("Relation " ++ toString i))),
     ("description", ← pyGetD relation "description" (vstr "")),
     ("type", vstr (idMapGet relation_type_mapping_keys
        (← pyLower (← pyGetD relation "type" (vstr ""))) "data-flow")),
     ("source", source), ("target", target),
     ("protocol", vstr (idMapGet protocol_mapping_keys
        (← pyLower (← pyGetD relation "protocol" (vstr ""))) "tcp")),
     ("authentication", ← pyGetD relation "authentication" (vstr "none")),
     ("authorization", ← pyGetD relation "authorization" (vstr "none")),
     ("encryption", ← pyGetD relation "encryption" (vstr "none")),
     ("data_assets", ← pyGetD relation "data_assets" (vlist [])),
     ("tags", ← pyGetD relation "tags" (vlist []))]
  let e1 := if ¬ pyTruthy source then ["Relation " ++ toString i ++ ": source manquante"] else []
  let e2 := if ¬ pyTruthy target then ["Relation " ++ toString i ++ ": cible manquante"] else []
  let sOk ← (do
    let inC ← cacheMem source cacheC
    if inC then Except.ok true else cacheMem source cacheT)
  let e3 := if ¬ sOk then ["Relation " ++ toString i ++ ": source invalide " ++ pyStr source] else []
  let tOk ← (do
    let inC ← cacheMem target cacheC
    if inC then Except.ok true else cacheMem target cacheT)
  let e4 := if ¬ tOk then ["Relation " ++ toString i ++ ": cible invalide " ++ pyStr target] else []
  Except.ok (mapped, e1 ++ e2 ++ e3 ++ e4)

/-- `_map_relations(relations)`. -/
def map_relations (relations : List Val) (cacheC cacheT : List Val) : List Val × List String :=
  (relations.enum).foldl (fun (st : List Val × List String) p =>
    let (acc, errors) := st
    match map_relation_item p.1 p.2 cacheC cacheT with
    | Except.ok (mapped, errs) => (acc ++ [mapped], errors ++ errs)
    | Except.error e =>
      (acc, errors ++ ["Erreur lors du mapping de la relation " ++ toString p.1 ++ ": " ++ e]))
    ([], [])

/-- `_validate_references(data)`: cross-collection reference checks against
the caches (exceptions here propagate to the outer handler). -/
def validate_references (components boundaries : List Val)
    (cacheC cacheT cacheD cacheB : List Val) : Except String (List String) := do
  let compErrs ← components.foldlM (fun (errs : List String) component => do
    let cid := vget component "id" vnone
    let tas ← pyIter (← pyGetD component "technical_assets" (vlist []))
    let errs ← tas.foldlM (fun (errs : List String) aid => do
      let hit ← cacheMem aid cacheT
      if ¬ hit then
        Except.ok (errs ++ ["Composant " ++ pyStr cid ++ ": référence invalide vers l\x27asset technique " ++ pyStr aid])
      else Except.ok errs) errs
    let das ← pyIter (← pyGetD component "data_assets" (vlist []))
    let errs ← das.foldlM (fun (errs : List String) aid => do
      let hit ← cacheMem aid cacheD
      if ¬ hit then
        Except.ok (errs ++ ["Composant " ++ pyStr cid ++ ": référence invalide vers l\x27asset de données " ++ pyStr aid])
      else Except.ok errs) errs
    let tbs ← pyIter (← pyGetD component "trust_boundaries" (vlist []))
    tbs.foldlM (fun (errs : List String) bid => do
      let hit ← cacheMem bid cacheB
      if ¬ hit then
        Except.ok (errs ++ ["Composant " ++ pyStr cid ++ ": référence invalide vers la limite de confiance " ++ pyStr bid])
      else Except.ok errs) errs) []
  boundaries.foldlM (fun (errs : List String) boundary => do
    let bid := vget boundary "id" vnone
    let cs ← pyIter (← pyGetD boundary "components" (vlist []))
    let errs ← cs.foldlM (fun (errs : List String) cid => do
      let hit ← cacheMem cid cacheC
      if ¬ hit then
        Except.ok (errs ++ ["Limite de confiance " ++ pyStr bid ++ ": référence invalide vers le composant " ++ pyStr cid])
      else Except.ok errs) errs
    let tas ← pyIter (← pyGetD boundary "technical_assets" (vlist []))
    let errs ← tas.foldlM (fun (errs : List String) aid => do
      let hit ← cacheMem aid cacheT
      if ¬ hit then
        Except.ok (errs ++ ["Limite de confiance " ++ pyStr bid ++ ": référence invalide vers l\x27asset technique " ++ pyStr aid])
      else Except.ok errs) errs
    let das ← pyIter (← pyGetD boundary "data_assets" (vlist []))
    das.foldlM (fun (errs : List String) aid => do
      let hit ← cacheMem aid cacheD
      if ¬ hit then
        Except.ok (errs ++ ["Limite de confiance " ++ pyStr bid ++ ": référence invalide vers l\x27asset de données " ++ pyStr aid])
      else Except.ok errs) errs) compErrs

/-- Update a reference cache with emitted ids (`set.update`); unhashable ids
raise TypeError, caught only by the outer handler. -/
def cacheUpdate (cache : List Val) (items : List Val) (key : String) :
    Except String (List Val) :=
  items.foldlM (fun cache item =>
    let idv := vget item key vnone
    if ¬ pyHashable idv then Except.error "TypeError"
    else Except.ok (setAdd cache idv)) cache

/-- The date-independent part of `map_to_threagile`: all collection mapping,
reference caching and reference validation.  The wall-clock date plays no
role here. -/
structure MapCore where
  components : List Val
  technical_assets : List Val
  trust_boundaries : List Val
  data_assets : List Val
  relations : List Val
  errors : List String
  warnings : List String
deriving DecidableEq, Repr

/-- Collection mapping of `map_to_threagile(drawio_data)` (everything except
the final document assembly, which is where the run date enters). -/
def map_to_threagile_core (d : List (String × Val)) : Except String MapCore := do
  let (comps, e1) ← (match dlookup d "components" with
    | some v => do let items ← pyIter v; Except.ok (map_components items)
    | none => Except.ok ([], []))
  let cacheC ← cacheUpdate [] comps "id"
  let (assets, e2) ← (match dlookup d "technical_assets" with
    | some v => do let items ← pyIter v; Except.ok (map_technical_assets items)
    | none => Except.ok ([], []))
  let cacheT ← cacheUpdate [] assets "id"
  let (boundaries, e3) ← (match dlookup d "trust_boundaries" with
    | some v => do let items ← pyIter v; Except.ok (map_trust_boundaries items)
    | none => Except.ok ([], []))
  let cacheB ← cacheUpdate [] boundaries "id"
  let (dassets, e4) ← (match dlookup d "data_assets" with
    | some v => do let items ← pyIter v; Except.ok (map_data_assets items)
    | none => Except.ok ([], []))
  let cacheD ← cacheUpdate [] dassets "id"
  let (relations, e5) ← (match dlookup d "relations" with
    | some v => do let items ← pyIter v; Except.ok (map_relations items cacheC cacheT)
    | none => Except.ok ([], []))
  let refErrs ← validate_references comps boundaries cacheC cacheT cacheD cacheB
  Except.ok ⟨comps, assets, boundaries, dassets, relations,
    e1 ++ e2 ++ e3 ++ e4 ++ e5 ++ refErrs, []⟩

/-- `ThreagileMapper.map_to_threagile(drawio_data)`, with the current date
(`datetime.now().strftime('%Y-%m-%d')`) passed in as `today` and the outer
`except` clause producing the fallback result. -/
def map_to_threagile (today : String) (d : List (String × Val)) : MappingResult :=
  match map_to_threagile_core d with
  | Except.ok core =>
    ⟨core.errors.isEmpty,
     vdict
       [("title", (dlookup d "title").getD (vstr "Untitled")),
        ("description", (dlookup d "description").getD (vstr "")),
        ("date", vstr today),
        ("author", (dlookup d "author").getD (vstr "Unknown")),
        ("components", vlist core.components),
        ("data_assets", vlist core.data_assets),
        ("trust_boundaries", vlist core.trust_boundaries),
        ("technical_assets", vlist core.technical_assets),
        ("relations", vlist core.relations)],
     core.errors, core.warnings, vdict []⟩
  | Except.error e =>
    ⟨false, vdict [], ["Erreur lors du mapping: " ++ e], [], vdict []⟩

/-!
`validators/threagile_validator.py`: the `validate_yaml` path, modelled on
the already-parsed YAML value (`yaml.safe_load` is outside the model).  The
built-in default configuration is used (no config file).  Any exception
raised during validation is caught by the outer handler, which produces the
`Erreur inattendue` result.
-/

/-- The Python types appearing in the validator field tables. -/
inductive PyTy : Type where
  | tstr : PyTy
  | tlist : PyTy
  | tbool : PyTy
deriving DecidableEq, Repr

/-- `isinstance(v, t)` for the table types (`bool` values are `vbool`;
`isinstance(True, str)` is false, etc.). -/
def isinstanceOf (v : Val) (t : PyTy) : Bool :=
  match t, v with
  | PyTy.tstr, vstr _ => true
  | PyTy.tlist, vlist _ => true
  | PyTy.tbool, vbool _ => true
  | _, _ => false

/-- `field_type.__name__` for the error messages. -/
def pyTyName : PyTy → String
  | PyTy.tstr => "str"
  | PyTy.tlist => "list"
  | PyTy.tbool => "bool"

/-- Python `obj[k]` for a dict; TypeError on any other receiver (the
`field in obj` guard has already ruled out a missing key). -/
def pyIndexStr (o : Val) (k : String) : Except String Val :=
  match o with
  | vdict d => (dlookup d k).elim (Except.error "KeyError") Except.ok
  | _ => Except.error "TypeError"

/-- Membership of a value in a set of strings (Python `v in {...}`);
unhashable values raise TypeError. -/
def setMemStr (v : Val) (keys : List String) : Except String Bool :=
  if ¬ pyHashable v then Except.error "TypeError"
  else
    match v with
    | vstr s => Except.ok (s ∈ keys)
    | _ => Except.ok false

/-- The `required_fields` table of `ThreagileValidator.__init__`. -/
def required_fields : List (String × PyTy) :=
  [("title", PyTy.tstr), ("description", PyTy.tstr), ("date", PyTy.tstr),
   ("author", PyTy.tstr), ("components", PyTy.tlist), ("data_assets", PyTy.tlist),
   ("trust_boundaries", PyTy.tlist), ("technical_assets", PyTy.tlist),
   ("relations", PyTy.tlist)]

/-- The `component_fields` table. -/
def component_fields : List (String × PyTy) :=
  [("id", PyTy.tstr), ("name", PyTy.tstr), ("type", PyTy.tstr),
   ("description", PyTy.tstr), ("tags", PyTy.tlist),
   ("technical_assets", PyTy.tlist), ("data_assets", PyTy.tlist),
   ("trust_boundaries", PyTy.tlist), ("security_controls", PyTy.tlist),
   ("compliance_requirements", PyTy.tlist)]

/-- The `technical_asset_fields` table. -/
def technical_asset_fields : List (String × PyTy) :=
  [("id", PyTy.tstr), ("name", PyTy.tstr), ("type", PyTy.tstr),
   ("description", PyTy.tstr), ("usage", PyTy.tstr), ("owner", PyTy.tstr),
   ("confidentiality", PyTy.tstr), ("integrity", PyTy.tstr),
   ("availability", PyTy.tstr), ("justification_cia_rating", PyTy.tstr),
   ("multi_tenant", PyTy.tbool), ("redundant", PyTy.tbool),
   ("custom_developed_parts", PyTy.tbool), ("encryption", PyTy.tstr),
   ("authentication", PyTy.tstr), ("authorization", PyTy.tstr),
   ("justification_authentication", PyTy.tstr),
   ("justification_authorization", PyTy.tstr),
   ("security_controls", PyTy.tlist), ("compliance_requirements", PyTy.tlist),
   ("vulnerabilities", PyTy.tlist), ("threats", PyTy.tlist)]

/-- The `data_asset_fields` table. -/
def data_asset_fields : List (String × PyTy) :=
  [("id", PyTy.tstr), ("name", PyTy.tstr), ("description", PyTy.tstr),
   ("usage", PyTy.tstr), ("owner", PyTy.tstr), ("confidentiality", PyTy.tstr),
   ("integrity", PyTy.tstr), ("availability", PyTy.tstr),
   ("justification_cia_rating", PyTy.tstr), ("storage", PyTy.tstr),
   ("format", PyTy.tstr), ("origin", PyTy.tstr), ("quantity", PyTy.tstr),
   ("tags", PyTy.tlist), ("security_controls", PyTy.tlist),
   ("compliance_requirements", PyTy.tlist), ("data_classification", PyTy.tstr),
   ("retention_period", PyTy.tstr), ("backup_frequency", PyTy.tstr)]

/-- The `trust_boundary_fields` table. -/
def trust_boundary_fields : List (String × PyTy) :=
  [("id", PyTy.tstr), ("name", PyTy.tstr), ("description", PyTy.tstr),
   ("type", PyTy.tstr), ("components", PyTy.tlist),
   ("technical_assets", PyTy.tlist), ("data_assets", PyTy.tlist),
   ("security_controls", PyTy.tlist), ("compliance_requirements", PyTy.tlist)]

/-- The `relation_fields` table. -/
def relation_fields : List (String × PyTy) :=
  [("id", PyTy.tstr), ("name", PyTy.tstr), ("description", PyTy.tstr),
   ("type", PyTy.tstr), ("source", PyTy.tstr), ("target", PyTy.tstr),
   ("protocol", PyTy.tstr), ("authentication", PyTy.tstr),
   ("authorization", PyTy.tstr), ("encryption", PyTy.tstr),
   ("data_assets", PyTy.tlist), ("tags", PyTy.tlist),
   ("security_controls", PyTy.tlist), ("compliance_requirements", PyTy.tlist)]

/-- Common tail of `_get_valid_component_types` and
`_get_valid_asset_types` (the Python set literals repeat a block of
management types, which the set construction deduplicates; the lists below
are the deduplicated members). -/
def valid_types_common : List String :=
  ["service", "database", "file-storage", "message-queue", "load-balancer",
   "reverse-proxy", "waf", "ids", "ips", "vpn", "firewall", "gateway",
   "api-gateway", "service-mesh", "monitoring", "logging", "authentication",
   "authorization", "key-management", "certificate-management",
   "secret-management", "identity-management", "access-management",
   "audit-logging", "backup", "disaster-recovery", "business-continuity",
   "incident-response", "vulnerability-management", "patch-management",
   "configuration-management", "change-management", "release-management",
   "deployment", "container-orchestration", "service-discovery",
   "api-management", "content-delivery", "dns", "dhcp", "ntp", "syslog",
   "monitoring-agent", "logging-agent", "security-agent",
   "endpoint-protection", "mobile-device-management",
   "unified-endpoint-management", "email", "chat", "collaboration",
   "document-management", "knowledge-management", "project-management",
   "issue-tracking", "version-control", "build-automation",
   "test-automation", "deployment-automation", "infrastructure-as-code",
   "configuration-as-code", "policy-as-code", "security-as-code",
   "compliance-as-code", "governance-as-code", "risk-management",
   "compliance-management", "audit-management", "incident-management",
   "problem-management", "deployment-management", "asset-management",
   "license-management", "vendor-management", "contract-management",
   "service-level-management", "availability-management",
   "capacity-management", "continuity-management", "security-management"]

/-- `_get_valid_component_types()`. -/
def valid_component_types : List String :=
  ["web-application", "mobile-app", "desktop-app"] ++ valid_types_common

/-- `_get_valid_asset_types()`. -/
def valid_asset_types : List String :=
  ["application"] ++ valid_types_common

/-- `_get_valid_relation_types()`. -/
def valid_relation_types : List String :=
  ["data-flow", "trust-boundary", "communication", "dependency",
   "inheritance", "composition", "aggregation", "association"]

/-- `_get_valid_boundary_types()`. -/
def valid_boundary_types : List String :=
  ["network", "physical", "logical", "organizational", "legal", "regulatory"]

/-- Valid confidentiality levels (`valid_security_levels['confidentiality']`). -/
def valid_confidentiality_levels : List String :=
  ["public", "internal", "restricted", "confidential", "strictly-confidential"]

/-- The required-field/type loop shared by the per-collection validators:
`<prefix> {i}: champ requis manquant: f` / `type invalide pour f`. -/
def entity_field_errors (pfx : String) (i : ℕ) (fields : List (String × PyTy))
    (entity : Val) : Except String (List String) :=
  fields.foldlM (fun (errs : List String) f => do
    let hv ← pyContainsKey entity f.1
    if ¬ hv then
      Except.ok (errs ++ [pfx ++ " " ++ toString i ++ ": champ requis manquant: " ++ f.1])
    else do
      let v ← pyIndexStr entity f.1
      if ¬ isinstanceOf v f.2 then
        Except.ok (errs ++ [pfx ++ " " ++ toString i ++ ": type invalide pour " ++ f.1 ++ ": attendu " ++ pyTyName f.2])
      else
        Except.ok errs) []

/-- Name/description length warnings shared by the data-asset,
trust-boundary and relation validators (bounds from `validation_rules`:
name in [3,100], description in [10,500]). -/
def length_warnings (pfx : String) (i : ℕ) (entity : Val) : Except String (List String) := do
  let w1 ← (do
    let hv ← pyContainsKey entity "name"
    if hv then do
      let n ← pyLen (← pyIndexStr entity "name")
      if n < 3 then Except.ok [pfx ++ " " ++ toString i ++ ": nom trop court"]
      else if n > 100 then Except.ok [pfx ++ " " ++ toString i ++ ": nom trop long"]
      else Except.ok []
    else Except.ok ([] : List String))
  let w2 ← (do
    let hv ← pyContainsKey entity "description"
    if hv then do
      let n ← pyLen (← pyIndexStr entity "description")
      if n < 10 then Except.ok [pfx ++ " " ++ toString i ++ ": description trop courte"]
      else if n > 500 then Except.ok [pfx ++ " " ++ toString i ++ ": description trop longue"]
      else Except.ok []
    else Except.ok ([] : List String))
  Except.ok (w1 ++ w2)

/-- `_validate_components(components)`. -/
def tv_validate_components (components : List Val) : Except String (List String × List String) :=
  components.enum.foldlM (fun (st : List String × List String) p => do
    let (errors, warnings) := st
    let errs ← entity_field_errors "Composant" p.1 component_fields p.2
    let ws ← (do
      let hv ← pyContainsKey p.2 "type"
      if hv then do
        let tv ← pyIndexStr p.2 "type"
        let m ← setMemStr tv valid_component_types
        if ¬ m then Except.ok ["Composant " ++ toString p.1 ++ ": type inconnu: " ++ pyStr tv]
        else Except.ok []
      else Except.ok ([] : List String))
    Except.ok (errors ++ errs, warnings ++ ws)) ([], [])

/-- `_validate_technical_assets(assets)`. -/
def tv_validate_technical_assets (assets : List Val) : Except String (List String × List String) :=
  assets.enum.foldlM (fun (st : List String × List String) p => do
    let (errors, warnings) := st
    let errs ← entity_field_errors "Asset" p.1 technical_asset_fields p.2
    let ws ← (do
      let hv ← pyContainsKey p.2 "type"
      if hv then do
        let tv ← pyIndexStr p.2 "type"
        let m ← setMemStr tv valid_asset_types
        if ¬ m then Except.ok ["Asset " ++ toString p.1 ++ ": type inconnu: " ++ pyStr tv]
        else Except.ok []
      else Except.ok ([] : List String))
    Except.ok (errors ++ errs, warnings ++ ws)) ([], [])

/-- `_validate_data_assets(data_assets)`. -/
def tv_validate_data_assets (data_assets : List Val) : Except String (List String × List String) :=
  data_assets.enum.foldlM (fun (st : List String × List String) p => do
    let (errors, warnings) := st
    let errs ← entity_field_errors "Asset de données" p.1 data_asset_fields p.2
    let w1 ← (do
      let hv ← pyContainsKey p.2 "data_classification"
      if hv then do
        let cv ← pyIndexStr p.2 "data_classification"
        let m ← setMemStr cv valid_confidentiality_levels
        if ¬ m then
          Except.ok ["Asset de données " ++ toString p.1 ++ ": classification de données invalide: " ++ pyStr cv]
        else Except.ok []
      else Except.ok ([] : List String))
    let w2 ← length_warnings "Asset de données" p.1 p.2
    Except.ok (errors ++ errs, warnings ++ w1 ++ w2)) ([], [])

/-- `_validate_trust_boundaries(boundaries)`. -/
def tv_validate_trust_boundaries (boundaries : List Val) : Except String (List String × List String) :=
  boundaries.enum.foldlM (fun (st : List String × List String) p => do
    let (errors, warnings) := st
    let errs ← entity_field_errors "Limite de confiance" p.1 trust_boundary_fields p.2
    let w1 ← (do
      let hv ← pyContainsKey p.2 "type"
      if hv then do
        let tv ← pyIndexStr p.2 "type"
        let m ← setMemStr tv valid_boundary_types
        if ¬ m then
          Except.ok ["Limite de confiance " ++ toString p.1 ++ ": type invalide: " ++ pyStr tv]
        else Except.ok []
      else Except.ok ([] : List String))
    let w2 ← length_warnings "Limite de confiance" p.1 p.2
    Except.ok (errors ++ errs, warnings ++ w1 ++ w2)) ([], [])

/-- The id set `{x['id'] for x in xs if 'id' in x}` (unhashable ids raise). -/
def collect_id_set (xs : List Val) : Except String (List Val) :=
  xs.foldlM (fun (ids : List Val) x => do
    let hv ← pyContainsKey x "id"
    if hv then do
      let idv ← pyIndexStr x "id"
      if ¬ pyHashable idv then Except.error "TypeError"
      else Except.ok (setAdd ids idv)
    else Except.ok ids) []

/-- `_validate_relations(relations, components, assets)`. -/
def tv_validate_relations (relations components assets : List Val) :
    Except String (List String × List String) := do
  let component_ids ← collect_id_set components
  let asset_ids ← collect_id_set assets
  let valid_ids := setAddAll component_ids asset_ids
  relations.enum.foldlM (fun (st : List String × List String) p => do
    let (errors, warnings) := st
    let errs ← entity_field_errors "Relation" p.1 relation_fields p.2
    let w1 ← (do
      let hv ← pyContainsKey p.2 "type"
      if hv then do
        let tv ← pyIndexStr p.2 "type"
        let m ← setMemStr tv valid_relation_types
        if ¬ m then Except.ok ["Relation " ++ toString p.1 ++ ": type invalide: " ++ pyStr tv]
        else Except.ok []
      else Except.ok ([] : List String))
    let e2 ← (do
      let hv ← pyContainsKey p.2 "source"
      if hv then do
        let sv ← pyIndexStr p.2 "source"
        let m ← cacheMem sv valid_ids
        if ¬ m then Except.ok ["Relation " ++ toString p.1 ++ ": source invalide: " ++ pyStr sv]
        else Except.ok []
      else Except.ok ([] : List String))
    let e3 ← (do
      let hv ← pyContainsKey p.2 "target"
      if hv then do
        let tv ← pyIndexStr p.2 "target"
        let m ← cacheMem tv valid_ids
        if ¬ m then Except.ok ["Relation " ++ toString p.1 ++ ": cible invalide: " ++ pyStr tv]
        else Except.ok []
      else Except.ok ([] : List String))
    let w2 ← length_warnings "Relation" p.1 p.2
    Except.ok (errors ++ errs ++ e2 ++ e3, warnings ++ w1 ++ w2)) ([], [])

/-- The per-entry body of the `_validate_unique_ids` scan: record the id
(when present and hashable) and report a duplicate when it was seen. -/
def uid_scan (st : List Val × List String) (entry : Val) :
    Except String (List Val × List String) := do
  let (seen, errs) := st
  let hv ← pyContainsKey entry "id"
  if hv then do
    let idv ← pyIndexStr entry "id"
    if ¬ pyHashable idv then Except.error "TypeError"
    else
      let errs := if idv ∈ seen then errs ++ ["ID dupliqué trouvé: " ++ pyStr idv] else errs
      Except.ok (setAdd seen idv, errs)
  else Except.ok (seen, errs)

/-- `_validate_unique_ids(data, errors)`: collects ids of `components` and
`technical_assets` only and reports an error each time an id was seen
before. -/
def validate_unique_ids (data : Val) : Except String (List String) := do
  let st : List Val × List String := ([], [])
  let st ← (do
    let hc ← pyContainsKey data "components"
    if hc then do
      let items ← pyIter (← pyIndexStr data "components")
      items.foldlM uid_scan st
    else Except.ok st)
  let st ← (do
    let hc ← pyContainsKey data "technical_assets"
    if hc then do
      let items ← pyIter (← pyIndexStr data "technical_assets")
      items.foldlM uid_scan st
    else Except.ok st)
  Except.ok st.2

/-- `_validate_threagile_compliance(data, errors, warnings)`: non-emptiness
of the three collections, then the unique-id check (all rules enabled in
the default configuration). -/
def validate_threagile_compliance (data : Val) : Except String (List String) := do
  let e1 ← (do
    let hc ← pyContainsKey data "trust_boundaries"
    if hc then do
      let v ← pyIndexStr data "trust_boundaries"
      if ¬ pyTruthy v then Except.ok ["Au moins une limite de confiance est requise"]
      else Except.ok []
    else Except.ok ([] : List String))
  let e2 ← (do
    let hc ← pyContainsKey data "data_assets"
    if hc then do
      let v ← pyIndexStr data "data_assets"
      if ¬ pyTruthy v then Except.ok ["Au moins un asset de données est requis"]
      else Except.ok []
    else Except.ok ([] : List String))
  let e3 ← (do
    let hc ← pyContainsKey data "technical_assets"
    if hc then do
      let v ← pyIndexStr data "technical_assets"
      if ¬ pyTruthy v then Except.ok ["Au moins un asset technique est requis"]
      else Except.ok []
    else Except.ok ([] : List String))
  let e4 ← validate_unique_ids data
  Except.ok (e1 ++ e2 ++ e3 ++ e4)

/-- `_validate_relationships(data, errors, warnings)`: component references
to technical/data assets, all checked against the technical-asset id set. -/
def validate_relationships (data : Val) : Except String (List String) := do
  let hc ← pyContainsKey data "components"
  let ha ← pyContainsKey data "technical_assets"
  if hc && ha then do
    let components ← pyIter (← pyIndexStr data "components")
    let assets ← pyIter (← pyIndexStr data "technical_assets")
    let _component_ids ← collect_id_set components
    let asset_ids ← collect_id_set assets
    components.enum.foldlM (fun (errs : List String) p => do
      let errs ← (do
        let hv ← pyContainsKey p.2 "technical_assets"
        if hv then do
          let refs ← pyIter (← pyIndexStr p.2 "technical_assets")
          refs.foldlM (fun (errs : List String) aid => do
            let m ← cacheMem aid asset_ids
            if ¬ m then
              Except.ok (errs ++ ["Composant " ++ toString p.1 ++ ": référence à un asset inexistant: " ++ pyStr aid])
            else Except.ok errs) errs
        else Except.ok errs)
      let hv ← pyContainsKey p.2 "data_assets"
      if hv then do
        let refs ← pyIter (← pyIndexStr p.2 "data_assets")
        refs.foldlM (fun (errs : List String) did => do
          let m ← cacheMem did asset_ids
          if ¬ m then
            Except.ok (errs ++ ["Composant " ++ toString p.1 ++ ": référence à un asset de données inexistant: " ++ pyStr did])
          else Except.ok errs) errs
      else Except.ok errs) []
  else
    Except.ok []

/-- Result record of `threagile_validator.py` (`ValidationResult`). -/
structure TvResult where
  is_valid : Bool
  errors : List String
  warnings : List String
  details : Val
deriving DecidableEq, Repr

/-- The body of `validate_yaml` after parsing (errors and warnings in
accumulation order). -/
def validate_yaml_core (data : Val) : Except String (List String × List String) := do
  let e0 ← required_fields.foldlM (fun (errs : List String) f => do
    let hv ← pyContainsKey data f.1
    if ¬ hv then Except.ok (errs ++ ["Champ requis manquant: " ++ f.1])
    else do
      let v ← pyIndexStr data f.1
      if ¬ isinstanceOf v f.2 then
        Except.ok (errs ++ ["Type invalide pour " ++ f.1 ++ ": attendu " ++ pyTyName f.2])
      else Except.ok errs) []
  let (e1, w1) ← (do
    let hc ← pyContainsKey data "components"
    if hc then do
      let items ← pyIter (← pyIndexStr data "components")
      tv_validate_components items
    else Except.ok ([], []))
  let (e2, w2) ← (do
    let hc ← pyContainsKey data "technical_assets"
    if hc then do
      let items ← pyIter (← pyIndexStr data "technical_assets")
      tv_validate_technical_assets items
    else Except.ok ([], []))
  let (e3, w3) ← (do
    let hc ← pyContainsKey data "data_assets"
    if hc then do
      let items ← pyIter (← pyIndexStr data "data_assets")
      tv_validate_data_assets items
    else Except.ok ([], []))
  let (e4, w4) ← (do
    let hc ← pyContainsKey data "trust_boundaries"
    if hc then do
      let items ← pyIter (← pyIndexStr data "trust_boundaries")
      tv_validate_trust_boundaries items
    else Except.ok ([], []))
  let (e5, w5) ← (do
    let hc ← pyContainsKey data "relations"
    if hc then do
      let items ← pyIter (← pyIndexStr data "relations")
      let comps ← pyIter (← pyGetD data "components" (vlist []))
      let assets ← pyIter (← pyGetD data "technical_assets" (vlist []))
      tv_validate_relations items comps assets
    else Except.ok ([], []))
  let e6 ← validate_threagile_compliance data
  let e7 ← validate_unique_ids data
  let e8 ← validate_relationships data
  Except.ok (e0 ++ e1 ++ e2 ++ e3 ++ e4 ++ e5 ++ e6 ++ e7 ++ e8,
             w1 ++ w2 ++ w3 ++ w4 ++ w5)

/-- `ThreagileValidator.validate_yaml` on the parsed document: the falsy
check, the validation body, and the outer exception handler. -/
def validate_yaml_data (data : Val) : TvResult :=
  if ¬ pyTruthy data then
    ⟨false, ["Contenu YAML vide"], [], vdict []⟩
  else
    match validate_yaml_core data with
    | Except.ok (errors, warnings) => ⟨errors.isEmpty, errors, warnings, vdict []⟩
    | Except.error e => ⟨false, ["Erreur inattendue: " ++ e], [], vdict []⟩

/-!
Auxiliary lemmas about the dictionary model.
-/

/-- Lookup after update. -/
theorem dlookup_dset (d : List (String × Val)) (k : String) (v : Val) (q : String) :
    dlookup (dset d k v) q = if q = k then some v else dlookup d q := by
  induction d with
  | nil =>
    by_cases hq : k = q
    · subst hq
      simp [dset, dlookup]
    · have hq2 : ¬ q = k := fun h => hq h.symm
      simp [dset, dlookup, hq, hq2]
  | cons hd tl ih =>
    obtain ⟨k0, v0⟩ := hd
    by_cases h0 : k0 = k
    · subst h0
      by_cases hq : k0 = q
      · subst hq
        simp [dset, dlookup]
      · have hq2 : ¬ q = k0 := fun h => hq h.symm
        simp [dset, dlookup, hq, hq2]
    · by_cases hq : k0 = q
      · subst hq
        have hqk2 : ¬ k0 = k := h0
        have hqk3 : (k0 = k) = False := eq_false hqk2
        simp [dset, dlookup, h0, hqk3]
      · simp [dset, dlookup, h0, hq, ih]

/-- Membership in a model set after one insertion. -/
theorem mem_setAdd (l : List Val) (x y : Val) :
    y ∈ setAdd l x ↔ y ∈ l ∨ y = x := by
  unfold setAdd
  by_cases hx : x ∈ l
  · simp only [if_pos hx]
    constructor
    · exact Or.inl
    · rintro (h | rfl)
      · exact h
      · exact hx
  · simp [if_neg hx]

/-- Membership in a model set after a bulk insertion. -/
theorem mem_setAddAll (l xs : List Val) (y : Val) :
    y ∈ setAddAll l xs ↔ y ∈ l ∨ y ∈ xs := by
  induction xs generalizing l with
  | nil => simp [setAddAll]
  | cons x xs ih =>
    unfold setAddAll at ih ⊢
    rw [List.foldl_cons, ih, mem_setAdd]
    simp [List.mem_cons, or_assoc]

/-- Successful `mapM` over `Except`: every output element is the image of
some input element. -/
theorem mapM_ok_mem {α β : Type} (f : α → Except String β)
    (ts : List α) (us : List β) (h : ts.mapM f = Except.ok us) :
    ∀ u ∈ us, ∃ t ∈ ts, f t = Except.ok u := by
  induction ts generalizing us with
  | nil =>
    simp only [List.mapM_nil, pure, Except.pure, Except.ok.injEq] at h
    subst h
    intro u hu
    exact absurd hu (List.not_mem_nil u)
  | cons t ts ih =>
    rw [List.mapM_cons] at h
    cases hf : f t with
    | error e => simp [hf, bind, Except.bind] at h
    | ok v =>
      simp only [hf, bind, Except.bind] at h
      cases hrest : ts.mapM f with
      | error e =>
        rw [hrest] at h
        simp at h
      | ok vs =>
        rw [hrest] at h
        simp only [pure, Except.pure, Except.ok.injEq] at h
        subst h
        intro u hu
        rcases List.mem_cons.mp hu with rfl | hu
        · exact ⟨t, List.mem_cons_self t ts, hf⟩
        · obtain ⟨t0, ht0, hft0⟩ := ih vs hrest u hu
          exact ⟨t0, List.mem_cons_of_mem t ht0, hft0⟩

/-- Decidable equality for `Except` results, for concrete evaluation. -/
instance {ε α : Type} [DecidableEq ε] [DecidableEq α] : DecidableEq (Except ε α) := fun a b =>
  match a, b with
  | Except.error x, Except.error y =>
    if h : x = y then isTrue (by rw [h]) else isFalse (fun hh => h (by injection hh))
  | Except.ok x, Except.ok y =>
    if h : x = y then isTrue (by rw [h]) else isFalse (fun hh => h (by injection hh))
  | Except.error _, Except.ok _ => isFalse (fun h => Except.noConfusion h)
  | Except.ok _, Except.error _ => isFalse (fun h => Except.noConfusion h)

/-!
Concrete inputs shared by the theorems below.
-/

/-- A zero hash stand-in (Python string hashes are process-salted; the
claims quantify over the hash, and concrete evaluations fix it to 0). -/
def hzero : Val → Int := fun _ => 0

/-- The `Web App` cell of the §8 scenario (non-edge, style `rounded`). -/
def cellWebApp : Val :=
  vdict [("id", vstr "2"), ("value", vstr "Web App"), ("style", vstr "rounded")]

/-- The `Database` cell of the §8 scenario (non-edge, style `cylinder`). -/
def cellDatabase : Val :=
  vdict [("id", vstr "3"), ("value", vstr "Database"), ("style", vstr "cylinder")]

/-- The connecting edge cell of the §8 scenario. -/
def cellEdge : Val :=
  vdict [("id", vstr "4"), ("edge", vstr "1"), ("source", vstr "2"), ("target", vstr "3")]

/-- The §8 scenario diagram. -/
def scenarioCells : List Val := [cellWebApp, cellDatabase, cellEdge]

/-- An already-normalized component (fixed point of the corrector). -/
def compC7 : Val :=
  vdict [("id", vstr "x"), ("name", vstr "N"), ("type", vstr "api"),
    ("authentication", vstr "required"), ("authorization", vstr "required"),
    ("data_sensitivity", vstr "internal")]

/-- An already-normalized flow between resolvable endpoints. -/
def flowC7 : Val :=
  vdict [("source", vstr "s"), ("target", vstr "s"), ("protocol", vstr "https"),
    ("authentication", vstr "none"), ("authorization", vstr "none"),
    ("encryption", vbool false)]

/-- A one-component `components_by_id` map resolving the endpoints above. -/
def compsC7 : List (Val × Val) := [(vstr "s", vdict [("type", vstr "api")])]

/-- An already-normalized threat. -/
def threatC7 : Val := vdict [("id", vstr "k"), ("risk", vstr "r")]

/-- A known-threats map containing the id above. -/
def ktC7 : List (Val × Val) := [(vstr "k", vnone)]

/-- A risk-levels map containing the level above. -/
def rlC7 : List (Val × Val) := [(vstr "r", vnone)]

/-- A cell whose label matches the `authentication` threat patterns. -/
def cellLogin : Val :=
  vdict [("id", vstr "t1"), ("value", vstr "login"), ("style", vstr "shape")]

/-- The threat list detected on the one-cell diagram above. -/
def c8out : List Val := ((detect_threats hzero [cellLogin] [] []).toOption).getD []

/-- Its single threat. -/
def c8threat : Val := c8out.headD vnone

/-- A document whose `components` and `technical_assets` collections share
the id `x`. -/
def c9doc : List (String × Val) :=
  [("components", vlist [vdict [("id", vstr "x")]]),
   ("technical_assets", vlist [vdict [("id", vstr "x")]])]

/-- The (errors, warnings) pair the validator computes on that document. -/
def c9res : List String × List String :=
  ((validate_yaml_core (vdict c9doc)).toOption).getD ([], [])

/-- Claim C1.  The claim states that `ComponentDetector.detect_components`
never raises.  The code contradicts its own contract: `composite_component.py`
uses `re.search` without importing `re`, so whenever at least one component
is detected the composite-detection pass raises
`NameError: name 're' is not defined` and `detect_components` does not
return.  This theorem evaluates the pipeline at a single ordinary component
cell.  (The claimed fallback `('process', 0.0)` of `_select_best_type` is
also dead code: it requires an empty score map, and
`_calculate_component_scores` returns one entry per COMPONENT_TYPES key.) -/
theorem C1_detect_components_raises_NameError :
    detect_components hzero [cellWebApp] =
      Except.error "NameError: name \x27re\x27 is not defined" := by decide

/-- Claim C2, counterexample.  Running the mapper on the same (empty) input
on two different days yields different output documents: the emitted
document embeds `datetime.now().strftime('%Y-%m-%d')` in its `date` field,
so the pipeline output is not a function of the input cells alone. -/
theorem C2_output_depends_on_wall_clock :
    map_to_threagile "2026-10-12" [] ≠ map_to_threagile "2026-10-13" [] := by decide

/-- Claim C6, counterexample.  On the §8 scenario diagram the per-cell
scoring classifies the `Web App` cell as `process` (score 3/8, driven by the
`app` keyword and the attribute-consistency bonus), not `web-application`,
and the `Database` cell as `load-balancer` (score 1/5), not `database`; and
the threat detector does not return zero threats: the label `Database`
matches the `data_exposure` pattern group (token `data`). -/
theorem C6_scenario_refuted :
    (calculate_component_scores cellWebApp).map (fun s => (select_best_type s).1) ≠
        Except.ok "web-application" ∧
    (calculate_component_scores cellDatabase).map (fun s => (select_best_type s).1) ≠
        Except.ok "database" ∧
    (do
      let comps ← improved_components hzero scenarioCells
      let flows ← detect_flows scenarioCells comps
      detect_threats hzero scenarioCells comps flows) ≠ Except.ok [] := by decide

/-- Claim C6, amended.  On the §8 scenario diagram: the scoring pass yields
`('process', 3/8)` for the `Web App` cell and `('load-balancer', 1/5)` for
the `Database` cell; `detect_components` itself raises (see the C1 theorem)
and its improve-and-correct prefix yields those two types; the flow
detector yields exactly one flow with protocol `tcp` (via the default rule,
since neither endpoint type matches a heuristic and the edge has no style);
and the threat detector yields exactly one threat, of type `data_exposure`
with priority `critical`, triggered by the `Database` label. -/
theorem C6_scenario_amended :
    (calculate_component_scores cellWebApp).map select_best_type =
        Except.ok ("process", 3 / 8) ∧
    (calculate_component_scores cellDatabase).map select_best_type =
        Except.ok ("load-balancer", 1 / 5) ∧
    (improved_components hzero scenarioCells).map
        (fun comps => comps.map (fun c => vget c "type" vnone)) =
      Except.ok [vstr "process", vstr "load-balancer"] ∧
    (do
      let comps ← improved_components hzero scenarioCells
      (detect_flows scenarioCells comps).map
        (fun flows => flows.map (fun f => vget f "protocol" vnone))) =
      Except.ok [vstr "tcp"] ∧
    (do
      let comps ← improved_components hzero scenarioCells
      let flows ← detect_flows scenarioCells comps
      (detect_threats hzero scenarioCells comps flows).map
        (fun ts => ts.map (fun t => (vget t "type" vnone, vget t "priority" vnone)))) =
      Except.ok [(vstr "data_exposure", vstr "critical")] := by decide

/-- Claim C7, counterexample.  The threat corrector is not idempotent: on an
empty threat dict (with any hash function; here the constant 0), the first
application substitutes the temporary id `temp_threat_0` and the risk level
`low`; since the temporary id is again not in `known_threats` (and `low` is
not in `risk_levels`), the second application warns twice more instead of
returning the entity unchanged with no warnings. -/
theorem C7_threat_correction_not_idempotent :
    ((validate_and_correct_threat hzero (vdict []) [] []).bind
        (fun r1 => validate_and_correct_threat hzero r1.corrected_data [] [])).map
      (fun r2 => r2.warnings.isEmpty) = Except.ok false := by decide

/-- A complete data asset carrying id `x` (all 19 fields of
`data_asset_fields` present and well typed). -/
def dupDataAsset (nm : String) : Val :=
  vdict [("id", vstr "x"), ("name", vstr nm),
    ("description", vstr "a data asset description"), ("usage", vstr "business"),
    ("owner", vstr "owner"), ("confidentiality", vstr "internal"),
    ("integrity", vstr "operational"), ("availability", vstr "operational"),
    ("justification_cia_rating", vstr "rated accordingly"), ("storage", vstr "db"),
    ("format", vstr "json"), ("origin", vstr "internal"), ("quantity", vstr "many"),
    ("tags", vlist []), ("security_controls", vlist []),
    ("compliance_requirements", vlist []), ("data_classification", vstr "internal"),
    ("retention_period", vstr "1y"), ("backup_frequency", vstr "daily")]

/-- A complete trust boundary. -/
def sampleBoundary : Val :=
  vdict [("id", vstr "b1"), ("name", vstr "Main Boundary"),
    ("description", vstr "a boundary description ok"), ("type", vstr "network"),
    ("components", vlist []), ("technical_assets", vlist []), ("data_assets", vlist []),
    ("security_controls", vlist []), ("compliance_requirements", vlist [])]

/-- A complete technical asset (all 22 fields of `technical_asset_fields`). -/
def sampleTechnicalAsset : Val :=
  vdict [("id", vstr "a1"), ("name", vstr "Asset One"),
    ("type", vstr "service"), ("description", vstr "a technical asset desc"),
    ("usage", vstr "business"), ("owner", vstr "owner"),
    ("confidentiality", vstr "internal"), ("integrity", vstr "operational"),
    ("availability", vstr "operational"), ("justification_cia_rating", vstr "justified"),
    ("multi_tenant", vbool false), ("redundant", vbool false),
    ("custom_developed_parts", vbool false), ("encryption", vstr "none"),
    ("authentication", vstr "none"), ("authorization", vstr "none"),
    ("justification_authentication", vstr "not needed"),
    ("justification_authorization", vstr "not needed"),
    ("security_controls", vlist []), ("compliance_requirements", vlist []),
    ("vulnerabilities", vlist []), ("threats", vlist [])]

/-- A schema-complete output document in which the id `x` occurs in two
distinct data-asset entries. -/
def dupIdDoc : Val :=
  vdict [("title", vstr "Model"),
    ("description", vstr "a long enough description"), ("date", vstr "2026-10-12"),
    ("author", vstr "me"), ("components", vlist []),
    ("data_assets", vlist [dupDataAsset "Data Asset One", dupDataAsset "Data Asset Two"]),
    ("trust_boundaries", vlist [sampleBoundary]),
    ("technical_assets", vlist [sampleTechnicalAsset]),
    ("relations", vlist [])]

/-- Claim C9, counterexample.  `_validate_unique_ids` only scans the
`components` and `technical_assets` collections, so a document whose two
data assets share the id `x` passes `validate_yaml` with zero errors and
`is_valid = True`, although the claim requires the duplicate to be a hard
error. -/
theorem C9_duplicate_data_asset_id_not_reported :
    (validate_yaml_data dupIdDoc).is_valid = true ∧
    (validate_yaml_data dupIdDoc).errors = [] ∧
    ((vget dupIdDoc "data_assets" vnone, vget (dupDataAsset "Data Asset One") "id" vnone,
      vget (dupDataAsset "Data Asset Two") "id" vnone) =
      (vlist [dupDataAsset "Data Asset One", dupDataAsset "Data Asset Two"],
       vstr "x", vstr "x")) := by decide

/-- Claim C2, amended.  With the wall-clock date made explicit, the mapper
is a pure function of the document and the run date, and the run date is
faithfully embedded: whenever the collection-mapping core succeeds, two runs
produce equal results exactly when their dates are equal.  (Same-date runs
are therefore byte-identical; different-date runs always differ.) -/
theorem C2_deterministic_given_run_date :
    ∀ (d : List (String × Val)) (t1 t2 : String),
      (map_to_threagile_core d).isOk = true →
      (map_to_threagile t1 d = map_to_threagile t2 d ↔ t1 = t2) := by
  intro d t1 t2 hok
  constructor
  · intro he
    cases hcore : map_to_threagile_core d with
    | error e =>
      rw [hcore] at hok
      simp [Except.isOk, Except.toBool] at hok
    | ok core =>
      unfold map_to_threagile at he
      rw [hcore] at he
      have h2 := congrArg MappingResult.mapped_data he
      simp only [Val.vdict.injEq, List.cons.injEq, Prod.mk.injEq, Val.vstr.injEq] at h2
      exact h2.2.2.1.2
  · intro h
    rw [h]

/-- Witness for the C2 amended theorem at the empty input document. -/
theorem C2_deterministic_given_run_date_witness :
    (map_to_threagile_core ([] : List (String × Val))).isOk = true ∧
    (map_to_threagile "2026-10-12" [] = map_to_threagile "2026-10-13" [] ↔
      "2026-10-12" = "2026-10-13") :=
  ⟨by decide, C2_deterministic_given_run_date [] "2026-10-12" "2026-10-13" (by decide)⟩

/-- Written from the spec sentence for §4.3 protocol inference: first match
wins among (1) an explicit protocol token of a protocol's declared pattern
list found in the label, (2) the component-type heuristic with the types
compared by name in the order database, api, message-queue, cache,
web-application, (3) the line-style heuristic, (4) the default `tcp`.  All
strings are the lowercased label, endpoint types and style. -/
def spec_protocol_inference (label source_type target_type style : String) : String :=
  match COMMUNICATION_PROTOCOLS.find? (fun pi => pi.2.patterns.any (fun tok => strContains label tok)) with
  | some (p, _) => p
  | none =>
    if source_type = "database" || target_type = "database" then "tcp"
    else if source_type = "api" || target_type = "api" then "https"
    else if source_type = "message-queue" || target_type = "message-queue" then "amqp"
    else if source_type = "cache" || target_type = "cache" then "tcp"
    else if source_type = "web-application" || target_type = "web-application" then "https"
    else if strContains style "dashed" then "udp"
    else if strContains style "dotted" then "ws"
    else "tcp"

/-- The type vocabulary produced by the component detector (every emitted
type, composite archetypes included, is a COMPONENT_TYPES key). -/
def component_type_names : List String := COMPONENT_TYPES.map (fun p => p.1)

/-- No protocol of COMMUNICATION_PROTOCOLS declares a pattern list, so the
pattern scan of `_detect_protocol` never finds a protocol, whatever the
label. -/
theorem protocols_pattern_scan_finds_nothing (v : String) :
    COMMUNICATION_PROTOCOLS.find?
      (fun pi => pi.2.patterns.any (fun pat => strContains v pat)) = none := by
  simp [COMMUNICATION_PROTOCOLS, List.find?]

/-- The type-heuristic cascade of `FlowDetector._detect_protocol` (steps
compared by substring containment, as the code does). -/
def typeHeuristic (lsty ltty : String) : Option String :=
  if strContains lsty "database" || strContains ltty "database" then some "tcp"
  else if strContains lsty "api" || strContains ltty "api" then some "https"
  else if strContains lsty "message-queue" || strContains ltty "message-queue" then some "amqp"
  else if strContains lsty "cache" || strContains ltty "cache" then some "tcp"
  else if strContains lsty "web-application" || strContains ltty "web-application" then some "https"
  else none

/-- The type-heuristic cascade as the spec words it (types compared by
name). -/
def spec_typeHeuristic (lsty ltty : String) : Option String :=
  if lsty = "database" || ltty = "database" then some "tcp"
  else if lsty = "api" || ltty = "api" then some "https"
  else if lsty = "message-queue" || ltty = "message-queue" then some "amqp"
  else if lsty = "cache" || ltty = "cache" then some "tcp"
  else if lsty = "web-application" || ltty = "web-application" then some "https"
  else none

/-- The line-style fallback shared by code and spec. -/
def styleFallback (lstl : String) : String :=
  if strContains lstl "dashed" then "udp"
  else if strContains lstl "dotted" then "ws"
  else "tcp"

/-- On the component detector's type vocabulary, substring containment and
name equality give the same heuristic. -/
theorem typeHeuristic_agree :
    (component_type_names.all (fun sty => component_type_names.all (fun tty =>
      typeHeuristic (strLower sty) (strLower tty) =
        spec_typeHeuristic (strLower sty) (strLower tty)))) = true := by
  decide

/-- `_detect_protocol` factored through the heuristic and the fallback. -/
theorem flow_detect_protocol_factored (source target cell : Val)
    (sty tty lbl stl : String)
    (hs : pyGetD source "type" (vstr "") = Except.ok (vstr sty))
    (ht : pyGetD target "type" (vstr "") = Except.ok (vstr tty))
    (hv : pyGetD cell "value" (vstr "") = Except.ok (vstr lbl))
    (hy : pyGetD cell "style" (vstr "") = Except.ok (vstr stl)) :
    flow_detect_protocol source target cell COMMUNICATION_PROTOCOLS =
      Except.ok ((typeHeuristic (strLower sty) (strLower tty)).getD
        (styleFallback (strLower stl))) := by
  unfold flow_detect_protocol
  rw [hv, hs, ht]
  simp only [bind, Except.bind, pyLower, protocols_pattern_scan_finds_nothing]
  rw [hy]
  simp only [bind, Except.bind, pyLower, typeHeuristic, styleFallback]
  split_ifs <;> rfl

/-- The spec-side cascade factored the same way. -/
theorem spec_protocol_inference_factored (lbl lsty ltty lstl : String) :
    spec_protocol_inference lbl lsty ltty lstl =
      (spec_typeHeuristic lsty ltty).getD (styleFallback lstl) := by
  unfold spec_protocol_inference
  rw [protocols_pattern_scan_finds_nothing]
  simp only [spec_typeHeuristic, styleFallback]
  split_ifs <;> rfl

/-- Claim C3.  `FlowDetector._detect_protocol` implements exactly the
spec's cascade: for a flow cell whose endpoints carry types from the
detector's vocabulary, the code computes the spec-side cascade (in which
step (1) consults each protocol's declared pattern list — empty for every
protocol in `protocol_types.py`, so the `in particular` sentence of the
claim holds vacuously, which the first conjunct records). -/
theorem C3_protocol_inference_order :
    (COMMUNICATION_PROTOCOLS.all (fun pi => pi.2.patterns.isEmpty) = true) ∧
    ∀ (source target cell : Val) (sty tty lbl stl : String),
      pyGetD source "type" (vstr "") = Except.ok (vstr sty) →
      pyGetD target "type" (vstr "") = Except.ok (vstr tty) →
      pyGetD cell "value" (vstr "") = Except.ok (vstr lbl) →
      pyGetD cell "style" (vstr "") = Except.ok (vstr stl) →
      sty ∈ component_type_names →
      tty ∈ component_type_names →
      flow_detect_protocol source target cell COMMUNICATION_PROTOCOLS =
        Except.ok (spec_protocol_inference (strLower lbl) (strLower sty) (strLower tty)
          (strLower stl)) := by
  refine ⟨by decide, ?_⟩
  intro source target cell sty tty lbl stl hs ht hv hy hsk htk
  rw [flow_detect_protocol_factored source target cell sty tty lbl stl hs ht hv hy,
    spec_protocol_inference_factored]
  have h1 := List.all_eq_true.mp typeHeuristic_agree sty hsk
  simp only [] at h1
  have h2 := List.all_eq_true.mp h1 tty htk
  simp only [decide_eq_true_eq] at h2
  rw [h2]

/-- Witness for the C3 theorem: a database-to-api flow with an empty label
resolves through the type heuristic to `tcp`. -/
theorem C3_protocol_inference_order_witness :
    flow_detect_protocol (vdict [("type", vstr "database")]) (vdict [("type", vstr "api")])
        (vdict []) COMMUNICATION_PROTOCOLS =
      Except.ok (spec_protocol_inference (strLower "") (strLower "database") (strLower "api")
        (strLower "")) :=
  C3_protocol_inference_order.2 (vdict [("type", vstr "database")]) (vdict [("type", vstr "api")])
    (vdict []) "database" "api" "" "" (by decide) (by decide) (by decide) (by decide)
    (by decide) (by decide)

/-- Claim C10, counterexample.  The correction layer does not always return
a result: on an empty flow dict with an empty components map,
`validate_and_correct_flow` evaluates `next(iter(components.keys()))` on an
empty dict and raises StopIteration instead of returning a result with
`is_valid = True`. -/
theorem C10_flow_corrector_raises_on_empty_components :
    validate_and_correct_flow (vdict []) [] COMMUNICATION_PROTOCOLS =
      Except.error "StopIteration" := by decide

/-- Predicate: some subcomponent carries the given value in the given
field, read with the loop's `.get` defaults. -/
def subsAnyField (subs : List Val) (key : String) (dflt : Val) (v : String) : Bool :=
  subs.any (fun c => pyEq (vget c key dflt) (vstr v))

/-- Characterisation of the `_determine_security_context` loop from an
arbitrary starting state. -/
theorem dsc_fold_characterisation :
    ∀ (subs : List Val) (a z s : String) (st' : String × String × String),
      subs.foldlM dsc_step (a, z, s) = Except.ok st' →
      st'.1 = (if subsAnyField subs "authentication" vnone "required" then "required" else a) ∧
      st'.2.1 = (if subsAnyField subs "authorization" vnone "required" then "required" else z) ∧
      st'.2.2 =
        (if subsAnyField subs "data_sensitivity" (vstr "public") "restricted" then "restricted"
         else if s = "public" && subsAnyField subs "data_sensitivity" (vstr "public") "confidential" then "confidential"
         else s) := by
  intro subs
  induction subs with
  | nil =>
    intro a z s st' h
    simp only [List.foldlM_nil, pure, Except.pure, Except.ok.injEq] at h
    subst h
    simp [subsAnyField]
  | cons c tl ih =>
    intro a z s st' h
    rw [List.foldlM_cons] at h
    cases hc : dsc_step (a, z, s) c with
    | error e =>
      rw [hc] at h
      simp [bind, Except.bind] at h
    | ok st1 =>
      rw [hc] at h
      simp only [bind, Except.bind] at h
      obtain ⟨a1, z1, s1⟩ := st1
      have hih := ih a1 z1 s1 st' h
      cases c with
      | vdict cd =>
        simp only [dsc_step, pyGetD, bind, Except.bind, pure, Except.pure,
          Except.ok.injEq, Prod.mk.injEq] at hc
        obtain ⟨ha1, hz1, hs1⟩ := hc
        refine ⟨?_, ?_, ?_⟩
        · rw [hih.1, ← ha1]
          simp only [subsAnyField, List.any_cons, vget]
          by_cases h1 : pyEq ((dlookup cd "authentication").getD vnone) (vstr "required") = true <;>
            by_cases h2 : tl.any (fun c => pyEq (vget c "authentication" vnone) (vstr "required")) = true <;>
            simp [vget, h1, h2]
        · rw [hih.2.1, ← hz1]
          simp only [subsAnyField, List.any_cons, vget]
          by_cases h1 : pyEq ((dlookup cd "authorization").getD vnone) (vstr "required") = true <;>
            by_cases h2 : tl.any (fun c => pyEq (vget c "authorization" vnone) (vstr "required")) = true <;>
            simp [vget, h1, h2]
        · rw [hih.2.2, ← hs1]
          simp only [subsAnyField, List.any_cons, vget]
          by_cases h1 : pyEq ((dlookup cd "data_sensitivity").getD (vstr "public")) (vstr "restricted") = true <;>
            by_cases h2 : pyEq ((dlookup cd "data_sensitivity").getD (vstr "public")) (vstr "confidential") = true <;>
            by_cases h3 : tl.any (fun c => pyEq (vget c "data_sensitivity" (vstr "public")) (vstr "restricted")) = true <;>
            by_cases h4 : tl.any (fun c => pyEq (vget c "data_sensitivity" (vstr "public")) (vstr "confidential")) = true <;>
            by_cases h5 : s = "public" <;>
            simp [vget, h1, h2, h3, h4, h5]
      | vnone => simp [dsc_step, pyGetD, bind, Except.bind] at hc
      | vbool b => simp [dsc_step, pyGetD, bind, Except.bind] at hc
      | vnum q => simp [dsc_step, pyGetD, bind, Except.bind] at hc
      | vstr s0 => simp [dsc_step, pyGetD, bind, Except.bind] at hc
      | vlist xs => simp [dsc_step, pyGetD, bind, Except.bind] at hc

/-- The sensitivity scale of the spec (`public < internal < confidential <
restricted`). -/
def sensitivity_rank : String → ℕ
  | "internal" => 1
  | "confidential" => 2
  | "restricted" => 3
  | _ => 0

/-- Claim C4, counterexample.  A composite whose single subcomponent has
dataSensitivity `internal` gets dataSensitivity `public`, strictly below
the member's level on the spec's scale: the aggregation loop only ever
reacts to `restricted` and `confidential`, so `internal` members are
ignored. -/
theorem C4_internal_sensitivity_dropped :
    determine_security_context
        [vdict [("authentication", vstr "none"), ("authorization", vstr "none"),
                ("data_sensitivity", vstr "internal")]] =
      Except.ok (vdict [("authentication", vstr "none"), ("authorization", vstr "none"),
        ("data_sensitivity", vstr "public")]) ∧
    sensitivity_rank "public" < sensitivity_rank "internal" := by decide

/-- Claim C4, amended.  The composite security context is exactly:
authentication (resp. authorization) is `required` iff some subcomponent's
is `required` (the claimed monotonicity holds); dataSensitivity is
`restricted` if some subcomponent is `restricted`, else `confidential` if
some subcomponent is `confidential`, else `public` — so it is at least as
sensitive as every subcomponent at levels public/confidential/restricted,
but a subcomponent at `internal` is ignored and the composite can sit
strictly below it. -/
theorem C4_aggregation_characterised :
    ∀ (subs : List Val) (res : Val),
      determine_security_context subs = Except.ok res →
      vget res "authentication" vnone =
        vstr (if subsAnyField subs "authentication" vnone "required" then "required" else "none") ∧
      vget res "authorization" vnone =
        vstr (if subsAnyField subs "authorization" vnone "required" then "required" else "none") ∧
      vget res "data_sensitivity" vnone =
        vstr (if subsAnyField subs "data_sensitivity" (vstr "public") "restricted" then "restricted"
              else if subsAnyField subs "data_sensitivity" (vstr "public") "confidential" then "confidential"
              else "public") := by
  intro subs res h
  unfold determine_security_context at h
  cases hf : subs.foldlM dsc_step ("none", "none", "public") with
  | error e =>
    rw [hf] at h
    simp [bind, Except.bind] at h
  | ok st =>
    rw [hf] at h
    obtain ⟨a, z, s⟩ := st
    simp only [bind, Except.bind, pure, Except.pure, Except.ok.injEq] at h
    subst h
    have hch := dsc_fold_characterisation subs "none" "none" "public" (a, z, s) hf
    refine ⟨?_, ?_, ?_⟩
    · simpa [vget, dlookup] using congrArg vstr hch.1
    · simpa [vget, dlookup] using congrArg vstr hch.2.1
    · have := hch.2.2
      simp only at this
      simpa [vget, dlookup] using congrArg vstr this

/-- Witness for the C4 amended theorem: one subcomponent requiring
authentication with confidential data. -/
theorem C4_aggregation_characterised_witness :
    determine_security_context
        [vdict [("authentication", vstr "required"), ("authorization", vstr "none"),
                ("data_sensitivity", vstr "confidential")]] =
      Except.ok (vdict [("authentication", vstr "required"), ("authorization", vstr "none"),
        ("data_sensitivity", vstr "confidential")]) ∧
    vget (vdict [("authentication", vstr "required"), ("authorization", vstr "none"),
        ("data_sensitivity", vstr "confidential")]) "authentication" vnone =
      vstr (if subsAnyField
          [vdict [("authentication", vstr "required"), ("authorization", vstr "none"),
                  ("data_sensitivity", vstr "confidential")]] "authentication" vnone "required"
        then "required" else "none") :=
  ⟨by decide,
   (C4_aggregation_characterised
      [vdict [("authentication", vstr "required"), ("authorization", vstr "none"),
              ("data_sensitivity", vstr "confidential")]]
      (vdict [("authentication", vstr "required"), ("authorization", vstr "none"),
        ("data_sensitivity", vstr "confidential")]) (by decide)).1⟩

/-- Successful `mapM` over `Except`: every input element maps to some
output element. -/
theorem mapM_ok_forward {α β : Type} (f : α → Except String β)
    (ts : List α) (us : List β) (h : ts.mapM f = Except.ok us) :
    ∀ t ∈ ts, ∃ u ∈ us, f t = Except.ok u := by
  induction ts generalizing us with
  | nil =>
    intro t ht
    exact absurd ht (List.not_mem_nil t)
  | cons t0 ts ih =>
    rw [List.mapM_cons] at h
    cases hf : f t0 with
    | error e => simp [hf, bind, Except.bind] at h
    | ok v =>
      simp only [hf, bind, Except.bind] at h
      cases hrest : ts.mapM f with
      | error e =>
        rw [hrest] at h
        simp at h
      | ok vs =>
        rw [hrest] at h
        simp only [pure, Except.pure, Except.ok.injEq] at h
        subst h
        intro t ht
        rcases List.mem_cons.mp ht with rfl | ht
        · exact ⟨v, List.mem_cons_self v vs, hf⟩
        · obtain ⟨u, hu, hfu⟩ := ih vs hrest t ht
          exact ⟨u, List.mem_cons_of_mem v hu, hfu⟩

/-- A successful `.get` with default returns exactly the modelled `vget`. -/
theorem pyGetD_ok_eq_vget (o : Val) (k : String) (dflt v : Val)
    (h : pyGetD o k dflt = Except.ok v) : v = vget o k dflt := by
  cases o <;> simp [pyGetD, vget] at h ⊢ <;> exact h.symm

/-- The `used_component_ids` fold of `_merge_components` accumulates its
starting set and every subcomponent id of every composite. -/
theorem merge_used_fold_spec :
    ∀ (ccs : List CompositeComponent) (acc used : List Val),
      ccs.foldlM merge_used_step acc = Except.ok used →
      (∀ x ∈ acc, x ∈ used) ∧
      ∀ cc ∈ ccs, ∀ sub ∈ cc.subcomponents, ∀ sid,
        pyGetD sub "id" (vstr "") = Except.ok sid → sid ∈ used := by
  intro ccs
  induction ccs with
  | nil =>
    intro acc used h
    simp only [List.foldlM_nil, pure, Except.pure, Except.ok.injEq] at h
    subst h
    exact ⟨fun x hx => hx, fun cc hcc => absurd hcc (List.not_mem_nil cc)⟩
  | cons cc0 tl ih =>
    intro acc used h
    rw [List.foldlM_cons] at h
    cases hstep : merge_used_step acc cc0 with
    | error e =>
      rw [hstep] at h
      simp [bind, Except.bind] at h
    | ok acc1 =>
      rw [hstep] at h
      simp only [bind, Except.bind] at h
      have hih := ih acc1 used h
      unfold merge_used_step at hstep
      cases hm : cc0.subcomponents.mapM (fun sub => pyGetD sub "id" (vstr "")) with
      | error e =>
        rw [hm] at hstep
        simp [bind, Except.bind] at hstep
      | ok ids =>
        rw [hm] at hstep
        simp only [bind, Except.bind, pure, Except.pure, Except.ok.injEq] at hstep
        refine ⟨?_, ?_⟩
        · intro x hx
          exact hih.1 x (by rw [← hstep]; exact (mem_setAddAll acc ids x).mpr (Or.inl hx))
        · intro cc hcc sub hsub sid hsid
          rcases List.mem_cons.mp hcc with rfl | hcc
          · obtain ⟨u, hu, hfu⟩ := mapM_ok_forward _ _ _ hm sub hsub
            have : sid = u := by
              rw [hsid] at hfu
              exact (Except.ok.injEq _ _).mp hfu
            subst this
            exact hih.1 sid (by rw [← hstep]; exact (mem_setAddAll acc ids sid).mpr (Or.inr hu))
          · exact hih.2 cc hcc sub hsub sid hsid

/-- The keep-fold of `_merge_components` only keeps simple components whose
id is not among the consumed ids. -/
theorem merge_keep_fold_spec :
    ∀ (simple : List Val) (used acc keep : List Val),
      simple.foldlM (merge_keep_step used) acc = Except.ok keep →
      ∀ c ∈ keep, c ∈ acc ∨ (c ∈ simple ∧ vget c "id" (vstr "") ∉ used) := by
  intro simple
  induction simple with
  | nil =>
    intro used acc keep h
    simp only [List.foldlM_nil, pure, Except.pure, Except.ok.injEq] at h
    subst h
    exact fun c hc => Or.inl hc
  | cons c0 tl ih =>
    intro used acc keep h
    rw [List.foldlM_cons] at h
    cases hstep : merge_keep_step used acc c0 with
    | error e =>
      rw [hstep] at h
      simp [bind, Except.bind] at h
    | ok acc1 =>
      rw [hstep] at h
      simp only [bind, Except.bind] at h
      have hih := ih used acc1 keep h
      unfold merge_keep_step at hstep
      cases hg : pyGetD c0 "id" (vstr "") with
      | error e =>
        rw [hg] at hstep
        simp [bind, Except.bind] at hstep
      | ok idv =>
        rw [hg] at hstep
        simp only [bind, Except.bind] at hstep
        have hidv := pyGetD_ok_eq_vget c0 "id" (vstr "") idv hg
        by_cases hmem : idv ∈ used
        · rw [if_pos hmem] at hstep
          simp only [pure, Except.pure, Except.ok.injEq] at hstep
          subst hstep
          intro c hc
          rcases hih c hc with hacc | ⟨htl, hnot⟩
          · exact Or.inl hacc
          · exact Or.inr ⟨List.mem_cons_of_mem c0 htl, hnot⟩
        · rw [if_neg hmem] at hstep
          simp only [pure, Except.pure, Except.ok.injEq] at hstep
          subst hstep
          intro c hc
          rcases hih c hc with hacc | ⟨htl, hnot⟩
          · rcases List.mem_append.mp hacc with hacc | hc0
            · exact Or.inl hacc
            · have : c = c0 := List.mem_singleton.mp hc0
              subst this
              refine Or.inr ⟨List.mem_cons_self c tl, ?_⟩
              rw [← hidv]
              exact hmem
          · exact Or.inr ⟨List.mem_cons_of_mem c0 htl, hnot⟩

/-- Every flattened composite entry carries `is_composite = True`. -/
theorem composite_entry_flag (cc : CompositeComponent) (e : Val)
    (h : composite_entry cc = Except.ok e) :
    vget e "is_composite" vnone = vbool true := by
  unfold composite_entry at h
  cases hsc : cc.security_context with
  | vnone => rw [hsc] at h; exact absurd h (by simp [bind, Except.bind])
  | vbool b => rw [hsc] at h; exact absurd h (by simp [bind, Except.bind])
  | vnum q => rw [hsc] at h; exact absurd h (by simp [bind, Except.bind])
  | vstr s => rw [hsc] at h; exact absurd h (by simp [bind, Except.bind])
  | vlist l => rw [hsc] at h; exact absurd h (by simp [bind, Except.bind])
  | vdict sc =>
    rw [hsc] at h
    simp only [bind, Except.bind] at h
    cases h1 : dlookup sc "authentication" with
    | none => rw [h1] at h; exact absurd h (by simp [Option.elim])
    | some auth =>
      rw [h1] at h
      simp only [Option.elim] at h
      cases h2 : dlookup sc "authorization" with
      | none => rw [h2] at h; exact absurd h (by simp [Option.elim])
      | some authz =>
        rw [h2] at h
        simp only [Option.elim] at h
        cases h3 : dlookup sc "data_sensitivity" with
        | none => rw [h3] at h; exact absurd h (by simp [Option.elim])
        | some sens =>
          rw [h3] at h
          simp only [Option.elim, pure, Except.pure, Except.ok.injEq] at h
          subst h
          simp [vget, dlookup]

/-- Claim C5, counterexample.  A promoted composite keeps its parent
component's id, while the parent itself (which is not among the
subcomponents) survives the merge as a standalone entry: merging the
parent, its two children and the composite built from those children
yields a final set in which the id `p` appears both as a standalone entry
(no `is_composite` key) and as the id of the composite entry. -/
theorem C5_parent_id_duplicated_in_merge :
    ((create_composite_component (vdict [("id", vstr "p"), ("value", vstr "Payment Service")])
        [vdict [("id", vstr "a"), ("type", vstr "api")],
         vdict [("id", vstr "b"), ("type", vstr "database")]] "microservice").bind
      (fun comp => merge_components
        [vdict [("id", vstr "p"), ("value", vstr "Payment Service")],
         vdict [("id", vstr "a"), ("type", vstr "api")],
         vdict [("id", vstr "b"), ("type", vstr "database")]] [comp])).map
      (fun merged => merged.map (fun c => (vget c "id" vnone, vget c "is_composite" vnone))) =
    Except.ok [(vstr "p", vnone), (vstr "p", vbool true)] := by decide

/-- Claim C5, amended.  The first half of the claim holds: in the merged
set, no id appears both in a kept (non-composite) entry and among any
composite's subcomponents — a kept entry's id is outside the consumed id
set.  (The second half fails, see the counterexample: a composite entry's
id is its parent's id, and the parent stays standalone.) -/
theorem C5_standalone_vs_subcomponents_exclusive :
    ∀ (simple : List Val) (composites : List CompositeComponent) (merged : List Val),
      merge_components simple composites = Except.ok merged →
      ∀ c ∈ merged, vget c "is_composite" vnone ≠ vbool true →
      ∀ cc ∈ composites, ∀ sub ∈ cc.subcomponents, ∀ sid,
        pyGetD sub "id" (vstr "") = Except.ok sid →
        sid ≠ vget c "id" (vstr "") := by
  intro simple composites merged h c hc hflag cc hcc sub hsub sid hsid
  unfold merge_components at h
  cases hu : composites.foldlM merge_used_step [] with
  | error e =>
    rw [hu] at h
    simp [bind, Except.bind] at h
  | ok used =>
    rw [hu] at h
    simp only [bind, Except.bind] at h
    cases hk : simple.foldlM (merge_keep_step used) [] with
    | error e =>
      rw [hk] at h
      simp [bind, Except.bind] at h
    | ok keep =>
      rw [hk] at h
      simp only [bind, Except.bind] at h
      cases he : composites.mapM composite_entry with
      | error e =>
        rw [he] at h
        simp at h
      | ok entries =>
        rw [he] at h
        simp only [pure, Except.pure, Except.ok.injEq] at h
        subst h
        rcases List.mem_append.mp hc with hckeep | hcent
        · rcases merge_keep_fold_spec simple used [] keep hk c hckeep with hnil | ⟨_, hnot⟩
          · exact absurd hnil (List.not_mem_nil c)
          · have hsidmem := (merge_used_fold_spec composites [] used hu).2 cc hcc sub hsub sid hsid
            intro heq
            rw [heq] at hsidmem
            exact hnot hsidmem
        · obtain ⟨cc', _, hcc'⟩ := mapM_ok_mem composite_entry composites entries he c hcent
          exact absurd (composite_entry_flag cc' c hcc') hflag

/-- Witness for the C5 amended theorem at a one-composite instance. -/
theorem C5_standalone_vs_subcomponents_exclusive_witness :
    merge_components [vdict [("id", vstr "q")]]
        [⟨vstr "c", vstr "C", "microservice", [vdict [("id", vstr "s")]], vnone,
          vdict [("authentication", vstr "none"), ("authorization", vstr "none"),
                 ("data_sensitivity", vstr "public")]⟩] =
      Except.ok [vdict [("id", vstr "q")],
        vdict [("id", vstr "c"), ("name", vstr "C"), ("type", vstr "microservice"),
          ("is_composite", vbool true), ("subcomponents", vlist [vdict [("id", vstr "s")]]),
          ("parent", vnone), ("authentication", vstr "none"),
          ("authorization", vstr "none"), ("data_sensitivity", vstr "public")]] ∧
    vstr "s" ≠ vget (vdict [("id", vstr "q")]) "id" (vstr "") :=
  ⟨by decide,
   C5_standalone_vs_subcomponents_exclusive [vdict [("id", vstr "q")]]
     [⟨vstr "c", vstr "C", "microservice", [vdict [("id", vstr "s")]], vnone,
       vdict [("authentication", vstr "none"), ("authorization", vstr "none"),
              ("data_sensitivity", vstr "public")]⟩]
     [vdict [("id", vstr "q")],
      vdict [("id", vstr "c"), ("name", vstr "C"), ("type", vstr "microservice"),
        ("is_composite", vbool true), ("subcomponents", vlist [vdict [("id", vstr "s")]]),
        ("parent", vnone), ("authentication", vstr "none"),
        ("authorization", vstr "none"), ("data_sensitivity", vstr "public")]]
     (by decide) (vdict [("id", vstr "q")]) (by decide) (by decide)
     ⟨vstr "c", vstr "C", "microservice", [vdict [("id", vstr "s")]], vnone,
      vdict [("authentication", vstr "none"), ("authorization", vstr "none"),
             ("data_sensitivity", vstr "public")]⟩
     (by decide) (vdict [("id", vstr "s")]) (by decide) (vstr "s") (by decide)⟩

/-!
Step lemmas for the validate-and-correct layer (claims C7 and C10).
-/

/-- Field read after update. -/
theorem gfld_dset (d : List (String × Val)) (k : String) (v : Val) (q : String) :
    gfld (dset d k v) q = if q = k then v else gfld d q := by
  unfold gfld
  rw [dlookup_dset]
  split <;> rfl

/-- Python equality is reflexive. -/
theorem pyEq_refl (v : Val) : pyEq v v = true := by
  cases v <;> simp [pyEq]

/-- Structural list membership entails Python membership. -/
theorem pyMem_of_mem (v : Val) (l : List Val) (h : v ∈ l) : pyMem v l = true := by
  unfold pyMem
  exact List.any_eq_true.mpr ⟨v, h, pyEq_refl v⟩

/-- Generated temporary ids are non-empty strings. -/
theorem temp_id_ne_empty (pfx s : String) (hp : pfx.length > 0) : pfx ++ s ≠ "" := by
  intro h
  have hl := congrArg String.length h
  rw [String.length_append] at hl
  simp at hl
  omega

/-- Decomposition of a successful `typeFieldOk`. -/
theorem typeFieldOk_spec (tv : Val) (ct : List (String × TypeInfo)) (s : String)
    (h : typeFieldOk tv ct = some s) :
    tv = vstr s ∧ s ≠ "" ∧ (tlookup ct s).isSome = true := by
  cases tv <;> simp [typeFieldOk] at h
  case vstr s0 =>
    by_cases h1 : s0 = "" <;> by_cases h2 : (tlookup ct s0).isSome = true <;>
      simp [h1, h2] at h
    subst h
    exact ⟨rfl, h1, h2⟩

/-- A `tlookup` hit comes from a table entry. -/
theorem tlookup_mem (ct : List (String × TypeInfo)) (s : String) (info : TypeInfo)
    (h : tlookup ct s = some info) : (s, info) ∈ ct := by
  induction ct with
  | nil => simp [tlookup] at h
  | cons p tl ih =>
    obtain ⟨k0, v0⟩ := p
    by_cases h0 : k0 = s
    · subst h0
      simp [tlookup] at h
      subst h
      exact List.mem_cons_self _ _
    · simp [tlookup, h0] at h
      exact List.mem_cons_of_mem _ (ih h)

/-- Every COMPONENT_TYPES key passes the type-field check. -/
theorem COMPONENT_TYPES_key_ok :
    ∀ p ∈ COMPONENT_TYPES, typeFieldOk (vstr p.1) COMPONENT_TYPES = some p.1 := by
  intro p hp
  fin_cases hp <;> decide

/-- Every COMPONENT_TYPES entry declares legal security defaults. -/
theorem COMPONENT_TYPES_defaults_ok :
    ∀ p ∈ COMPONENT_TYPES,
      vstr p.2.authentication ∈ [vstr "required", vstr "none"] ∧
      vstr p.2.authorization ∈ [vstr "required", vstr "none"] ∧
      vstr p.2.data_sensitivity ∈
        [vstr "public", vstr "internal", vstr "confidential", vstr "restricted"] := by
  intro p hp
  fin_cases hp <;> refine ⟨?_, ?_, ?_⟩ <;> decide

/-- `_detect_component_type` always returns something that passes the
type-field check against COMPONENT_TYPES. -/
theorem detect_component_type_ok (v : String) :
    typeFieldOk (vstr (detect_component_type v COMPONENT_TYPES)) COMPONENT_TYPES =
      some (detect_component_type v COMPONENT_TYPES) := by
  unfold detect_component_type
  dsimp only
  cases hf : COMPONENT_TYPES.find?
      (fun ti => ti.2.styles.any (fun kw => strContains (strLower v) kw)) with
  | none => decide
  | some p =>
    obtain ⟨k, info⟩ := p
    exact COMPONENT_TYPES_key_ok (k, info) (List.mem_of_find?_eq_some hf)

/-- Properties of the id step: the resulting id is truthy, other fields are
untouched, and the step is a no-op on a truthy id. -/
theorem vcc_id_step_truthy (h : Val → Int) (c : Val) (d : List (String × Val)) :
    pyTruthy (gfld (vcc_id_step h c d).2 "id") = true := by
  unfold vcc_id_step
  by_cases hb : pyTruthy (gfld d "id") = true
  · simp [hb]
  · simp only [hb, Bool.false_eq_true, if_neg, if_false]
    rw [gfld_dset]
    simp [pyTruthy, temp_id_ne_empty "temp_" (toString (h c)) (by decide)]

/-- The id step leaves every other field unchanged. -/
theorem vcc_id_step_preserves (h : Val → Int) (c : Val) (d : List (String × Val))
    (q : String) (hq : q ≠ "id") : gfld (vcc_id_step h c d).2 q = gfld d q := by
  unfold vcc_id_step
  split
  · rfl
  · rw [gfld_dset, if_neg hq]

/-- The id step is a no-op on a truthy id. -/
theorem vcc_id_step_idem (h : Val → Int) (c : Val) (d : List (String × Val))
    (h0 : pyTruthy (gfld d "id") = true) : vcc_id_step h c d = ([], d) := by
  simp [vcc_id_step, h0]

/-- Properties of the name step. -/
theorem vcc_name_step_truthy (d : List (String × Val)) :
    pyTruthy (gfld (vcc_name_step d).2 "name") = true := by
  unfold vcc_name_step
  by_cases hb : pyTruthy (gfld d "name") = true
  · simp [hb]
  · simp only [hb, Bool.false_eq_true, if_neg, if_false]
    rw [gfld_dset]
    simp [pyTruthy]

/-- The name step leaves every other field unchanged. -/
theorem vcc_name_step_preserves (d : List (String × Val)) (q : String) (hq : q ≠ "name") :
    gfld (vcc_name_step d).2 q = gfld d q := by
  unfold vcc_name_step
  split
  · rfl
  · rw [gfld_dset, if_neg hq]

/-- The name step is a no-op on a truthy name. -/
theorem vcc_name_step_idem (d : List (String × Val))
    (h0 : pyTruthy (gfld d "name") = true) : vcc_name_step d = ([], d) := by
  simp [vcc_name_step, h0]

/-- Properties of the type step: the resulting type passes the check and
every other field is unchanged. -/
theorem vcc_type_step_spec (d : List (String × Val)) (w : List String)
    (d' : List (String × Val)) (ty : String)
    (h : vcc_type_step d COMPONENT_TYPES = Except.ok (w, d', ty)) :
    typeFieldOk (gfld d' "type") COMPONENT_TYPES = some ty ∧
    ∀ q, q ≠ "type" → gfld d' q = gfld d q := by
  unfold vcc_type_step at h
  dsimp only at h
  cases hok : typeFieldOk (gfld d "type") COMPONENT_TYPES with
  | some s =>
    rw [hok] at h
    simp only [pure, Except.pure, Except.ok.injEq, Prod.mk.injEq] at h
    obtain ⟨hw, hd, hty⟩ := h
    subst hd
    subst hty
    exact ⟨hok, fun q _ => rfl⟩
  | none =>
    rw [hok] at h
    cases hv : (dlookup d "value").getD (vstr "") with
    | vnone => rw [hv] at h; exact absurd h (by simp)
    | vbool b => rw [hv] at h; exact absurd h (by simp)
    | vnum q => rw [hv] at h; exact absurd h (by simp)
    | vlist l => rw [hv] at h; exact absurd h (by simp)
    | vdict dd => rw [hv] at h; exact absurd h (by simp)
    | vstr sv =>
      rw [hv] at h
      simp only [pure, Except.pure, Except.ok.injEq, Prod.mk.injEq] at h
      obtain ⟨hw, hd, hty⟩ := h
      subst hd
      subst hty
      constructor
      · rw [gfld_dset]
        simp [detect_component_type_ok]
      · intro q hq
        rw [gfld_dset, if_neg hq]

/-- The type step is a no-op when the type already passes the check. -/
theorem vcc_type_step_idem (d : List (String × Val)) (s : String)
    (h0 : typeFieldOk (gfld d "type") COMPONENT_TYPES = some s) :
    vcc_type_step d COMPONENT_TYPES = Except.ok ([], d, s) := by
  unfold vcc_type_step
  dsimp only
  rw [h0]

/-- Properties of a security-attribute step: the resulting field lies in the
allowed list (when the default does) and other fields are unchanged. -/
theorem vc_field_step_mem (d : List (String × Val)) (key : String) (allowed : List Val)
    (dflt : Val) (msg : String) (hd : dflt ∈ allowed) :
    pyMem (gfld (vc_field_step d key allowed dflt msg).2 key) allowed = true := by
  unfold vc_field_step
  by_cases hb : pyMem (gfld d key) allowed = true
  · simp [hb]
  · simp only [hb, Bool.false_eq_true, if_neg, if_false]
    rw [gfld_dset]
    simp [pyMem_of_mem _ _ hd]

/-- A security-attribute step leaves other fields unchanged. -/
theorem vc_field_step_preserves (d : List (String × Val)) (key : String)
    (allowed : List Val) (dflt : Val) (msg : String) (q : String) (hq : q ≠ key) :
    gfld (vc_field_step d key allowed dflt msg).2 q = gfld d q := by
  unfold vc_field_step
  split
  · rfl
  · rw [gfld_dset, if_neg hq]

/-- A security-attribute step is a no-op on an allowed value. -/
theorem vc_field_step_idem (d : List (String × Val)) (key : String)
    (allowed : List Val) (dflt : Val) (msg : String)
    (h0 : pyMem (gfld d key) allowed = true) :
    vc_field_step d key allowed dflt msg = ([], d) := by
  simp [vc_field_step, h0]

/-- Any result of the component corrector is fully normalized: id and name
truthy, the type a table key, and the three security attributes legal. -/
theorem component_ok_normalized (h : Val → Int) (c : Val) (r : VcResult)
    (hr : validate_and_correct_component h c COMPONENT_TYPES = Except.ok r) :
    ∃ d, r.corrected_data = vdict d ∧
      pyTruthy (gfld d "id") = true ∧ pyTruthy (gfld d "name") = true ∧
      (∃ s, typeFieldOk (gfld d "type") COMPONENT_TYPES = some s) ∧
      pyMem (gfld d "authentication") [vstr "required", vstr "none"] = true ∧
      pyMem (gfld d "authorization") [vstr "required", vstr "none"] = true ∧
      pyMem (gfld d "data_sensitivity")
        [vstr "public", vstr "internal", vstr "confidential", vstr "restricted"] = true := by
  cases c with
  | vnone => exact absurd hr (by simp [validate_and_correct_component])
  | vbool b => exact absurd hr (by simp [validate_and_correct_component])
  | vnum q => exact absurd hr (by simp [validate_and_correct_component])
  | vstr s => exact absurd hr (by simp [validate_and_correct_component])
  | vlist l => exact absurd hr (by simp [validate_and_correct_component])
  | vdict d0 =>
  simp only [validate_and_correct_component] at hr
  cases hp1 : vcc_id_step h (vdict d0) d0 with | mk w1 d1 =>
  cases hp2 : vcc_name_step d1 with | mk w2 d2 =>
  rw [hp1] at hr
  dsimp only at hr
  rw [hp2] at hr
  dsimp only at hr
  cases hp3 : vcc_type_step d2 COMPONENT_TYPES with
  | error e => rw [hp3] at hr; exact absurd hr (by simp [bind, Except.bind])
  | ok trip =>
    obtain ⟨w3, d3, ty⟩ := trip
    rw [hp3] at hr
    simp only [bind, Except.bind] at hr
    obtain ⟨hty3, hpre3⟩ := vcc_type_step_spec d2 w3 d3 ty hp3
    have hsome := (typeFieldOk_spec _ _ _ hty3).2.2
    cases hl : tlookup COMPONENT_TYPES ty with
    | none => rw [hl] at hsome; simp at hsome
    | some info =>
      rw [hl] at hr
      dsimp only at hr
      cases hp4 : vc_field_step d3 "authentication" [vstr "required", vstr "none"]
        (vstr info.authentication)
        ("Authentication invalide, utilisation de la valeur par défaut: " ++ info.authentication)
        with | mk w4 d4 =>
      cases hp5 : vc_field_step d4 "authorization" [vstr "required", vstr "none"]
        (vstr info.authorization)
        ("Authorization invalide, utilisation de la valeur par défaut: " ++ info.authorization)
        with | mk w5 d5 =>
      cases hp6 : vc_field_step d5 "data_sensitivity"
        [vstr "public", vstr "internal", vstr "confidential", vstr "restricted"]
        (vstr info.data_sensitivity)
        ("Sensibilité des données invalide, utilisation de la valeur par défaut: " ++ info.data_sensitivity)
        with | mk w6 d6 =>
      rw [hp4] at hr
      dsimp only at hr
      rw [hp5] at hr
      dsimp only at hr
      rw [hp6] at hr
      dsimp only at hr
      simp only [pure, Except.pure, Except.ok.injEq] at hr
      obtain ⟨hauth, hauthz, hsens⟩ :=
        COMPONENT_TYPES_defaults_ok (ty, info) (tlookup_mem _ _ _ hl)
      have e4 : ∀ q, q ≠ "authentication" → gfld d4 q = gfld d3 q := by
        intro q hq
        have := vc_field_step_preserves d3 "authentication" [vstr "required", vstr "none"]
          (vstr info.authentication)
          ("Authentication invalide, utilisation de la valeur par défaut: " ++ info.authentication) q hq
        rwa [hp4] at this
      have e5 : ∀ q, q ≠ "authorization" → gfld d5 q = gfld d4 q := by
        intro q hq
        have := vc_field_step_preserves d4 "authorization" [vstr "required", vstr "none"]
          (vstr info.authorization)
          ("Authorization invalide, utilisation de la valeur par défaut: " ++ info.authorization) q hq
        rwa [hp5] at this
      have e6 : ∀ q, q ≠ "data_sensitivity" → gfld d6 q = gfld d5 q := by
        intro q hq
        have := vc_field_step_preserves d5 "data_sensitivity"
          [vstr "public", vstr "internal", vstr "confidential", vstr "restricted"]
          (vstr info.data_sensitivity)
          ("Sensibilité des données invalide, utilisation de la valeur par défaut: " ++ info.data_sensitivity) q hq
        rwa [hp6] at this
      refine ⟨d6, by rw [← hr], ?_, ?_, ⟨ty, ?_⟩, ?_, ?_, ?_⟩
      · rw [e6 _ (by decide), e5 _ (by decide), e4 _ (by decide),
          hpre3 _ (by decide)]
        have := vcc_name_step_preserves d1 "id" (by decide)
        rw [hp2] at this
        rw [this]
        have := vcc_id_step_truthy h (vdict d0) d0
        rwa [hp1] at this
      · rw [e6 _ (by decide), e5 _ (by decide), e4 _ (by decide),
          hpre3 _ (by decide)]
        have := vcc_name_step_truthy d1
        rwa [hp2] at this
      · rw [e6 _ (by decide), e5 _ (by decide), e4 _ (by decide)]
        exact hty3
      · rw [e6 _ (by decide), e5 _ (by decide)]
        have := vc_field_step_mem d3 "authentication" [vstr "required", vstr "none"]
          (vstr info.authentication)
          ("Authentication invalide, utilisation de la valeur par défaut: " ++ info.authentication)
          hauth
        rwa [hp4] at this
      · rw [e6 _ (by decide)]
        have := vc_field_step_mem d4 "authorization" [vstr "required", vstr "none"]
          (vstr info.authorization)
          ("Authorization invalide, utilisation de la valeur par défaut: " ++ info.authorization)
          hauthz
        rwa [hp5] at this
      · have := vc_field_step_mem d5 "data_sensitivity"
          [vstr "public", vstr "internal", vstr "confidential", vstr "restricted"]
          (vstr info.data_sensitivity)
          ("Sensibilité des données invalide, utilisation de la valeur par défaut: " ++ info.data_sensitivity)
          hsens
        rwa [hp6] at this

/-- A fully normalized component is a fixed point of the corrector, with no
warnings. -/
theorem component_normalized_fixed (h : Val → Int) (d : List (String × Val))
    (h1 : pyTruthy (gfld d "id") = true) (h2 : pyTruthy (gfld d "name") = true)
    (h3 : ∃ s, typeFieldOk (gfld d "type") COMPONENT_TYPES = some s)
    (h4 : pyMem (gfld d "authentication") [vstr "required", vstr "none"] = true)
    (h5 : pyMem (gfld d "authorization") [vstr "required", vstr "none"] = true)
    (h6 : pyMem (gfld d "data_sensitivity")
        [vstr "public", vstr "internal", vstr "confidential", vstr "restricted"] = true) :
    validate_and_correct_component h (vdict d) COMPONENT_TYPES =
      Except.ok ⟨true, [], vdict d⟩ := by
  obtain ⟨s, hs⟩ := h3
  have hsome := (typeFieldOk_spec _ _ _ hs).2.2
  simp only [validate_and_correct_component]
  rw [vcc_id_step_idem h (vdict d) d h1]
  dsimp only
  rw [vcc_name_step_idem d h2]
  dsimp only
  rw [vcc_type_step_idem d s hs]
  simp only [bind, Except.bind]
  cases hl : tlookup COMPONENT_TYPES s with
  | none => rw [hl] at hsome; simp at hsome
  | some info =>
    dsimp only
    rw [vc_field_step_idem d "authentication" _ _ _ h4]
    dsimp only
    rw [vc_field_step_idem d "authorization" _ _ _ h5]
    dsimp only
    rw [vc_field_step_idem d "data_sensitivity" _ _ _ h6]
    rfl

/-- Properties of the endpoint step: the field equals the returned key,
that key resolves in the components map, other fields unchanged. -/
theorem vcf_endpoint_step_spec (d : List (String × Val)) (key : String)
    (comps : List (Val × Val)) (p1 p2 : String) (w : List String)
    (d' : List (String × Val)) (k : Val)
    (h : vcf_endpoint_step d key comps p1 p2 = Except.ok (w, d', k)) :
    gfld d' key = k ∧ (vlookupE comps k).isSome = true ∧
    ∀ q, q ≠ key → gfld d' q = gfld d q := by
  unfold vcf_endpoint_step at h
  dsimp only at h
  by_cases hb : vkeyFieldOk (gfld d key) comps = true
  · rw [if_pos hb] at h
    simp only [Except.ok.injEq, Prod.mk.injEq] at h
    obtain ⟨hw, hd, hk⟩ := h
    subst hd
    subst hk
    have hb2 := hb
    simp only [vkeyFieldOk, Bool.and_eq_true] at hb2
    exact ⟨rfl, hb2.2, fun q _ => rfl⟩
  · rw [if_neg hb] at h
    cases comps with
    | nil => simp at h
    | cons p tl =>
      obtain ⟨k0, v0⟩ := p
      simp only [Except.ok.injEq, Prod.mk.injEq] at h
      obtain ⟨hw, hd, hk⟩ := h
      subst hd
      subst hk
      refine ⟨by rw [gfld_dset]; simp, by simp [vlookupE], ?_⟩
      intro q hq
      rw [gfld_dset, if_neg hq]

/-- The endpoint step is a no-op on a resolvable endpoint. -/
theorem vcf_endpoint_step_idem (d : List (String × Val)) (key : String)
    (comps : List (Val × Val)) (p1 p2 : String)
    (h0 : vkeyFieldOk (gfld d key) comps = true) :
    vcf_endpoint_step d key comps p1 p2 = Except.ok ([], d, gfld d key) := by
  unfold vcf_endpoint_step
  dsimp only
  rw [if_pos h0]

/-- `_detect_protocol` of the validators only ever returns a protocol that
passes the protocol-field check against COMMUNICATION_PROTOCOLS. -/
theorem validators_detect_protocol_ok (s t : Val) (p : String)
    (h : validators_detect_protocol s t COMMUNICATION_PROTOCOLS = Except.ok p) :
    protoFieldOk (vstr p) COMMUNICATION_PROTOCOLS = some p := by
  unfold validators_detect_protocol at h
  cases hg1 : pyGetD s "type" (vstr "") with
  | error e => rw [hg1] at h; simp [bind, Except.bind] at h
  | ok v1 =>
    rw [hg1] at h
    simp only [bind, Except.bind] at h
    cases hl1 : pyLower v1 with
    | error e => rw [hl1] at h; simp at h
    | ok s1 =>
      rw [hl1] at h
      dsimp only at h
      cases hg2 : pyGetD t "type" (vstr "") with
      | error e => rw [hg2] at h; simp at h
      | ok v2 =>
        rw [hg2] at h
        dsimp only at h
        cases hl2 : pyLower v2 with
        | error e => rw [hl2] at h; simp at h
        | ok s2 =>
          rw [hl2] at h
          dsimp only at h
          split_ifs at h <;> simp only [Except.ok.injEq] at h <;> rw [← h] <;> decide

/-- Properties of the protocol step. -/
theorem vcf_protocol_step_spec (d : List (String × Val)) (sk tk : Val)
    (m : List (Val × Val)) (w : List String) (d' : List (String × Val)) (p : String)
    (h : vcf_protocol_step d sk tk m COMMUNICATION_PROTOCOLS = Except.ok (w, d', p)) :
    protoFieldOk (gfld d' "protocol") COMMUNICATION_PROTOCOLS = some p ∧
    ∀ q, q ≠ "protocol" → gfld d' q = gfld d q := by
  unfold vcf_protocol_step at h
  dsimp only at h
  cases hok : protoFieldOk (gfld d "protocol") COMMUNICATION_PROTOCOLS with
  | some s =>
    rw [hok] at h
    simp only [Except.ok.injEq, Prod.mk.injEq] at h
    obtain ⟨hw, hd, hp⟩ := h
    subst hd
    subst hp
    exact ⟨hok, fun q _ => rfl⟩
  | none =>
    rw [hok] at h
    cases hdp : validators_detect_protocol ((vlookupE m sk).getD vnone)
        ((vlookupE m tk).getD vnone) COMMUNICATION_PROTOCOLS with
    | error e => rw [hdp] at h; simp [bind, Except.bind] at h
    | ok p0 =>
      rw [hdp] at h
      simp only [bind, Except.bind, pure, Except.pure, Except.ok.injEq,
        Prod.mk.injEq] at h
      obtain ⟨hw, hd, hp⟩ := h
      subst hd
      subst hp
      constructor
      · rw [gfld_dset]
        simp [validators_detect_protocol_ok _ _ _ hdp]
      · intro q hq
        rw [gfld_dset, if_neg hq]

/-- The protocol step is a no-op on a valid protocol. -/
theorem vcf_protocol_step_idem (d : List (String × Val)) (sk tk : Val)
    (m : List (Val × Val)) (protos : List (String × ProtoInfo)) (s : String)
    (h0 : protoFieldOk (gfld d "protocol") protos = some s) :
    vcf_protocol_step d sk tk m protos = Except.ok ([], d, s) := by
  unfold vcf_protocol_step
  dsimp only
  rw [h0]

/-- A `plookup` hit comes from a table entry. -/
theorem plookup_mem (tbl : List (String × ProtoInfo)) (s : String) (info : ProtoInfo)
    (h : plookup tbl s = some info) : (s, info) ∈ tbl := by
  induction tbl with
  | nil => simp [plookup] at h
  | cons p tl ih =>
    obtain ⟨k0, v0⟩ := p
    by_cases h0 : k0 = s
    · subst h0
      simp [plookup] at h
      subst h
      exact List.mem_cons_self _ _
    · simp [plookup, h0] at h
      exact List.mem_cons_of_mem _ (ih h)

/-- Decomposition of a successful `protoFieldOk`. -/
theorem protoFieldOk_spec (pv : Val) (ps : List (String × ProtoInfo)) (s : String)
    (h : protoFieldOk pv ps = some s) :
    pv = vstr s ∧ s ≠ "" ∧ (plookup ps s).isSome = true := by
  cases pv <;> simp [protoFieldOk] at h
  case vstr s0 =>
    by_cases h1 : s0 = "" <;> by_cases h2 : (plookup ps s0).isSome = true <;>
      simp [h1, h2] at h
    subst h
    exact ⟨rfl, h1, h2⟩

/-- Every COMMUNICATION_PROTOCOLS entry declares legal security defaults. -/
theorem COMMUNICATION_PROTOCOLS_defaults_ok :
    ∀ p ∈ COMMUNICATION_PROTOCOLS,
      vstr p.2.authentication ∈ [vstr "required", vstr "none"] ∧
      vstr p.2.authorization ∈ [vstr "required", vstr "none"] := by
  intro p hp
  fin_cases hp <;> exact ⟨by decide, by decide⟩

/-- Any result of the flow corrector has resolvable-in-the-map endpoints, a
valid protocol and legal security attributes. -/
theorem flow_ok_normalized (f : Val) (m : List (Val × Val)) (r : VcResult)
    (hr : validate_and_correct_flow f m COMMUNICATION_PROTOCOLS = Except.ok r) :
    ∃ d, r.corrected_data = vdict d ∧
      (vlookupE m (gfld d "source")).isSome = true ∧
      (vlookupE m (gfld d "target")).isSome = true ∧
      (∃ s, protoFieldOk (gfld d "protocol") COMMUNICATION_PROTOCOLS = some s) ∧
      pyMem (gfld d "authentication") [vstr "required", vstr "none"] = true ∧
      pyMem (gfld d "authorization") [vstr "required", vstr "none"] = true ∧
      pyMem (gfld d "encryption") [vbool true, vbool false] = true := by
  cases f with
  | vnone => exact absurd hr (by simp [validate_and_correct_flow])
  | vbool b => exact absurd hr (by simp [validate_and_correct_flow])
  | vnum q => exact absurd hr (by simp [validate_and_correct_flow])
  | vstr s => exact absurd hr (by simp [validate_and_correct_flow])
  | vlist l => exact absurd hr (by simp [validate_and_correct_flow])
  | vdict d0 =>
  simp only [validate_and_correct_flow] at hr
  cases hp1 : vcf_endpoint_step d0 "source" m
      "Source invalide: " ", utilisation de la première source valide" with
  | error e => rw [hp1] at hr; exact absurd hr (by simp [bind, Except.bind])
  | ok t1 =>
    obtain ⟨w1, d1, sk⟩ := t1
    rw [hp1] at hr
    simp only [bind, Except.bind] at hr
    obtain ⟨hs1, hm1, hpre1⟩ := vcf_endpoint_step_spec _ _ _ _ _ _ _ _ hp1
    cases hp2 : vcf_endpoint_step d1 "target" m
        "Cible invalide: " ", utilisation de la première cible valide" with
    | error e => rw [hp2] at hr; exact absurd hr (by simp)
    | ok t2 =>
      obtain ⟨w2, d2, tk⟩ := t2
      rw [hp2] at hr
      dsimp only at hr
      obtain ⟨hs2, hm2, hpre2⟩ := vcf_endpoint_step_spec _ _ _ _ _ _ _ _ hp2
      cases hp3 : vcf_protocol_step d2 sk tk m COMMUNICATION_PROTOCOLS with
      | error e => rw [hp3] at hr; exact absurd hr (by simp)
      | ok t3 =>
        obtain ⟨w3, d3, pr⟩ := t3
        rw [hp3] at hr
        dsimp only at hr
        obtain ⟨hpr3, hpre3⟩ := vcf_protocol_step_spec _ _ _ _ _ _ _ hp3
        have hsome := (protoFieldOk_spec _ _ _ hpr3).2.2
        cases hl : plookup COMMUNICATION_PROTOCOLS pr with
        | none => rw [hl] at hsome; simp at hsome
        | some info =>
          rw [hl] at hr
          dsimp only at hr
          cases hp4 : vc_field_step d3 "authentication" [vstr "required", vstr "none"]
            (vstr info.authentication)
            ("Authentication invalide, utilisation de la valeur par défaut: " ++ info.authentication)
            with | mk w4 d4 =>
          cases hp5 : vc_field_step d4 "authorization" [vstr "required", vstr "none"]
            (vstr info.authorization)
            ("Authorization invalide, utilisation de la valeur par défaut: " ++ info.authorization)
            with | mk w5 d5 =>
          cases hp6 : vc_field_step d5 "encryption" [vbool true, vbool false]
            (vbool info.encryption)
            ("Encryption invalide, utilisation de la valeur par défaut: " ++ (if info.encryption then "True" else "False"))
            with | mk w6 d6 =>
          rw [hp4] at hr
          dsimp only at hr
          rw [hp5] at hr
          dsimp only at hr
          rw [hp6] at hr
          dsimp only at hr
          simp only [pure, Except.pure, Except.ok.injEq] at hr
          obtain ⟨hauth, hauthz⟩ :=
            COMMUNICATION_PROTOCOLS_defaults_ok (pr, info) (plookup_mem _ _ _ hl)
          have e4 : ∀ q, q ≠ "authentication" → gfld d4 q = gfld d3 q := by
            intro q hq
            have := vc_field_step_preserves d3 "authentication" [vstr "required", vstr "none"]
              (vstr info.authentication)
              ("Authentication invalide, utilisation de la valeur par défaut: " ++ info.authentication) q hq
            rwa [hp4] at this
          have e5 : ∀ q, q ≠ "authorization" → gfld d5 q = gfld d4 q := by
            intro q hq
            have := vc_field_step_preserves d4 "authorization" [vstr "required", vstr "none"]
              (vstr info.authorization)
              ("Authorization invalide, utilisation de la valeur par défaut: " ++ info.authorization) q hq
            rwa [hp5] at this
          have e6 : ∀ q, q ≠ "encryption" → gfld d6 q = gfld d5 q := by
            intro q hq
            have := vc_field_step_preserves d5 "encryption" [vbool true, vbool false]
              (vbool info.encryption)
              ("Encryption invalide, utilisation de la valeur par défaut: " ++ (if info.encryption then "True" else "False")) q hq
            rwa [hp6] at this
          refine ⟨d6, by rw [← hr], ?_, ?_, ⟨pr, ?_⟩, ?_, ?_, ?_⟩
          · rw [e6 _ (by decide), e5 _ (by decide), e4 _ (by decide),
              hpre3 _ (by decide), hpre2 _ (by decide), hs1]
            exact hm1
          · rw [e6 _ (by decide), e5 _ (by decide), e4 _ (by decide),
              hpre3 _ (by decide), hs2]
            exact hm2
          · rw [e6 _ (by decide), e5 _ (by decide), e4 _ (by decide)]
            exact hpr3
          · rw [e6 _ (by decide), e5 _ (by decide)]
            have := vc_field_step_mem d3 "authentication" [vstr "required", vstr "none"]
              (vstr info.authentication)
              ("Authentication invalide, utilisation de la valeur par défaut: " ++ info.authentication)
              hauth
            rwa [hp4] at this
          · rw [e6 _ (by decide)]
            have := vc_field_step_mem d4 "authorization" [vstr "required", vstr "none"]
              (vstr info.authorization)
              ("Authorization invalide, utilisation de la valeur par défaut: " ++ info.authorization)
              hauthz
            rwa [hp5] at this
          · have := vc_field_step_mem d5 "encryption" [vbool true, vbool false]
              (vbool info.encryption)
              ("Encryption invalide, utilisation de la valeur par défaut: " ++ (if info.encryption then "True" else "False"))
              (by cases info.encryption <;> decide)
            rwa [hp6] at this

/-- A normalized flow with truthy endpoints is a fixed point of the flow
corrector, with no warnings. -/
theorem flow_normalized_fixed (d : List (String × Val)) (m : List (Val × Val))
    (h1 : pyTruthy (gfld d "source") = true)
    (h1b : (vlookupE m (gfld d "source")).isSome = true)
    (h2 : pyTruthy (gfld d "target") = true)
    (h2b : (vlookupE m (gfld d "target")).isSome = true)
    (h3 : ∃ s, protoFieldOk (gfld d "protocol") COMMUNICATION_PROTOCOLS = some s)
    (h4 : pyMem (gfld d "authentication") [vstr "required", vstr "none"] = true)
    (h5 : pyMem (gfld d "authorization") [vstr "required", vstr "none"] = true)
    (h6 : pyMem (gfld d "encryption") [vbool true, vbool false] = true) :
    validate_and_correct_flow (vdict d) m COMMUNICATION_PROTOCOLS =
      Except.ok ⟨true, [], vdict d⟩ := by
  obtain ⟨s, hs⟩ := h3
  have hsome := (protoFieldOk_spec _ _ _ hs).2.2
  have hk1 : vkeyFieldOk (gfld d "source") m = true := by
    simp [vkeyFieldOk, h1, h1b]
  have hk2 : vkeyFieldOk (gfld d "target") m = true := by
    simp [vkeyFieldOk, h2, h2b]
  simp only [validate_and_correct_flow]
  rw [vcf_endpoint_step_idem d "source" m _ _ hk1]
  simp only [bind, Except.bind]
  rw [vcf_endpoint_step_idem d "target" m _ _ hk2]
  dsimp only
  rw [vcf_protocol_step_idem d _ _ m COMMUNICATION_PROTOCOLS s hs]
  dsimp only
  cases hl : plookup COMMUNICATION_PROTOCOLS s with
  | none => rw [hl] at hsome; simp at hsome
  | some info =>
    dsimp only
    rw [vc_field_step_idem d "authentication" _ _ _ h4]
    dsimp only
    rw [vc_field_step_idem d "authorization" _ _ _ h5]
    dsimp only
    rw [vc_field_step_idem d "encryption" _ _ _ h6]
    rfl

/-- The threat-id step is a no-op on a known id. -/
theorem vct_id_step_idem (h : Val → Int) (t : Val) (d : List (String × Val))
    (kt : List (Val × Val)) (h0 : vkeyFieldOk (gfld d "id") kt = true) :
    vct_id_step h t d kt = ([], d) := by
  simp [vct_id_step, h0]

/-- The risk-level step is a no-op on a known level. -/
theorem vct_risk_step_idem (d : List (String × Val)) (rl : List (Val × Val))
    (h0 : vkeyFieldOk (gfld d "risk") rl = true) : vct_risk_step d rl = ([], d) := by
  simp [vct_risk_step, h0]

/-- After the score step the risk score is a number in `[0, 1]`. -/
theorem vct_score_step_sound (d : List (String × Val)) :
    ∃ q, asNumLike ((dlookup (vct_score_step d).2 "risk_score").getD (vnum 0)) = some q ∧
      0 ≤ q ∧ q ≤ 1 := by
  unfold vct_score_step
  dsimp only
  cases hn : asNumLike ((dlookup d "risk_score").getD (vnum 0)) with
  | some q =>
    dsimp only
    by_cases h01 : 0 ≤ q ∧ q ≤ 1
    · rw [if_pos h01]
      exact ⟨q, hn, h01⟩
    · rw [if_neg h01]
      dsimp only
      refine ⟨1 / 2, ?_, by norm_num⟩
      rw [dlookup_dset]
      simp [asNumLike]
  | none =>
    dsimp only
    refine ⟨1 / 2, ?_, by norm_num⟩
    rw [dlookup_dset]
    simp [asNumLike]

/-- The score step is a no-op on a numeric score in `[0, 1]`. -/
theorem vct_score_step_idem (d : List (String × Val)) (q : ℚ)
    (hq : asNumLike ((dlookup d "risk_score").getD (vnum 0)) = some q)
    (h01 : 0 ≤ q ∧ q ≤ 1) : vct_score_step d = ([], d) := by
  simp [vct_score_step, hq, h01]

/-- Claim C7.  The spec claims all three validate-and-correct functions are
idempotent on their own corrected output, with an empty second-round warning
list.  As stated this fails for the threat corrector (see the
counterexample); the property amended by the failure analysis holds: the
component corrector is unconditionally idempotent, the flow corrector is
idempotent whenever the corrected source and target are truthy, and the
threat corrector is idempotent whenever the corrected id and risk level are
known to the maps it is re-run against. -/
theorem C7_idempotent_on_normalized_outputs :
    (∀ (h : Val → Int) (c : Val) (r : VcResult),
      validate_and_correct_component h c COMPONENT_TYPES = Except.ok r →
      validate_and_correct_component h r.corrected_data COMPONENT_TYPES =
        Except.ok ⟨true, [], r.corrected_data⟩) ∧
    (∀ (f : Val) (m : List (Val × Val)) (r : VcResult),
      validate_and_correct_flow f m COMMUNICATION_PROTOCOLS = Except.ok r →
      pyTruthy (vget r.corrected_data "source" vnone) = true →
      pyTruthy (vget r.corrected_data "target" vnone) = true →
      validate_and_correct_flow r.corrected_data m COMMUNICATION_PROTOCOLS =
        Except.ok ⟨true, [], r.corrected_data⟩) ∧
    (∀ (h : Val → Int) (t : Val) (kt rl : List (Val × Val)) (r : VcResult),
      validate_and_correct_threat h t kt rl = Except.ok r →
      vkeyFieldOk (vget r.corrected_data "id" vnone) kt = true →
      vkeyFieldOk (vget r.corrected_data "risk" vnone) rl = true →
      validate_and_correct_threat h r.corrected_data kt rl =
        Except.ok ⟨true, [], r.corrected_data⟩) := by
  refine ⟨?_, ?_, ?_⟩
  · intro h c r hr
    obtain ⟨d, hd, h1, h2, h3, h4, h5, h6⟩ := component_ok_normalized h c r hr
    rw [hd]
    exact component_normalized_fixed h d h1 h2 h3 h4 h5 h6
  · intro f m r hr hsrc htgt
    obtain ⟨d, hd, hm1, hm2, h3, h4, h5, h6⟩ := flow_ok_normalized f m r hr
    rw [hd] at hsrc htgt ⊢
    exact flow_normalized_fixed d m hsrc hm1 htgt hm2 h3 h4 h5 h6
  · intro h t kt rl r hr hid hrisk
    cases t with
    | vnone => exact absurd hr (by simp [validate_and_correct_threat])
    | vbool b => exact absurd hr (by simp [validate_and_correct_threat])
    | vnum q => exact absurd hr (by simp [validate_and_correct_threat])
    | vstr s => exact absurd hr (by simp [validate_and_correct_threat])
    | vlist l => exact absurd hr (by simp [validate_and_correct_threat])
    | vdict d0 =>
    simp only [validate_and_correct_threat] at hr
    cases hp1 : vct_id_step h (vdict d0) d0 kt with | mk w1 d1 =>
    cases hp2 : vct_risk_step d1 rl with | mk w2 d2 =>
    cases hp3 : vct_score_step d2 with | mk w3 d3 =>
    rw [hp1] at hr
    dsimp only at hr
    rw [hp2] at hr
    dsimp only at hr
    rw [hp3] at hr
    dsimp only at hr
    simp only [Except.ok.injEq] at hr
    subst hr
    obtain ⟨q, hq, h01⟩ := vct_score_step_sound d2
    rw [hp3] at hq
    dsimp only at hq
    simp only [validate_and_correct_threat]
    rw [vct_id_step_idem h (vdict d3) d3 kt hid]
    dsimp only
    rw [vct_risk_step_idem d3 rl hrisk]
    dsimp only
    rw [vct_score_step_idem d3 q hq h01]
    rfl

/-- Witness for C7: a normalized component, flow and threat, each a fixed
point of its corrector with no warnings. -/
theorem C7_idempotent_on_normalized_outputs_witness :
    validate_and_correct_component hzero compC7 COMPONENT_TYPES =
      Except.ok ⟨true, [], compC7⟩ ∧
    validate_and_correct_flow flowC7 compsC7 COMMUNICATION_PROTOCOLS =
      Except.ok ⟨true, [], flowC7⟩ ∧
    validate_and_correct_threat hzero threatC7 ktC7 rlC7 =
      Except.ok ⟨true, [], threatC7⟩ :=
  ⟨C7_idempotent_on_normalized_outputs.1 hzero compC7 ⟨true, [], compC7⟩ (by decide),
   C7_idempotent_on_normalized_outputs.2.1 flowC7 compsC7 ⟨true, [], flowC7⟩
     (by decide) (by decide) (by decide),
   C7_idempotent_on_normalized_outputs.2.2 hzero threatC7 ktC7 rlC7
     ⟨true, [], threatC7⟩ (by decide) (by decide) (by decide)⟩

/-- Membership through the insertion step of the stable sort. -/
theorem mem_insertSorted (le : Val → Val → Bool) (x y : Val) (l : List Val) :
    y ∈ insertSorted le x l ↔ y = x ∨ y ∈ l := by
  induction l with
  | nil => simp [insertSorted]
  | cons z zs ih =>
    unfold insertSorted
    by_cases h : le z x = true
    · rw [if_pos h]
      simp only [List.mem_cons, ih]
      try tauto
    · rw [if_neg h]
      simp only [List.mem_cons]
      try tauto

/-- The stable sort permutes its input (membership direction used here). -/
theorem mem_stableSort (le : Val → Val → Bool) (l : List Val) (y : Val)
    (h : y ∈ stableSort le l) : y ∈ l := by
  have haux : ∀ (ls acc : List Val),
      y ∈ ls.foldl (fun a x => insertSorted le x a) acc → y ∈ acc ∨ y ∈ ls := by
    intro ls
    induction ls with
    | nil =>
      intro acc ha
      exact Or.inl ha
    | cons x xs ih =>
      intro acc ha
      rw [List.foldl_cons] at ha
      rcases ih (insertSorted le x acc) ha with hacc | hxs
      · rcases (mem_insertSorted le x y acc).mp hacc with hx | hacc2
        · exact Or.inr (by rw [hx]; exact List.mem_cons_self x xs)
        · exact Or.inl hacc2
      · exact Or.inr (List.mem_cons_of_mem x hxs)
  rcases haux l [] h with hacc | hl
  · exact absurd hacc (List.not_mem_nil y)
  · exact hl

/-- The update loop writes a priority consistent with the written score. -/
theorem crs_update_priority (tctx : ThreatContext) (t u : Val)
    (h : crs_update tctx t = Except.ok u) :
    vget u "priority" vnone =
      vstr (determine_priority ((asNumLike (vget u "risk_score" (vnum 0))).getD 0)) := by
  unfold crs_update at h
  cases hcf : calculate_context_factor tctx t with
  | error e => rw [hcf] at h; simp [bind, Except.bind] at h
  | ok cf =>
    rw [hcf] at h
    simp only [bind, Except.bind] at h
    cases hrs : pyGetD t "risk_score" (vnum 0) with
    | error e => rw [hrs] at h; simp at h
    | ok rs =>
      rw [hrs] at h
      dsimp only at h
      cases hn : asNumLike rs with
      | none => rw [hn] at h; simp at h
      | some q =>
        rw [hn] at h
        cases t with
        | vnone => simp at h
        | vbool b => simp at h
        | vnum q0 => simp at h
        | vstr s => simp at h
        | vlist l => simp at h
        | vdict dd =>
          dsimp only at h
          simp only [Except.ok.injEq] at h
          subst h
          have hp : dlookup (dset (dset dd "risk_score" (vnum (min (q * cf) 1)))
              "priority" (vstr (determine_priority (min (q * cf) 1)))) "priority" =
              some (vstr (determine_priority (min (q * cf) 1))) := by
            rw [dlookup_dset]
            simp
          have hrsc : dlookup (dset (dset dd "risk_score" (vnum (min (q * cf) 1)))
              "priority" (vstr (determine_priority (min (q * cf) 1)))) "risk_score" =
              some (vnum (min (q * cf) 1)) := by
            rw [dlookup_dset]
            simp only [if_neg (by decide : ¬ ("risk_score" = "priority"))]
            rw [dlookup_dset]
            simp
          simp only [vget, hp, hrsc, Option.getD_some]
          simp [asNumLike]

/-- Every threat emitted by `_calculate_risk_scores` carries the priority
dictated by its own final risk score. -/
theorem calculate_risk_scores_priority (tctx : ThreatContext) (ts out : List Val)
    (h : calculate_risk_scores tctx ts = Except.ok out) :
    ∀ t ∈ out, vget t "priority" vnone =
      vstr (determine_priority ((asNumLike (vget t "risk_score" (vnum 0))).getD 0)) := by
  intro t ht
  unfold calculate_risk_scores at h
  cases hm : ts.mapM (crs_update tctx) with
  | error e => rw [hm] at h; simp [bind, Except.bind] at h
  | ok updated =>
    rw [hm] at h
    simp only [bind, Except.bind, pure, Except.pure, Except.ok.injEq] at h
    subst h
    obtain ⟨a, ha, hfa⟩ := mapM_ok_mem _ _ _ hm t (mem_stableSort _ _ _ ht)
    exact crs_update_priority tctx a t hfa

/-- A successful `Except` bind factors through a successful first stage. -/
theorem except_bind_ok {α β : Type} (e : Except String α) (k : α → Except String β)
    (b : β) (h : (e >>= k) = Except.ok b) :
    ∃ a, e = Except.ok a ∧ k a = Except.ok b := by
  cases e with
  | error err => simp [bind, Except.bind] at h
  | ok a => exact ⟨a, rfl, by simpa [bind, Except.bind] using h⟩

/-- Claim C8.  Every threat returned by `ThreatDetector.detect_threats`
(simple or composite) carries a `priority` equal to the fixed threshold
mapping (`critical` from 0.8, `high` from 0.6, `medium` from 0.4, else
`low`) applied to its final post-adjustment `risk_score`: the final
update-and-sort pass recomputes the priority of every threat from the
rescaled score, and sorting does not change the threats. -/
theorem C8_priority_matches_final_risk_score :
    ∀ (h : Val → Int) (cells components flows out : List Val) (t : Val),
      detect_threats h cells components flows = Except.ok out →
      t ∈ out →
      vget t "priority" vnone =
        vstr (determine_priority ((asNumLike (vget t "risk_score" (vnum 0))).getD 0)) := by
  intro h cells components flows out t hout ht
  unfold detect_threats at hout
  obtain ⟨cbid, h1, hout⟩ := except_bind_ok _ _ _ hout
  try dsimp only at hout
  obtain ⟨fbid, h2, hout⟩ := except_bind_ok _ _ _ hout
  try dsimp only at hout
  obtain ⟨threats, h3, hout⟩ := except_bind_ok _ _ _ hout
  try dsimp only at hout
  obtain ⟨st, h4, hout⟩ := except_bind_ok _ _ _ hout
  obtain ⟨tctx, improved⟩ := st
  try dsimp only at hout
  obtain ⟨composites, h5, hout⟩ := except_bind_ok _ _ _ hout
  try dsimp only at hout
  exact calculate_risk_scores_priority tctx (improved ++ composites) out hout t ht

/-- Witness for C8 at a concrete diagram: the single detected threat of the
one-cell `login` diagram satisfies the priority/score relation. -/
theorem C8_priority_matches_final_risk_score_witness :
    vget c8threat "priority" vnone =
      vstr (determine_priority ((asNumLike (vget c8threat "risk_score" (vnum 0))).getD 0)) :=
  C8_priority_matches_final_risk_score hzero [cellLogin] [] [] c8out c8threat
    (by decide) (by decide)

/-- The unique-id scan never drops a seen id. -/
theorem uid_scan_seen_mono (st st' : List Val × List String) (e v : Val)
    (h : uid_scan st e = Except.ok st') (hv : v ∈ st.1) : v ∈ st'.1 := by
  obtain ⟨seen, errs⟩ := st
  unfold uid_scan at h
  dsimp only at h hv
  cases hk : pyContainsKey e "id" with
  | error e0 => rw [hk] at h; simp [bind, Except.bind] at h
  | ok b =>
    rw [hk] at h
    simp only [bind, Except.bind] at h
    cases b with
    | false =>
      simp only [Bool.false_eq_true, if_false, Except.ok.injEq] at h
      subst h
      exact hv
    | true =>
      simp only [eq_self_iff_true, if_true] at h
      cases hx : pyIndexStr e "id" with
      | error e0 => rw [hx] at h; simp at h
      | ok idv =>
        rw [hx] at h
        dsimp only at h
        by_cases hh : pyHashable idv = true
        · rw [if_neg (not_not_intro hh)] at h
          simp only [Except.ok.injEq] at h
          subst h
          exact (mem_setAdd seen idv v).mpr (Or.inl hv)
        · rw [if_pos hh] at h
          simp at h

/-- The unique-id scan never drops a reported error. -/
theorem uid_scan_errs_mono (st st' : List Val × List String) (e : Val) (msg : String)
    (h : uid_scan st e = Except.ok st') (hm : msg ∈ st.2) : msg ∈ st'.2 := by
  obtain ⟨seen, errs⟩ := st
  unfold uid_scan at h
  dsimp only at h hm
  cases hk : pyContainsKey e "id" with
  | error e0 => rw [hk] at h; simp [bind, Except.bind] at h
  | ok b =>
    rw [hk] at h
    simp only [bind, Except.bind] at h
    cases b with
    | false =>
      simp only [Bool.false_eq_true, if_false, Except.ok.injEq] at h
      subst h
      exact hm
    | true =>
      simp only [eq_self_iff_true, if_true] at h
      cases hx : pyIndexStr e "id" with
      | error e0 => rw [hx] at h; simp at h
      | ok idv =>
        rw [hx] at h
        dsimp only at h
        by_cases hh : pyHashable idv = true
        · rw [if_neg (not_not_intro hh)] at h
          simp only [Except.ok.injEq] at h
          subst h
          by_cases hd : idv ∈ seen
          · simp only [if_pos hd]
            exact List.mem_append_left _ hm
          · simp only [if_neg hd]
            exact hm
        · rw [if_pos hh] at h
          simp at h

/-- Scanning an entry that carries an id records that id. -/
theorem uid_scan_adds_id (st st' : List Val × List String) (e x : Val)
    (h : uid_scan st e = Except.ok st')
    (hk : pyContainsKey e "id" = Except.ok true)
    (hx : pyIndexStr e "id" = Except.ok x) : x ∈ st'.1 := by
  obtain ⟨seen, errs⟩ := st
  unfold uid_scan at h
  dsimp only at h
  rw [hk] at h
  simp only [bind, Except.bind, eq_self_iff_true, if_true] at h
  rw [hx] at h
  dsimp only at h
  by_cases hh : pyHashable x = true
  · rw [if_neg (not_not_intro hh)] at h
    simp only [Except.ok.injEq] at h
    subst h
    exact (mem_setAdd seen x x).mpr (Or.inr rfl)
  · rw [if_pos hh] at h
    simp at h

/-- Scanning an entry whose id was already seen reports the duplicate. -/
theorem uid_scan_reports_dup (st st' : List Val × List String) (e x : Val)
    (h : uid_scan st e = Except.ok st')
    (hk : pyContainsKey e "id" = Except.ok true)
    (hx : pyIndexStr e "id" = Except.ok x)
    (hseen : x ∈ st.1) : ("ID dupliqué trouvé: " ++ pyStr x) ∈ st'.2 := by
  obtain ⟨seen, errs⟩ := st
  unfold uid_scan at h
  dsimp only at h
  dsimp only at hseen
  rw [hk] at h
  simp only [bind, Except.bind, eq_self_iff_true, if_true] at h
  rw [hx] at h
  dsimp only at h
  by_cases hh : pyHashable x = true
  · rw [if_neg (not_not_intro hh)] at h
    simp only [Except.ok.injEq] at h
    subst h
    simp only [if_pos hseen]
    exact List.mem_append_right _ (List.mem_singleton.mpr rfl)
  · rw [if_pos hh] at h
    simp at h

/-- Seen ids persist through a whole scan fold. -/
theorem uid_fold_seen_mono (l : List Val) :
    ∀ (st st' : List Val × List String), l.foldlM uid_scan st = Except.ok st' →
    ∀ v, v ∈ st.1 → v ∈ st'.1 := by
  induction l with
  | nil =>
    intro st st' h v hv
    simp only [List.foldlM_nil, pure, Except.pure, Except.ok.injEq] at h
    subst h
    exact hv
  | cons e tl ih =>
    intro st st' h v hv
    rw [List.foldlM_cons] at h
    obtain ⟨st1, hstep, hrest⟩ := except_bind_ok _ _ _ h
    exact ih st1 st' hrest v (uid_scan_seen_mono st st1 e v hstep hv)

/-- Reported errors persist through a whole scan fold. -/
theorem uid_fold_errs_mono (l : List Val) :
    ∀ (st st' : List Val × List String), l.foldlM uid_scan st = Except.ok st' →
    ∀ msg, msg ∈ st.2 → msg ∈ st'.2 := by
  induction l with
  | nil =>
    intro st st' h msg hm
    simp only [List.foldlM_nil, pure, Except.pure, Except.ok.injEq] at h
    subst h
    exact hm
  | cons e tl ih =>
    intro st st' h msg hm
    rw [List.foldlM_cons] at h
    obtain ⟨st1, hstep, hrest⟩ := except_bind_ok _ _ _ h
    exact ih st1 st' hrest msg (uid_scan_errs_mono st st1 e msg hstep hm)

/-- `_validate_unique_ids` reports every duplicate within the components
and technical-assets collections. -/
theorem validate_unique_ids_reports_dup
    (dd : List (String × Val)) (comps assets pre mid post : List Val)
    (ea eb x : Val) (errs : List String)
    (h1 : dlookup dd "components" = some (vlist comps))
    (h2 : dlookup dd "technical_assets" = some (vlist assets))
    (happ : comps ++ assets = pre ++ (ea :: (mid ++ (eb :: post))))
    (hka : pyContainsKey ea "id" = Except.ok true)
    (hxa : pyIndexStr ea "id" = Except.ok x)
    (hkb : pyContainsKey eb "id" = Except.ok true)
    (hxb : pyIndexStr eb "id" = Except.ok x)
    (hok : validate_unique_ids (vdict dd) = Except.ok errs) :
    ("ID dupliqué trouvé: " ++ pyStr x) ∈ errs := by
  have hc1 : pyContainsKey (vdict dd) "components" = Except.ok true := by
    simp [pyContainsKey, h1]
  have hi1 : pyIndexStr (vdict dd) "components" = Except.ok (vlist comps) := by
    simp [pyIndexStr, h1]
  have hc2 : pyContainsKey (vdict dd) "technical_assets" = Except.ok true := by
    simp [pyContainsKey, h2]
  have hi2 : pyIndexStr (vdict dd) "technical_assets" = Except.ok (vlist assets) := by
    simp [pyIndexStr, h2]
  unfold validate_unique_ids at hok
  rw [hc1, hi1, hc2, hi2] at hok
  simp only [bind, Except.bind, pyIter, eq_self_iff_true, if_true] at hok
  cases hst1 : comps.foldlM uid_scan ([], ([] : List String)) with
  | error e0 => rw [hst1] at hok; simp at hok
  | ok st1 =>
    rw [hst1] at hok
    dsimp only at hok
    cases hst2 : assets.foldlM uid_scan st1 with
    | error e0 => rw [hst2] at hok; simp at hok
    | ok st2 =>
      rw [hst2] at hok
      simp only [Except.ok.injEq] at hok
      have hfold : (comps ++ assets).foldlM uid_scan ([], ([] : List String)) =
          Except.ok st2 := by
        rw [List.foldlM_append, hst1]
        simpa [bind, Except.bind] using hst2
      rw [happ, List.foldlM_append] at hfold
      obtain ⟨stA, hpre, hrest⟩ := except_bind_ok _ _ _ hfold
      rw [List.foldlM_cons] at hrest
      obtain ⟨stB, hstepA, hrest⟩ := except_bind_ok _ _ _ hrest
      rw [List.foldlM_append] at hrest
      obtain ⟨stC, hmid, hrest⟩ := except_bind_ok _ _ _ hrest
      rw [List.foldlM_cons] at hrest
      obtain ⟨stD, hstepB, hpost⟩ := except_bind_ok _ _ _ hrest
      have hxB : x ∈ stB.1 := uid_scan_adds_id stA stB ea x hstepA hka hxa
      have hxC : x ∈ stC.1 := uid_fold_seen_mono mid stB stC hmid x hxB
      have hmsg := uid_scan_reports_dup stC stD eb x hstepB hkb hxb hxC
      have hfin := uid_fold_errs_mono post stD st2 hpost _ hmsg
      rw [← hok]
      exact hfin

/-- Claim C9.  The claim states that `validate_yaml` reports a duplicated
id whatever collection(s) it occurs in.  The counterexample shows ids
duplicated among `data_assets` pass silently; the property amended to the
code's actual scope holds: any id occurring in two entries of the
components/technical-assets stream is reported among the errors and forces
`is_valid` to False. -/
theorem C9_duplicate_component_asset_ids_reported :
    ∀ (dd : List (String × Val)) (comps assets pre mid post : List Val)
      (ea eb x : Val) (errs warns : List String),
      dlookup dd "components" = some (vlist comps) →
      dlookup dd "technical_assets" = some (vlist assets) →
      comps ++ assets = pre ++ (ea :: (mid ++ (eb :: post))) →
      pyContainsKey ea "id" = Except.ok true →
      pyIndexStr ea "id" = Except.ok x →
      pyContainsKey eb "id" = Except.ok true →
      pyIndexStr eb "id" = Except.ok x →
      validate_yaml_core (vdict dd) = Except.ok (errs, warns) →
      ("ID dupliqué trouvé: " ++ pyStr x) ∈ errs ∧
      (validate_yaml_data (vdict dd)).is_valid = false := by
  intro dd comps assets pre mid post ea eb x errs warns h1 h2 happ hka hxa hkb hxb hok
  have hok0 := hok
  unfold validate_yaml_core at hok
  obtain ⟨e0, g0, hok⟩ := except_bind_ok _ _ _ hok
  try dsimp only at hok
  obtain ⟨p1, g1, hok⟩ := except_bind_ok _ _ _ hok
  obtain ⟨e1s, w1s⟩ := p1
  try dsimp only at hok
  obtain ⟨p2, g2, hok⟩ := except_bind_ok _ _ _ hok
  obtain ⟨e2s, w2s⟩ := p2
  try dsimp only at hok
  obtain ⟨p3, g3, hok⟩ := except_bind_ok _ _ _ hok
  obtain ⟨e3s, w3s⟩ := p3
  try dsimp only at hok
  obtain ⟨p4, g4, hok⟩ := except_bind_ok _ _ _ hok
  obtain ⟨e4s, w4s⟩ := p4
  try dsimp only at hok
  obtain ⟨p5, g5, hok⟩ := except_bind_ok _ _ _ hok
  obtain ⟨e5s, w5s⟩ := p5
  try dsimp only at hok
  obtain ⟨e6, g6, hok⟩ := except_bind_ok _ _ _ hok
  try dsimp only at hok
  obtain ⟨e7, g7, hok⟩ := except_bind_ok _ _ _ hok
  try dsimp only at hok
  obtain ⟨e8, g8, hok⟩ := except_bind_ok _ _ _ hok
  try dsimp only at hok
  simp only [pure, Except.pure, Except.ok.injEq, Prod.mk.injEq] at hok
  obtain ⟨herr, hw⟩ := hok
  have hdup := validate_unique_ids_reports_dup dd comps assets pre mid post ea eb x e7
    h1 h2 happ hka hxa hkb hxb g7
  have hmem : ("ID dupliqué trouvé: " ++ pyStr x) ∈ errs := by
    rw [← herr]
    simp only [List.mem_append]
    tauto
  refine ⟨hmem, ?_⟩
  have htr : pyTruthy (vdict dd) = true := by
    cases dd with
    | nil => simp [dlookup] at h1
    | cons p tl => simp [pyTruthy]
  unfold validate_yaml_data
  rw [if_neg (not_not_intro htr), hok0]
  dsimp only
  cases errs with
  | nil => exact absurd hmem (List.not_mem_nil _)
  | cons a tl => rfl

/-- Witness for C9: a two-entry document sharing the id `x` across
components and technical assets is reported and rejected. -/
theorem C9_duplicate_component_asset_ids_reported_witness :
    ("ID dupliqué trouvé: " ++ pyStr (vstr "x")) ∈ c9res.1 ∧
    (validate_yaml_data (vdict c9doc)).is_valid = false :=
  C9_duplicate_component_asset_ids_reported c9doc
    [vdict [("id", vstr "x")]] [vdict [("id", vstr "x")]]
    [] [] [] (vdict [("id", vstr "x")]) (vdict [("id", vstr "x")]) (vstr "x")
    c9res.1 c9res.2
    (by decide) (by decide) (by decide) (by decide) (by decide) (by decide)
    (by decide) (by decide)

/-- Claim C10.  The claim states the correction layer always returns a
result with `is_valid` True.  The counterexample shows the flow corrector
can instead raise StopIteration; the property amended to the actual
behaviour holds: whenever any of the three correctors does return a
result, that result's `is_valid` field is True — no input is ever
rejected through the result value. -/
theorem C10_correctors_never_reject :
    (∀ (h : Val → Int) (c : Val) (ct : List (String × TypeInfo)) (r : VcResult),
      validate_and_correct_component h c ct = Except.ok r → r.is_valid = true) ∧
    (∀ (f : Val) (m : List (Val × Val)) (ps : List (String × ProtoInfo)) (r : VcResult),
      validate_and_correct_flow f m ps = Except.ok r → r.is_valid = true) ∧
    (∀ (h : Val → Int) (t : Val) (kt rl : List (Val × Val)) (r : VcResult),
      validate_and_correct_threat h t kt rl = Except.ok r → r.is_valid = true) := by
  refine ⟨?_, ?_, ?_⟩
  · intro h c ct r hr
    cases c with
    | vnone => exact absurd hr (by simp [validate_and_correct_component])
    | vbool b => exact absurd hr (by simp [validate_and_correct_component])
    | vnum q => exact absurd hr (by simp [validate_and_correct_component])
    | vstr s => exact absurd hr (by simp [validate_and_correct_component])
    | vlist l => exact absurd hr (by simp [validate_and_correct_component])
    | vdict d0 =>
      simp only [validate_and_correct_component] at hr
      obtain ⟨trip, hstep, hr⟩ := except_bind_ok _ _ _ hr
      try dsimp only at hr
      cases hl : tlookup ct trip.2.2 with
      | none =>
        rw [hl] at hr
        dsimp only at hr
        simp only [Except.ok.injEq] at hr
        rw [← hr]
      | some info =>
        rw [hl] at hr
        dsimp only at hr
        simp only [Except.ok.injEq] at hr
        rw [← hr]
  · intro f m ps r hr
    cases f with
    | vnone => exact absurd hr (by simp [validate_and_correct_flow])
    | vbool b => exact absurd hr (by simp [validate_and_correct_flow])
    | vnum q => exact absurd hr (by simp [validate_and_correct_flow])
    | vstr s => exact absurd hr (by simp [validate_and_correct_flow])
    | vlist l => exact absurd hr (by simp [validate_and_correct_flow])
    | vdict d0 =>
      simp only [validate_and_correct_flow] at hr
      obtain ⟨t1, hs1, hr⟩ := except_bind_ok _ _ _ hr
      try dsimp only at hr
      obtain ⟨t2, hs2, hr⟩ := except_bind_ok _ _ _ hr
      try dsimp only at hr
      obtain ⟨t3, hs3, hr⟩ := except_bind_ok _ _ _ hr
      try dsimp only at hr
      cases hl : plookup ps t3.2.2 with
      | none =>
        rw [hl] at hr
        dsimp only at hr
        simp only [Except.ok.injEq] at hr
        rw [← hr]
      | some info =>
        rw [hl] at hr
        dsimp only at hr
        simp only [Except.ok.injEq] at hr
        rw [← hr]
  · intro h t kt rl r hr
    cases t with
    | vnone => exact absurd hr (by simp [validate_and_correct_threat])
    | vbool b => exact absurd hr (by simp [validate_and_correct_threat])
    | vnum q => exact absurd hr (by simp [validate_and_correct_threat])
    | vstr s => exact absurd hr (by simp [validate_and_correct_threat])
    | vlist l => exact absurd hr (by simp [validate_and_correct_threat])
    | vdict d0 =>
      simp only [validate_and_correct_threat, Except.ok.injEq] at hr
      rw [← hr]

/-- Witness for C10: the three fixed-point inputs of the C7 witness all
yield results with `is_valid` True. -/
theorem C10_correctors_never_reject_witness :
    (VcResult.mk true [] compC7).is_valid = true ∧
    (VcResult.mk true [] flowC7).is_valid = true ∧
    (VcResult.mk true [] threatC7).is_valid = true :=
  ⟨C10_correctors_never_reject.1 hzero compC7 COMPONENT_TYPES
      (VcResult.mk true [] compC7) (by decide),
   C10_correctors_never_reject.2.1 flowC7 compsC7 COMMUNICATION_PROTOCOLS
      (VcResult.mk true [] flowC7) (by decide),
   C10_correctors_never_reject.2.2 hzero threatC7 ktC7 rlC7
      (VcResult.mk true [] threatC7) (by decide)⟩

end XmlYaml
